import Mathlib

/-!
Potential-field robot simulator (`rrsim.js`): embedding and verification.

The JavaScript program is embedded shallowly.  JavaScript numbers that hold
coordinates, gains and distances are elements of a linearly ordered field `R`
(the idealised reading of IEEE doubles); counters that the program only ever
increments, decrements or reduces with `%` (`config.homeBaseCounter`,
`obj.number`, `robot.targetNumber`) are integers.  The functions of the
JavaScript `Math` object that are not field operations are the class `JSMath`.
The two calls of `Math.random()` made by one tick are explicit arguments.
Object identity (what `Array.prototype.indexOf` compares) is the field `ref`.
Canvas drawing and DOM updates (`draw`, `updateStatus`, `updateToolButtons`)
have no effect on the simulation state and are left out.
-/

namespace RRSim

/-- Functions of the JavaScript `Math` object used by the program that are not
field operations. -/
class JSMath (R : Type) where
  sqrt : R → R
  cos : R → R
  sin : R → R
  atan2 : R → R → R
  PI : R

/-- The global `config` object. -/
structure Config (R : Type) where
  robotSize : R
  robotSpeed : R
  repulsiveForce : R
  attractiveForce : R
  noiseGain : R
  sensorRange : R
  boundaryForce : R
  numSensorPoints : Nat
  sensorPointSpacing : R
  homeBaseCounter : Int
  enableBoundary : Bool
  wallThickness : R
  minWallLength : R

/-- The two properties of the global `canvas` element that the program reads. -/
structure Canvas (R : Type) where
  width : R
  height : R

inductive STATES where
  | EDITING
  | RUNNING
  | PAUSED
  deriving DecidableEq, Repr

inductive OBJECT_TYPES where
  | WALL
  | HOMEBASE
  | OBSTACLE
  | START
  deriving DecidableEq, Repr

inductive TOOLS where
  | SELECT
  | WALL
  | HOMEBASE
  | OBSTACLE
  | START
  | DELETE
  deriving DecidableEq, Repr

/-! ## Vector2D and Line -/

structure Vector2D (R : Type) where
  x : R
  y : R
  deriving DecidableEq

namespace Vector2D

variable {R : Type} [LinearOrderedField R] [JSMath R]

/-- The value of `new Vector2D()`. -/
def zero : Vector2D R := ⟨0, 0⟩

def add (v w : Vector2D R) : Vector2D R := ⟨v.x + w.x, v.y + w.y⟩

def subtract (v w : Vector2D R) : Vector2D R := ⟨v.x - w.x, v.y - w.y⟩

def multiply (v : Vector2D R) (scalar : R) : Vector2D R := ⟨v.x * scalar, v.y * scalar⟩

def magnitude (v : Vector2D R) : R := JSMath.sqrt (v.x * v.x + v.y * v.y)

def normalize (v : Vector2D R) : Vector2D R :=
  let mag := v.magnitude
  if mag = 0 then zero else v.multiply (1 / mag)

def limit (v : Vector2D R) (max : R) : Vector2D R :=
  let mag := v.magnitude
  if mag > max then v.normalize.multiply max else ⟨v.x, v.y⟩

def dot (v w : Vector2D R) : R := v.x * w.x + v.y * w.y

end Vector2D

structure Line (R : Type) where
  start : Vector2D R
  end_ : Vector2D R

namespace Line

variable {R : Type} [LinearOrderedField R] [JSMath R]

def distanceToPoint (l : Line R) (point : Vector2D R) : R :=
  let line := l.end_.subtract l.start
  let len := line.magnitude
  if len = 0 then (point.subtract l.start).magnitude
  else
    let t := max 0 (min 1 ((point.subtract l.start).dot line / (len * len)))
    let projection := l.start.add (line.multiply t)
    (point.subtract projection).magnitude

end Line

/-! ## World objects -/

/-- The four shapes of object record the program puts in `world.objects`.
`ref` is the identity of the JavaScript object. -/
inductive WorldObject (R : Type) where
  | wall (ref : Nat) (start end_ : Vector2D R)
  | homebase (ref : Nat) (x y radius : R) (number : Int)
  | obstacle (ref : Nat) (x y radius : R)
  | start (ref : Nat) (x y radius : R)
  deriving DecidableEq

namespace WorldObject

variable {R : Type}

def ref : WorldObject R → Nat
  | wall r _ _ => r
  | homebase r _ _ _ _ => r
  | obstacle r _ _ _ => r
  | start r _ _ _ => r

def type : WorldObject R → OBJECT_TYPES
  | wall _ _ _ => .WALL
  | homebase _ _ _ _ _ => .HOMEBASE
  | obstacle _ _ _ _ => .OBSTACLE
  | start _ _ _ _ => .START

/-- The assignment `obj.number = n`; the program performs it on homebases only. -/
def setNumber (n : Int) : WorldObject R → WorldObject R
  | homebase r x y radius _ => homebase r x y radius n
  | o => o

/-- The value of `obj.number` (`undefined`, here `none`, unless a homebase). -/
def number? : WorldObject R → Option Int
  | homebase _ _ _ _ n => some n
  | _ => none

/-- The wall method `distanceToPoint` (it builds a `Line` from its endpoints). -/
def distanceToPoint [LinearOrderedField R] [JSMath R] (start end_ : Vector2D R)
    (point : Vector2D R) : R :=
  Line.distanceToPoint ⟨⟨start.x, start.y⟩, ⟨end_.x, end_.y⟩⟩ point

end WorldObject

/-! ## Sensors and the robot -/

/-- One entry `{ object, distance }` of `detectedObjects`. -/
structure Detection (R : Type) where
  object : WorldObject R
  distance : R
  deriving DecidableEq

/-- A sensor point; the back pointer `parent` is never read and is left out. -/
structure SensorPoint (R : Type) where
  position : Vector2D R
  detectedObjects : List (Detection R)
  deriving DecidableEq

namespace SensorPoint

variable {R : Type} [LinearOrderedField R] [JSMath R]

def update (_p : SensorPoint R) (x y : R) : SensorPoint R :=
  { position := ⟨x, y⟩, detectedObjects := [] }

def detect (cfg : Config R) (p : SensorPoint R) (object : WorldObject R) : SensorPoint R :=
  match object with
  | .wall _ s e =>
    let dist := WorldObject.distanceToPoint s e p.position
    if dist < cfg.sensorRange then
      { p with detectedObjects := p.detectedObjects ++ [⟨object, dist⟩] }
    else p
  | .homebase _ x y _ _ | .obstacle _ x y _ | .start _ x y _ =>
    let dist := JSMath.sqrt ((x - p.position.x) ^ 2 + (y - p.position.y) ^ 2)
    if dist < cfg.sensorRange then
      { p with detectedObjects := p.detectedObjects ++ [⟨object, dist⟩] }
    else p

end SensorPoint

/-- The robot.  `targetNumber` is `none` when the JavaScript value is `NaN`
(the result of `% 0`). -/
structure Robot (R : Type) where
  position : Vector2D R
  velocity : Vector2D R
  acceleration : Vector2D R
  angle : R
  sensorPoints : List (SensorPoint R)
  targetNumber : Option Int
  collisionRadius : R
  deriving DecidableEq

/-- JavaScript `a % b` on integers: truncated remainder, `NaN` (`none`) for `b = 0`. -/
def jsMod (a b : Int) : Option Int :=
  if b = 0 then none else some (Int.tmod a b)

namespace Robot

variable {R : Type} [LinearOrderedField R] [JSMath R]

/-- The angle of sensor `i`: `(i * Math.PI * 2) / config.numSensorPoints`. -/
def sensorAngle (cfg : Config R) (i : Nat) : R :=
  ((i : R) * JSMath.PI * 2) / (cfg.numSensorPoints : R)

def initializeSensorPoints (cfg : Config R) (r : Robot R) : Robot R :=
  { r with sensorPoints := (List.range cfg.numSensorPoints).map fun i =>
      { position := ⟨r.position.x + JSMath.cos (sensorAngle cfg i) * cfg.sensorRange,
                     r.position.y + JSMath.sin (sensorAngle cfg i) * cfg.sensorRange⟩,
        detectedObjects := [] } }

/-- The constructor `new Robot(x, y)`. -/
def new (cfg : Config R) (x y : R) : Robot R :=
  initializeSensorPoints cfg
    { position := ⟨x, y⟩, velocity := Vector2D.zero, acceleration := Vector2D.zero,
      angle := 0, sensorPoints := [], targetNumber := some 1,
      collisionRadius := cfg.robotSize / 2 }

def updateSensorPoints (cfg : Config R) (r : Robot R) : Robot R :=
  { r with sensorPoints := r.sensorPoints.mapIdx fun i point =>
      point.update (r.position.x + JSMath.cos (sensorAngle cfg i) * cfg.sensorRange)
                   (r.position.y + JSMath.sin (sensorAngle cfg i) * cfg.sensorRange) }

def applyForce (r : Robot R) (force : Vector2D R) : Robot R :=
  { r with acceleration := r.acceleration.add force }

/-- One step of the `forEach` body of `detectCollisions`. -/
def collisionStep (cfg : Config R) (r : Robot R) (collision : Bool) (obj : WorldObject R) : Bool :=
  match obj with
  | .wall _ s e =>
    let dist := WorldObject.distanceToPoint s e r.position
    if dist < r.collisionRadius + cfg.wallThickness / 2 then true else collision
  | .obstacle _ x y radius =>
    let dist := JSMath.sqrt ((x - r.position.x) ^ 2 + (y - r.position.y) ^ 2)
    if dist < r.collisionRadius + radius then true else collision
  | _ => collision

def detectCollisions (cfg : Config R) (r : Robot R) (objects : List (WorldObject R)) : Bool :=
  objects.foldl (collisionStep cfg r) false

/-- The detection pass of `calculateForces` for one sensor. -/
def senseObjects (cfg : Config R) (objects : List (WorldObject R)) (sensor : SensorPoint R) :
    SensorPoint R :=
  objects.foldl (fun s obj =>
    if obj.type ≠ .HOMEBASE ∧ obj.type ≠ .START then s.detect cfg obj else s) sensor

/-- The force `repulsionForce` computed for one detection. -/
def repulsionForce (cfg : Config R) (r : Robot R) (detection : Detection R) : Vector2D R :=
  match detection.object with
  | .wall _ s e =>
    let normalizedDist := detection.distance / cfg.sensorRange
    let repulsion := (1 - normalizedDist) * cfg.repulsiveForce
    let direction := (r.position.subtract
      ⟨s.x + (e.x - s.x) / 2, s.y + (e.y - s.y) / 2⟩).normalize
    direction.multiply repulsion
  | .homebase _ x y _ _ | .obstacle _ x y _ | .start _ x y _ =>
    let normalizedDist := detection.distance / cfg.sensorRange
    let repulsion := (1 - normalizedDist) * cfg.repulsiveForce
    let direction := (r.position.subtract ⟨x, y⟩).normalize
    direction.multiply repulsion

/-- The repulsion pass: every detection of every sensor applies its force. -/
def applyRepulsion (cfg : Config R) (r : Robot R) : Robot R :=
  r.sensorPoints.foldl (fun r sensor =>
    sensor.detectedObjects.foldl (fun r detection =>
      r.applyForce (repulsionForce cfg r detection)) r) r

/-- The search `world.objects.find(obj => obj.type === HOMEBASE && obj.number === targetNumber)`.
A homebase has a number, so a `NaN` target (`none`) matches no object. -/
def findTarget (objects : List (WorldObject R)) (targetNumber : Option Int) :
    Option (WorldObject R) :=
  objects.find? fun obj =>
    decide (obj.type = .HOMEBASE) && decide (obj.number? = targetNumber)

/-- The attraction part of `calculateForces`. -/
def applyAttraction (cfg : Config R) (objects : List (WorldObject R)) (r : Robot R) : Robot R :=
  match findTarget objects r.targetNumber with
  | some (.homebase _ x y radius _) =>
    let targetPos : Vector2D R := ⟨x, y⟩
    let distanceToTarget := (r.position.subtract targetPos).magnitude
    if distanceToTarget < radius + r.collisionRadius then
      { r with targetNumber :=
          (r.targetNumber.bind fun t => jsMod t cfg.homeBaseCounter).map (· + 1) }
    else
      r.applyForce (((targetPos.subtract r.position).normalize).multiply cfg.attractiveForce)
  | _ => r

/-- The vector `boundaryForce` built when `config.enableBoundary` holds. -/
def boundaryForce (cfg : Config R) (canvas : Canvas R) (r : Robot R) : Vector2D R :=
  let margin : R := 50
  let fx : R :=
    if r.position.x < margin then (margin - r.position.x) * (cfg.boundaryForce / margin)
    else if r.position.x > canvas.width - margin then
      (canvas.width - margin - r.position.x) * (cfg.boundaryForce / margin)
    else 0
  let fy : R :=
    if r.position.y < margin then (margin - r.position.y) * (cfg.boundaryForce / margin)
    else if r.position.y > canvas.height - margin then
      (canvas.height - margin - r.position.y) * (cfg.boundaryForce / margin)
    else 0
  ⟨fx, fy⟩

/-- The method `calculateForces(world)`; `u1`, `u2` are the values returned by the
two calls of `Math.random()`. -/
def calculateForces (cfg : Config R) (canvas : Canvas R) (objects : List (WorldObject R))
    (u1 u2 : R) (r : Robot R) : Robot R :=
  let r := { r with acceleration := Vector2D.zero }
  let r := { r with sensorPoints := r.sensorPoints.map (senseObjects cfg objects) }
  let r := applyRepulsion cfg r
  let r := applyAttraction cfg objects r
  let noise : Vector2D R := ⟨(u1 * 2 - 1) * cfg.noiseGain, (u2 * 2 - 1) * cfg.noiseGain⟩
  let r := r.applyForce noise
  if cfg.enableBoundary then r.applyForce (boundaryForce cfg canvas r) else r

/-- The method `update()` of the robot (integration). -/
def update (cfg : Config R) (canvas : Canvas R) (r : Robot R) : Robot R :=
  let r := { r with velocity := r.velocity.add r.acceleration }
  let r := { r with velocity := r.velocity.limit cfg.robotSpeed }
  let r := { r with position := r.position.add r.velocity }
  let r := { r with position :=
    ⟨max r.collisionRadius (min (canvas.width - r.collisionRadius) r.position.x), r.position.y⟩ }
  let r := { r with position :=
    ⟨r.position.x, max r.collisionRadius (min (canvas.height - r.collisionRadius) r.position.y)⟩ }
  let r := if r.velocity.magnitude > 1 / 100 then
      { r with angle := JSMath.atan2 r.velocity.y r.velocity.x } else r
  let r := updateSensorPoints cfg r
  { r with acceleration := Vector2D.zero }

end Robot

/-! ## The world and the page state -/

/-- The fields of the `World` instance. -/
structure World (R : Type) where
  objects : List (WorldObject R)
  robot : Option (Robot R)
  state : STATES
  selectedTool : TOOLS
  selectedObject : Option Nat
  dragStart : Option (Vector2D R)
  tempObject : Option (WorldObject R)
  deriving DecidableEq

/-- The mutable globals of the page: `config`, `canvas` and `world`. -/
structure Sim (R : Type) where
  config : Config R
  canvas : Canvas R
  world : World R

namespace World

variable {R : Type} [LinearOrderedField R] [JSMath R]

/-- The value of `new World()`. -/
def new : World R :=
  { objects := [], robot := none, state := .EDITING, selectedTool := .SELECT,
    selectedObject := none, dragStart := none, tempObject := none }

def addObject (s : Sim R) (object : WorldObject R) : Sim R :=
  let robot : Option (Robot R) :=
    match object, s.world.robot with
    | .start _ x y _, none => some (Robot.new s.config x y)
    | _, robot => robot
  if object.type = .HOMEBASE then
    let counter := s.config.homeBaseCounter + 1
    { s with
      config := { s.config with homeBaseCounter := counter }
      world := { s.world with
        robot := robot, objects := s.world.objects ++ [object.setNumber counter] } }
  else
    { s with world := { s.world with robot := robot, objects := s.world.objects ++ [object] } }

/-- The renumbering loop of `removeObject`: every homebase of the list, in order,
gets `currentNumber++`. -/
def renumber (currentNumber : Int) : List (WorldObject R) → List (WorldObject R)
  | [] => []
  | obj :: rest =>
    if obj.type = .HOMEBASE then
      obj.setNumber currentNumber :: renumber (currentNumber + 1) rest
    else obj :: renumber currentNumber rest

/-- The method `removeObject(object)`; `indexOf` compares object identity. -/
def removeObject (s : Sim R) (object : WorldObject R) : Sim R :=
  match s.world.objects.findIdx? (fun o => o.ref == object.ref) with
  | some index =>
    let s :=
      if object.type = .HOMEBASE then
        { s with
          config := { s.config with homeBaseCounter := s.config.homeBaseCounter - 1 }
          world := { s.world with objects := renumber 1 s.world.objects } }
      else s
    { s with world := { s.world with objects := s.world.objects.eraseIdx index } }
  | none => s

/-- The method `update()` of the world: one tick, with the two random draws. -/
def update (s : Sim R) (u1 u2 : R) : Sim R :=
  match s.world.robot with
  | some robot =>
    if s.world.state = .RUNNING then
      let previousPosition : Vector2D R := ⟨robot.position.x, robot.position.y⟩
      let robot := robot.calculateForces s.config s.canvas s.world.objects u1 u2
      let robot := robot.update s.config s.canvas
      let robot :=
        if robot.detectCollisions s.config s.world.objects then
          { robot with position := previousPosition, velocity := Vector2D.zero }
        else robot
      { s with world := { s.world with robot := some robot } }
    else s
  | none => s

def reset (s : Sim R) : Sim R :=
  let robot : Option (Robot R) :=
    match s.world.robot with
    | some robot =>
      match s.world.objects.find? (fun obj => decide (obj.type = .START)) with
      | some (.start _ x y _) =>
        some { robot with
          position := ⟨x, y⟩, velocity := Vector2D.zero, acceleration := Vector2D.zero,
          targetNumber := some 1 }
      | _ => some robot
    | none => none
  { s with world := { s.world with
      robot := robot, state := .EDITING, selectedObject := none, dragStart := none,
      tempObject := none } }

def clear (s : Sim R) : Sim R :=
  { s with
    config := { s.config with homeBaseCounter := 0 }
    world := { s.world with objects := [], robot := none } }

end World

/-! ## Persistence -/

/-- An object record of a saved document (`number` may be absent). -/
inductive Record (R : Type) where
  | wall (start end_ : Vector2D R)
  | homebase (x y radius : R) (number : Option R)
  | obstacle (x y radius : R)
  | start (x y radius : R)
  deriving DecidableEq

namespace Record

variable {R : Type}

def type : Record R → OBJECT_TYPES
  | wall _ _ => .WALL
  | homebase _ _ _ _ => .HOMEBASE
  | obstacle _ _ _ => .OBSTACLE
  | start _ _ _ => .START

/-- The sort key `(a.number || 0)`. -/
def numberOrZero [Zero R] : Record R → R
  | homebase _ _ _ (some n) => n
  | _ => 0

/-- The object literal that `deserialize` builds from a record.  A homebase gets
its number from `addObject`; until then the field holds 0. -/
def toObject (ref : Nat) : Record R → WorldObject R
  | wall s e => .wall ref ⟨s.x, s.y⟩ ⟨e.x, e.y⟩
  | homebase x y radius _ => .homebase ref x y radius 0
  | obstacle x y radius => .obstacle ref x y radius
  | start x y radius => .start ref x y radius

end Record

/-- The `config` object of a saved document: each key may be present or absent. -/
structure DocConfig (R : Type) where
  homeBaseCounter : Option Int
  robotSize : Option R
  robotSpeed : Option R
  repulsiveForce : Option R
  attractiveForce : Option R
  noiseGain : Option R
  sensorRange : Option R
  boundaryForce : Option R
  numSensorPoints : Option Nat
  sensorPointSpacing : Option R
  enableBoundary : Option Bool
  wallThickness : Option R
  minWallLength : Option R

/-- The top-level `objects` field of a parsed document. -/
inductive ObjectsField (R : Type) where
  | missing
  | notArray
  | array (records : List (Record R))

/-- The value `worldData` returned by `JSON.parse`. -/
structure Document (R : Type) where
  objects : ObjectsField R
  config : Option (DocConfig R)

/-- The order `(a.number || 0) - (b.number || 0) <= 0` of the homebase sort. -/
def homebaseOrder {R : Type} [LinearOrderedField R] (a b : Record R) : Prop :=
  a.numberOrZero ≤ b.numberOrZero

instance {R : Type} [LinearOrderedField R] : DecidableRel (homebaseOrder : Record R → Record R → Prop) :=
  fun a b => inferInstanceAs (Decidable (a.numberOrZero ≤ b.numberOrZero))

instance homebaseOrder_total {R : Type} [LinearOrderedField R] :
    IsTotal (Record R) homebaseOrder :=
  ⟨fun a b => le_total a.numberOrZero b.numberOrZero⟩

instance homebaseOrder_trans {R : Type} [LinearOrderedField R] :
    IsTrans (Record R) homebaseOrder :=
  ⟨fun _ _ _ hab hbc => le_trans hab hbc⟩

namespace World

variable {R : Type} [LinearOrderedField R] [JSMath R]

/-- The record that `serialize` writes for one object. -/
def serializeObject : WorldObject R → Record R
  | .wall _ s e => .wall ⟨s.x, s.y⟩ ⟨e.x, e.y⟩
  | .homebase _ x y radius number => .homebase x y radius (some (number : R))
  | .obstacle _ x y radius => .obstacle x y radius
  | .start _ x y radius => .start x y radius

/-- The method `serialize()`; the result is the document that `JSON.parse` reads
back from the returned string. -/
def serialize (s : Sim R) : Document R :=
  { objects := .array (s.world.objects.map serializeObject)
    config := some
      { homeBaseCounter := some s.config.homeBaseCounter
        robotSize := none
        robotSpeed := some s.config.robotSpeed
        repulsiveForce := some s.config.repulsiveForce
        attractiveForce := some s.config.attractiveForce
        noiseGain := some s.config.noiseGain
        sensorRange := some s.config.sensorRange
        boundaryForce := some s.config.boundaryForce
        numSensorPoints := none
        sensorPointSpacing := none
        enableBoundary := some s.config.enableBoundary
        wallThickness := none
        minWallLength := none } }

/-- The statement `Object.assign(config, otherConfig)`, where `otherConfig` is the
document's `config` without `homeBaseCounter`. -/
def assignConfig (config : Config R) (doc : DocConfig R) : Config R :=
  { robotSize := doc.robotSize.getD config.robotSize
    robotSpeed := doc.robotSpeed.getD config.robotSpeed
    repulsiveForce := doc.repulsiveForce.getD config.repulsiveForce
    attractiveForce := doc.attractiveForce.getD config.attractiveForce
    noiseGain := doc.noiseGain.getD config.noiseGain
    sensorRange := doc.sensorRange.getD config.sensorRange
    boundaryForce := doc.boundaryForce.getD config.boundaryForce
    numSensorPoints := doc.numSensorPoints.getD config.numSensorPoints
    sensorPointSpacing := doc.sensorPointSpacing.getD config.sensorPointSpacing
    homeBaseCounter := config.homeBaseCounter
    enableBoundary := doc.enableBoundary.getD config.enableBoundary
    wallThickness := doc.wallThickness.getD config.wallThickness
    minWallLength := doc.minWallLength.getD config.minWallLength }

/-- The loops of `deserialize` that add objects: each record becomes a new object
literal (its reference is new; here the current length of the registry, which
started empty) and goes through `addObject`. -/
def addRecords (s : Sim R) (records : List (Record R)) : Sim R :=
  records.foldl (fun s obj => addObject s (obj.toObject s.world.objects.length)) s

/-- The method `deserialize(jsonString)`.  The argument is the result of
`JSON.parse(jsonString)`: `none` when it throws.  The first component of the
result is the returned boolean. -/
def deserialize (s : Sim R) (jsonString : Option (Document R)) : Bool × Sim R :=
  match jsonString with
  | none => (false, s)
  | some worldData =>
    let s := clear s
    match worldData.objects with
    | .missing => (false, s)
    | .notArray => (false, s)
    | .array records =>
      let s :=
        match worldData.config with
        | some docConfig => { s with config := assignConfig s.config docConfig }
        | none => s
      let s := addRecords s (records.filter fun obj => decide (obj.type ≠ .HOMEBASE))
      let homebases :=
        (records.filter fun obj => decide (obj.type = .HOMEBASE)).insertionSort homebaseOrder
      let s := addRecords s homebases
      (true, reset s)

end World

/-! ## The START tool of the editor -/

/-- The `TOOLS.START` case of `handleMouseDown` at canvas point `(x, y)`; `ref`
is the reference of the new object literal. -/
def handleMouseDownStart {R : Type} [LinearOrderedField R] [JSMath R]
    (s : Sim R) (ref : Nat) (x y : R) : Sim R :=
  if s.world.state ≠ .EDITING then s
  else
    let s :=
      match s.world.objects.find? (fun obj => decide (obj.type = .START)) with
      | some existingStart => World.removeObject s existingStart
      | none => s
    let s := World.addObject s (.start ref x y 10)
    { s with world := { s.world with robot := some (Robot.new s.config x y) } }

/-! ## The real-number reading and concrete worlds -/

/-- The `Math` functions over the real numbers. -/
noncomputable instance realMath : JSMath ℝ where
  sqrt := Real.sqrt
  cos := Real.cos
  sin := Real.sin
  atan2 := fun y x => Complex.arg ⟨x, y⟩
  PI := Real.pi

/-- The literal that initialises the global `config`. -/
def Config.initial {R : Type} [LinearOrderedField R] : Config R :=
  { robotSize := 20, robotSpeed := 3 / 2, repulsiveForce := 150, attractiveForce := 120,
    noiseGain := 2, sensorRange := 40, boundaryForce := 100, numSensorPoints := 24,
    sensorPointSpacing := 5, homeBaseCounter := 0, enableBoundary := true,
    wallThickness := 10, minWallLength := 40 }

/-- The page state right after `const world = new World()`. -/
def Sim.initial {R : Type} [LinearOrderedField R] (canvas : Canvas R) : Sim R :=
  { config := Config.initial, canvas := canvas, world := World.new }

/-- An 800 by 600 canvas. -/
def canvas800 {R : Type} [LinearOrderedField R] : Canvas R := { width := 800, height := 600 }

section Examples

variable {R : Type} [LinearOrderedField R] [JSMath R]

/-- Homebase literal placed at (100, 100) by the HOMEBASE tool. -/
def baseA : WorldObject R := .homebase 0 100 100 20 0

/-- Homebase literal placed at (300, 100). -/
def baseB : WorldObject R := .homebase 1 300 100 20 0

/-- Homebase literal placed at (500, 100). -/
def baseC : WorldObject R := .homebase 2 500 100 20 0

/-- The world after the HOMEBASE tool has placed A and then B. -/
def worldAB : Sim R :=
  World.addObject (World.addObject (Sim.initial canvas800) baseA) baseB

/-- The world after the HOMEBASE tool has placed A, B and then C. -/
def worldABC : Sim R := World.addObject worldAB baseC

/-- The initial configuration with the sensor ring switched off (`numSensorPoints`
is a key a loaded document may set). -/
def configNoSensors : Config R := { Config.initial with numSensorPoints := 0 }

/-- A running world: the START tool placed the agent at (400, 300), the OBSTACLE tool
put an obstacle of radius 15 on the same point, then Play was pressed. -/
def worldBlocked : Sim R :=
  let s := World.addObject
    (World.addObject { Sim.initial canvas800 with config := configNoSensors }
      (.start 0 400 300 10)) (.obstacle 1 400 300 15)
  { s with world := { s.world with state := .RUNNING } }

/-- The world `worldBlocked` after Pause was pressed. -/
def worldPaused : Sim R :=
  { worldBlocked with world := { (worldBlocked : Sim R).world with state := .PAUSED } }

/-- A running world with the wall from (200, 0) to (200, 100) and the agent started
at (350, 50). -/
def worldWall : Sim R :=
  let s := World.addObject
    (World.addObject { Sim.initial canvas800 with config := configNoSensors }
      (.start 0 350 50 10)) (.wall 1 ⟨200, 0⟩ ⟨200, 100⟩)
  { s with world := { s.world with state := .RUNNING } }

/-- The agent the START tool creates at (100, 100), the centre of homebase A. -/
def robotAtA : Robot R := Robot.new configNoSensors 100 100

/-- The world after the START tool was used once, at (100, 100). -/
def worldStartOnce : Sim R := handleMouseDownStart (Sim.initial canvas800) 0 100 100

/-- The world after the START tool was used a second time, at (300, 300). -/
def worldStartTwice : Sim R := handleMouseDownStart worldStartOnce 1 300 300

/-- The world after two calls of `addObject` with a Start object each. -/
def worldTwoStarts : Sim R :=
  World.addObject (World.addObject (Sim.initial canvas800) (.start 0 100 100 10))
    (.start 1 300 300 10)

/-- A parsed document without an `objects` field, whose `config` sets a new speed. -/
def documentWithoutObjects : Document R :=
  { objects := .missing
    config := some
      { homeBaseCounter := some 7, robotSize := none, robotSpeed := some 9,
        repulsiveForce := none, attractiveForce := none, noiseGain := none,
        sensorRange := none, boundaryForce := none, numSensorPoints := none,
        sensorPointSpacing := none, enableBoundary := none, wallThickness := none,
        minWallLength := none } }

/-- The START tool placed the agent at (100, 100), the HOMEBASE tool placed a homebase
at (300, 100), then Play was pressed. -/
def worldGoal : Sim R :=
  let s := World.addObject worldStartOnce (.homebase 1 300 100 20 0)
  { s with world := { s.world with state := .RUNNING } }

/-- The world `worldGoal` after one frame (random draws 1/2, 1/2) and Reset. -/
def worldGoalReset : Sim R := World.reset (World.update worldGoal (1 / 2) (1 / 2))

/-- Records of a document: a homebase numbered 2, an obstacle, a homebase without
number, and a second homebase numbered 2. -/
def recordsMixed : List (Record R) :=
  [.homebase 10 10 20 (some 2), .obstacle 50 50 15, .homebase 20 20 20 none,
    .homebase 30 30 20 (some 2)]

/-- A configuration without sensors and with `robotSize` 0 (both are keys a loaded
document may set). -/
def configPoint : Config R := { configNoSensors with robotSize := 0 }

/-- The agent created at (100, 100) under `configPoint`: its collision radius is 0. -/
def robotPoint : Robot R := Robot.new configPoint 100 100

/-- A registry with one homebase of radius 0 and number 1 at (100, 100). -/
def objectsPoint : List (WorldObject R) := [.homebase 0 100 100 0 1]

/-- A canvas 60 wide and 600 high. -/
def canvasNarrow : Canvas R := { width := 60, height := 600 }

/-- The agent created at (30, 300) under `configNoSensors`. -/
def robotNarrow : Robot R := Robot.new configNoSensors 30 300

/-- The initial configuration with one sensor point. -/
def configOneSensor : Config R := { Config.initial with numSensorPoints := 1 }

/-- The agent at (100, 100) with collision radius 10 and one sensor point, which lies at
angle 0 and distance 40 (the sensor range) from the centre, at (140, 100); it is the
value of `new Robot(100, 100)` under `configOneSensor` over the real numbers. -/
def robotOneSensor : Robot R :=
  { position := ⟨100, 100⟩, velocity := Vector2D.zero, acceleration := Vector2D.zero,
    angle := 0, sensorPoints := [⟨⟨140, 100⟩, []⟩], targetNumber := some 1,
    collisionRadius := 20 / 2 }

/-- A registry with an obstacle 10 units from (140, 100), a homebase on that point and
an obstacle exactly 40 units (the sensor range) from it. -/
def objectsNear : List (WorldObject R) :=
  [.obstacle 0 150 100 15, .homebase 1 140 100 20 1, .obstacle 2 180 100 15]

/-- A running world under `configOneSensor`: the agent was started at (100, 100) and an
obstacle of radius 15 stands at (150, 100), 10 units from the sensor point. -/
def worldSensing : Sim R :=
  let s := World.addObject
    (World.addObject { Sim.initial canvas800 with config := configOneSensor }
      (.start 0 100 100 10)) (.obstacle 1 150 100 15)
  { s with world := { s.world with state := .RUNNING } }

/-- The world `worldGoal` with the noise gain set to 0. -/
def worldQuiet : Sim R :=
  { worldGoal with config := { (worldGoal : Sim R).config with noiseGain := 0 } }

/-- The world after homebases A and B were placed, then A was removed, then
`removeObject` was called with homebase C, which the registry does not hold. -/
def worldAfterRemovals : Sim R :=
  World.removeObject (World.removeObject worldAB (.homebase 0 100 100 20 1)) baseC

end Examples

/-- The numbers of the homebases of a registry, in registry order. -/
def homebaseNumbers {R : Type} (objects : List (WorldObject R)) : List Int :=
  objects.filterMap WorldObject.number?

/-- Frames of the animation loop `animate` (drawing left out): each frame calls
`world.update()`, with the pair of random draws listed for it. -/
def animate {R : Type} [LinearOrderedField R] [JSMath R] (s : Sim R) (draws : List (R × R)) :
    Sim R :=
  draws.foldl (fun s u => World.update s u.1 u.2) s

/-! ## Notions used to state the properties -/

section Notions

variable {R : Type}

/-- The same object under another reference: two objects with equal `withRef 0`
agree in type, coordinates, radius, wall endpoints and homebase number. -/
def WorldObject.withRef (ref : Nat) : WorldObject R → WorldObject R
  | .wall _ s e => .wall ref s e
  | .homebase _ x y radius number => .homebase ref x y radius number
  | .obstacle _ x y radius => .obstacle ref x y radius
  | .start _ x y radius => .start ref x y radius

/-- The numbers 1, ..., K in ascending order. -/
def contiguousNumbers (K : Nat) : List Int := (List.range K).map fun (i : Nat) => (i : Int) + 1

/-- The number of Start objects of a registry. -/
def startCount (objects : List (WorldObject R)) : Nat :=
  objects.countP fun o => decide (o.type = .START)

/-- The number of START records of a list of document records. -/
def startRecords (records : List (Record R)) : Nat :=
  records.countP fun o => decide (o.type = .START)

/-- No object of the registry has the reference `ref`. -/
def Fresh (ref : Nat) (s : Sim R) : Prop := ∀ o ∈ s.world.objects, o.ref ≠ ref

/-- The objects (under reference 0) that `addRecords` appends for a list of records
when the homebase counter is `c`. -/
def numberFrom (c : Int) : List (Record R) → List (WorldObject R)
  | [] => []
  | obj :: rest =>
    if obj.type = .HOMEBASE then
      (obj.toObject 0).setNumber (c + 1) :: numberFrom (c + 1) rest
    else obj.toObject 0 :: numberFrom c rest

end Notions

/-- The point `s + u (e - s)` of the line through the endpoints `s`, `e` of a segment;
the closed segment is the set of these points for `0 ≤ u ≤ 1`. -/
def Line.pointAt {R : Type} [LinearOrderedField R] (l : Line R) (u : R) : Vector2D R :=
  l.start.add ((l.end_.subtract l.start).multiply u)

/-- The parameter `clamp(((p - s) · (e - s)) / |e - s|^2, 0, 1)`. -/
def Line.clampedParameter {R : Type} [LinearOrderedField R] [JSMath R] (l : Line R)
    (p : Vector2D R) : R :=
  max 0 (min 1 ((p.subtract l.start).dot (l.end_.subtract l.start) /
    (l.end_.subtract l.start).magnitude ^ 2))

/-- The segment from (200, 0) to (200, 100). -/
def wallLine {R : Type} [LinearOrderedField R] : Line R := ⟨⟨200, 0⟩, ⟨200, 100⟩⟩

section Editing

variable {R : Type} [LinearOrderedField R] [JSMath R]

/-- What the page can do to its state when the START tool is the only way a Start
object is placed: the START tool, `addObject` of a new object that is not a Start,
`removeObject`, `clear`, `reset`, a tick, a change of simulation state (the Play and
Pause buttons), and `deserialize` of a document with at most one START record. -/
inductive EditStep : Sim R → Sim R → Prop where
  | placeStart (s : Sim R) (ref : Nat) (x y : R) :
      Fresh ref s → EditStep s (handleMouseDownStart s ref x y)
  | add (s : Sim R) (object : WorldObject R) :
      object.type ≠ .START → Fresh object.ref s → EditStep s (World.addObject s object)
  | remove (s : Sim R) (object : WorldObject R) : EditStep s (World.removeObject s object)
  | clear (s : Sim R) : EditStep s (World.clear s)
  | reset (s : Sim R) : EditStep s (World.reset s)
  | tick (s : Sim R) (u1 u2 : R) : EditStep s (World.update s u1 u2)
  | setState (s : Sim R) (state : STATES) :
      EditStep s { s with world := { s.world with state := state } }
  | load (s : Sim R) (records : List (Record R)) (config : Option (DocConfig R)) :
      startRecords records ≤ 1 →
      EditStep s (World.deserialize s (some ⟨.array records, config⟩)).2
  | loadInvalid (s : Sim R) (worldData : Option (Document R)) :
      (∀ d, worldData = some d → ∀ records, d.objects ≠ .array records) →
      EditStep s (World.deserialize s worldData).2

/-- The states reachable from a world with an empty registry. -/
inductive Reachable : Sim R → Prop where
  | empty (s : Sim R) : s.world.objects = [] → Reachable s
  | step (s s' : Sim R) : Reachable s → EditStep s s' → Reachable s'

end Editing

/-! ## The parts of the acceleration -/

section Forces

variable {R : Type} [LinearOrderedField R] [JSMath R]

/-- The distance a sensor at `position` measures to an object: segment distance for
a wall, distance between centres for a circular object. -/
def measuredDistance (position : Vector2D R) : WorldObject R → R
  | .wall _ s e => WorldObject.distanceToPoint s e position
  | .homebase _ x y _ _ | .obstacle _ x y _ | .start _ x y _ =>
    JSMath.sqrt ((x - position.x) ^ 2 + (y - position.y) ^ 2)

/-- The sum of a list of vectors, added from the left starting at the zero vector. -/
def Vector2D.sum (vs : List (Vector2D R)) : Vector2D R :=
  vs.foldl (fun a v => a.add v) Vector2D.zero

/-- The reference point of an object: the midpoint of a wall, the centre of a circular
object. -/
def referencePoint : WorldObject R → Vector2D R
  | .wall _ s e => ⟨(s.x + e.x) / 2, (s.y + e.y) / 2⟩
  | .homebase _ x y _ _ | .obstacle _ x y _ | .start _ x y _ => ⟨x, y⟩

/-- The repulsion of one detection on an agent at `position`:
`normalize(position - ref) * ((1 - distance / sensorRange) * repulsiveForce)`. -/
def repulsionTerm (cfg : Config R) (position : Vector2D R) (d : Detection R) : Vector2D R :=
  ((position.subtract (referencePoint d.object)).normalize).multiply
    ((1 - d.distance / cfg.sensorRange) * cfg.repulsiveForce)

/-- All detections of a list of sensors, sensor by sensor. -/
def allDetections (sensors : List (SensorPoint R)) : List (Detection R) :=
  sensors.flatMap fun sensor => sensor.detectedObjects

/-- The attraction that `calculateForces` adds for a robot: nothing (the zero vector)
without a target or on reaching it, else `normalize(target - position) * attractiveForce`. -/
def attractionVector (cfg : Config R) (objects : List (WorldObject R)) (r : Robot R) :
    Vector2D R :=
  match Robot.findTarget objects r.targetNumber with
  | some (.homebase _ x y radius _) =>
    if (r.position.subtract ⟨x, y⟩).magnitude < radius + r.collisionRadius then Vector2D.zero
    else ((Vector2D.subtract ⟨x, y⟩ r.position).normalize).multiply cfg.attractiveForce
  | _ => Vector2D.zero

/-- The noise vector of a tick with random draws `u1`, `u2`. -/
def noiseVector (cfg : Config R) (u1 u2 : R) : Vector2D R :=
  ⟨(u1 * 2 - 1) * cfg.noiseGain, (u2 * 2 - 1) * cfg.noiseGain⟩

/-- The boundary force that `calculateForces` adds: `boundaryForce` when boundary
avoidance is enabled, nothing (the zero vector) otherwise. -/
def boundaryVector (cfg : Config R) (canvas : Canvas R) (r : Robot R) : Vector2D R :=
  if cfg.enableBoundary then Robot.boundaryForce cfg canvas r else Vector2D.zero

end Forces

/-! ## The registry methods as steps -/

section Registry

variable {R : Type} [LinearOrderedField R] [JSMath R]

/-- The number of Homebase entries of a registry. -/
def homebaseCount (objects : List (WorldObject R)) : Nat :=
  objects.countP fun o => decide (o.type = .HOMEBASE)

/-- One call of a registry method of the world.  The argument of `removeObject` is a
JavaScript object: when the registry holds it (an entry with the same reference), that
entry is the argument itself and so has the type of the argument. -/
inductive RegistryStep : Sim R → Sim R → Prop where
  | add (s : Sim R) (object : WorldObject R) : RegistryStep s (World.addObject s object)
  | remove (s : Sim R) (object : WorldObject R) :
      (∀ o ∈ s.world.objects, o.ref = object.ref → o.type = object.type) →
      RegistryStep s (World.removeObject s object)
  | clear (s : Sim R) : RegistryStep s (World.clear s)

/-- The states reached from an empty registry with counter 0 by calls of `addObject`,
`removeObject` and `clear`. -/
inductive RegistryReachable : Sim R → Prop where
  | empty (s : Sim R) :
      s.world.objects = [] → s.config.homeBaseCounter = 0 → RegistryReachable s
  | step (s s' : Sim R) : RegistryReachable s → RegistryStep s s' → RegistryReachable s'

end Registry

/-! # Verification -/

set_option linter.unusedSectionVars false

/-! ## Homebase numbering (C1, C2) -/

/-- C1 (evaluation at the failing input): from the empty world, adding two homebases
and removing the first leaves one homebase in the registry, the counter is 1, and that
homebase carries the number 2: the numbers present are not 1..counter. -/
theorem C1_remove_first_of_two_leaves_number_two :
    homebaseNumbers (World.removeObject (worldAB : Sim ℝ) baseA).world.objects = [2] ∧
    (World.removeObject (worldAB : Sim ℝ) baseA).config.homeBaseCounter = 1 := by
  refine ⟨?_, ?_⟩ <;> rfl

/-- C2 (evaluation at the failing input): in the registry holding homebases A, B, C
(numbers 1, 2, 3), removeObject(B) gives counter 2, but the remaining homebases A, C
carry the numbers 1 and 3: the second remaining homebase does not have number 2. -/
theorem C2_remove_middle_keeps_gap :
    homebaseNumbers (worldABC : Sim ℝ).world.objects = [1, 2, 3] ∧
    (worldABC : Sim ℝ).config.homeBaseCounter = 3 ∧
    (World.removeObject (worldABC : Sim ℝ) baseB).world.objects.map WorldObject.ref = [0, 2] ∧
    homebaseNumbers (World.removeObject (worldABC : Sim ℝ) baseB).world.objects = [1, 3] ∧
    (World.removeObject (worldABC : Sim ℝ) baseB).config.homeBaseCounter = 2 := by
  refine ⟨?_, ?_, ?_, ?_, ?_⟩ <;> rfl

/-! ## Frame lemmas for the force calculation -/

section Frame

variable {R : Type} [LinearOrderedField R] [JSMath R]

theorem repulsionForce_congr (cfg : Config R) (r r' : Robot R) (d : Detection R)
    (h : r'.position = r.position) :
    Robot.repulsionForce cfg r' d = Robot.repulsionForce cfg r d := by
  unfold Robot.repulsionForce
  rw [h]

theorem foldl_applyForce (cfg : Config R) (ds : List (Detection R)) (r : Robot R) :
    ds.foldl (fun r d => r.applyForce (Robot.repulsionForce cfg r d)) r =
      { r with acceleration :=
          ds.foldl (fun a d => a.add (Robot.repulsionForce cfg r d)) r.acceleration } := by
  induction ds generalizing r with
  | nil => rfl
  | cons d ds ih =>
    simp only [List.foldl_cons]
    rw [ih]
    have hc : ∀ d', Robot.repulsionForce cfg (r.applyForce (Robot.repulsionForce cfg r d)) d' =
        Robot.repulsionForce cfg r d' := fun d' => repulsionForce_congr cfg _ _ d' rfl
    simp only [hc]
    rfl

/-- The repulsion pass only changes the acceleration: it adds, sensor by sensor and
detection by detection, the repulsion force of each detection. -/
theorem applyRepulsion_eq (cfg : Config R) (r : Robot R) :
    Robot.applyRepulsion cfg r =
      { r with acceleration :=
          (r.sensorPoints.foldl (fun a sensor =>
            sensor.detectedObjects.foldl (fun a d => a.add (Robot.repulsionForce cfg r d)) a)
            r.acceleration) } := by
  unfold Robot.applyRepulsion
  have key : ∀ (sensors : List (SensorPoint R)) (r0 : Robot R),
      r0.position = r.position →
      sensors.foldl (fun r sensor =>
        sensor.detectedObjects.foldl (fun r detection =>
          r.applyForce (Robot.repulsionForce cfg r detection)) r) r0 =
      { r0 with acceleration :=
          (sensors.foldl (fun a sensor =>
            sensor.detectedObjects.foldl (fun a d => a.add (Robot.repulsionForce cfg r d)) a)
            r0.acceleration) } := by
    intro sensors
    induction sensors with
    | nil => intro r0 _; rfl
    | cons sensor sensors ih =>
      intro r0 h0
      simp only [List.foldl_cons]
      rw [foldl_applyForce]
      have hc : ∀ d', Robot.repulsionForce cfg r0 d' = Robot.repulsionForce cfg r d' :=
        fun d' => repulsionForce_congr cfg _ _ d' h0
      simp only [hc]
      exact ih _ h0
  exact key r.sensorPoints r rfl

theorem applyAttraction_position (cfg : Config R) (objects : List (WorldObject R))
    (r : Robot R) : (Robot.applyAttraction cfg objects r).position = r.position := by
  unfold Robot.applyAttraction
  split
  · dsimp only
    split_ifs <;> rfl
  · rfl

theorem applyAttraction_velocity (cfg : Config R) (objects : List (WorldObject R))
    (r : Robot R) : (Robot.applyAttraction cfg objects r).velocity = r.velocity := by
  unfold Robot.applyAttraction
  split
  · dsimp only
    split_ifs <;> rfl
  · rfl

theorem applyAttraction_collisionRadius (cfg : Config R) (objects : List (WorldObject R))
    (r : Robot R) :
    (Robot.applyAttraction cfg objects r).collisionRadius = r.collisionRadius := by
  unfold Robot.applyAttraction
  split
  · dsimp only
    split_ifs <;> rfl
  · rfl

theorem applyAttraction_angle (cfg : Config R) (objects : List (WorldObject R))
    (r : Robot R) : (Robot.applyAttraction cfg objects r).angle = r.angle := by
  unfold Robot.applyAttraction
  split
  · dsimp only
    split_ifs <;> rfl
  · rfl

theorem applyAttraction_sensorPoints (cfg : Config R) (objects : List (WorldObject R))
    (r : Robot R) : (Robot.applyAttraction cfg objects r).sensorPoints = r.sensorPoints := by
  unfold Robot.applyAttraction
  split
  · dsimp only
    split_ifs <;> rfl
  · rfl

theorem calculateForces_position (cfg : Config R) (canvas : Canvas R)
    (objects : List (WorldObject R)) (u1 u2 : R) (r : Robot R) :
    (r.calculateForces cfg canvas objects u1 u2).position = r.position := by
  unfold Robot.calculateForces
  simp only [applyRepulsion_eq]
  split <;> simp [Robot.applyForce, applyAttraction_position]

theorem calculateForces_velocity (cfg : Config R) (canvas : Canvas R)
    (objects : List (WorldObject R)) (u1 u2 : R) (r : Robot R) :
    (r.calculateForces cfg canvas objects u1 u2).velocity = r.velocity := by
  unfold Robot.calculateForces
  simp only [applyRepulsion_eq]
  split <;> simp [Robot.applyForce, applyAttraction_velocity]

theorem calculateForces_collisionRadius (cfg : Config R) (canvas : Canvas R)
    (objects : List (WorldObject R)) (u1 u2 : R) (r : Robot R) :
    (r.calculateForces cfg canvas objects u1 u2).collisionRadius = r.collisionRadius := by
  unfold Robot.calculateForces
  simp only [applyRepulsion_eq]
  split <;> simp [Robot.applyForce, applyAttraction_collisionRadius]

theorem update_collisionRadius (cfg : Config R) (canvas : Canvas R) (r : Robot R) :
    (r.update cfg canvas).collisionRadius = r.collisionRadius := by
  unfold Robot.update Robot.updateSensorPoints
  simp only
  split <;> rfl

theorem update_velocity (cfg : Config R) (canvas : Canvas R) (r : Robot R) :
    (r.update cfg canvas).velocity = (r.velocity.add r.acceleration).limit cfg.robotSpeed := by
  unfold Robot.update Robot.updateSensorPoints
  simp only
  split <;> rfl

theorem applyAttraction_none (cfg : Config R) (objects : List (WorldObject R)) (r : Robot R)
    (h : Robot.findTarget objects r.targetNumber = none) :
    Robot.applyAttraction cfg objects r = r := by
  unfold Robot.applyAttraction
  rw [h]

theorem applyAttraction_reached (cfg : Config R) (objects : List (WorldObject R)) (r : Robot R)
    (ref : Nat) (x y radius : R) (n : Int)
    (hfind : Robot.findTarget objects r.targetNumber = some (.homebase ref x y radius n))
    (hnear : (r.position.subtract ⟨x, y⟩).magnitude < radius + r.collisionRadius) :
    Robot.applyAttraction cfg objects r =
      { r with targetNumber :=
          (r.targetNumber.bind fun t => jsMod t cfg.homeBaseCounter).map (· + 1) } := by
  unfold Robot.applyAttraction
  rw [hfind]
  simp only [hnear, if_true]

/-- Homebases are invisible to the sensors. -/
theorem senseObjects_filter (cfg : Config R) (objects : List (WorldObject R))
    (sensor : SensorPoint R) :
    Robot.senseObjects cfg (objects.filter fun o => decide (o.type ≠ .HOMEBASE)) sensor =
      Robot.senseObjects cfg objects sensor := by
  unfold Robot.senseObjects
  induction objects generalizing sensor with
  | nil => rfl
  | cons o objects ih =>
    rw [List.filter_cons]
    by_cases h : o.type = .HOMEBASE
    · have hd : decide (o.type ≠ .HOMEBASE) = false := by simp [h]
      rw [hd]
      simp only [Bool.false_eq_true, if_false, List.foldl_cons]
      rw [ih]
      congr 1
      simp [h]
    · have hd : decide (o.type ≠ .HOMEBASE) = true := by simp [h]
      rw [hd]
      simp only [if_true, List.foldl_cons]
      rw [ih]

end Frame

theorem findTarget_filter {R : Type} (objects : List (WorldObject R)) (t : Option Int) :
    Robot.findTarget (objects.filter fun o => decide (o.type ≠ .HOMEBASE)) t = none := by
  unfold Robot.findTarget
  rw [List.find?_eq_none]
  intro o ho
  rw [List.mem_filter] at ho
  simpa using fun h => absurd h (by simpa using ho.2)

/-! ## Real-number lemmas -/

theorem sqrt_real (x : ℝ) : (JSMath.sqrt x : ℝ) = Real.sqrt x := rfl

theorem magnitude_zero : (Vector2D.zero : Vector2D ℝ).magnitude = 0 := by
  simp [Vector2D.magnitude, Vector2D.zero, sqrt_real]

theorem magnitude_mul_self (v : Vector2D ℝ) :
    v.magnitude * v.magnitude = v.x * v.x + v.y * v.y := by
  unfold Vector2D.magnitude
  rw [sqrt_real]
  apply Real.mul_self_sqrt
  nlinarith [mul_self_nonneg v.x, mul_self_nonneg v.y]

theorem magnitude_limit_le (v : Vector2D ℝ) (max : ℝ) (hmax : 0 ≤ max) :
    (v.limit max).magnitude ≤ max := by
  unfold Vector2D.limit
  by_cases h : v.magnitude > max
  · simp only [h, if_true]
    have hpos : 0 < v.magnitude := lt_of_le_of_lt hmax h
    have hne : v.magnitude ≠ 0 := ne_of_gt hpos
    have hsq := magnitude_mul_self v
    unfold Vector2D.normalize
    simp only [hne, if_false]
    have hmag : ((v.multiply (1 / v.magnitude)).multiply max).magnitude = max := by
      have e : v.x * (1 / v.magnitude) * max * (v.x * (1 / v.magnitude) * max) +
          v.y * (1 / v.magnitude) * max * (v.y * (1 / v.magnitude) * max) = max * max := by
        field_simp
        rw [hsq]
        ring
      show Real.sqrt (v.x * (1 / v.magnitude) * max * (v.x * (1 / v.magnitude) * max) +
          v.y * (1 / v.magnitude) * max * (v.y * (1 / v.magnitude) * max)) = max
      rw [e]
      exact Real.sqrt_mul_self hmax
    rw [hmag]
  · simp only [h, if_false]
    exact le_of_not_gt h

/-! ## Evaluation of the concrete worlds -/

theorem blocked_forces :
    (Robot.new (configNoSensors : Config ℝ) 400 300).calculateForces configNoSensors canvas800
      [.start 0 400 300 10, .obstacle 1 400 300 15] (1 / 2) (1 / 2) =
      Robot.new configNoSensors 400 300 := by
  unfold Robot.calculateForces
  simp only [applyRepulsion_eq]
  rw [applyAttraction_none]
  · norm_num [Robot.new, configNoSensors, Config.initial, Robot.initializeSensorPoints,
      Robot.applyForce, Vector2D.add, Vector2D.zero, Robot.boundaryForce, canvas800]
  · rfl

theorem blocked_update :
    (Robot.new (configNoSensors : Config ℝ) 400 300).update configNoSensors canvas800 =
      Robot.new configNoSensors 400 300 := by
  have hl : (Vector2D.zero : Vector2D ℝ).limit (3 / 2) = Vector2D.zero := by
    unfold Vector2D.limit
    simp only [magnitude_zero]
    norm_num [Vector2D.zero]
  have ha : (Vector2D.zero : Vector2D ℝ).add Vector2D.zero = Vector2D.zero := by
    simp [Vector2D.add, Vector2D.zero]
  unfold Robot.update
  simp only [Robot.new, Robot.initializeSensorPoints, configNoSensors, Config.initial, ha, hl,
    magnitude_zero]
  norm_num [Robot.updateSensorPoints, Vector2D.add, Vector2D.zero, canvas800]

theorem blocked_collides :
    (((Robot.new (configNoSensors : Config ℝ) 400 300).calculateForces
        (worldBlocked : Sim ℝ).config (worldBlocked : Sim ℝ).canvas
        (worldBlocked : Sim ℝ).world.objects (1 / 2) (1 / 2)).update
        (worldBlocked : Sim ℝ).config (worldBlocked : Sim ℝ).canvas).detectCollisions
        (worldBlocked : Sim ℝ).config (worldBlocked : Sim ℝ).world.objects = true := by
  show (((Robot.new (configNoSensors : Config ℝ) 400 300).calculateForces configNoSensors
      canvas800 [.start 0 400 300 10, .obstacle 1 400 300 15] (1 / 2) (1 / 2)).update
      configNoSensors canvas800).detectCollisions configNoSensors
      [.start 0 400 300 10, .obstacle 1 400 300 15] = true
  rw [blocked_forces, blocked_update]
  norm_num [Robot.detectCollisions, Robot.collisionStep, Robot.new,
    Robot.initializeSensorPoints, sqrt_real, configNoSensors, Config.initial]

theorem wall_distance_example :
    WorldObject.distanceToPoint (⟨200, 0⟩ : Vector2D ℝ) ⟨200, 100⟩ ⟨350, 50⟩ = 150 := by
  have h1 : Real.sqrt 10000 = 100 := by
    rw [show (10000 : ℝ) = 100 * 100 by norm_num]
    exact Real.sqrt_mul_self (by norm_num)
  have h2 : Real.sqrt 22500 = 150 := by
    rw [show (22500 : ℝ) = 150 * 150 by norm_num]
    exact Real.sqrt_mul_self (by norm_num)
  have hlen : (Vector2D.subtract (⟨200, 100⟩ : Vector2D ℝ) ⟨200, 0⟩).magnitude = 100 := by
    norm_num [Vector2D.subtract, Vector2D.magnitude, sqrt_real, h1]
  unfold WorldObject.distanceToPoint Line.distanceToPoint
  simp only [hlen]
  norm_num [Vector2D.subtract, Vector2D.magnitude, Vector2D.dot, Vector2D.add,
    Vector2D.multiply, sqrt_real, h2]

/-! ## The tick: no-op, rollback, no penetration (C8, C4, C7) -/

section Tick

variable {R : Type} [LinearOrderedField R] [JSMath R]

theorem update_config (s : Sim R) (u1 u2 : R) : (World.update s u1 u2).config = s.config := by
  unfold World.update
  split
  · split_ifs <;> rfl
  · rfl

theorem update_objects (s : Sim R) (u1 u2 : R) :
    (World.update s u1 u2).world.objects = s.world.objects := by
  unfold World.update
  split
  · split_ifs <;> rfl
  · rfl

/-- The robot a running tick leaves behind. -/
theorem update_running (s : Sim R) (robot : Robot R) (u1 u2 : R)
    (hstate : s.world.state = .RUNNING) (hrobot : s.world.robot = some robot) :
    (World.update s u1 u2).world.robot =
      some (if ((robot.calculateForces s.config s.canvas s.world.objects u1 u2).update
                s.config s.canvas).detectCollisions s.config s.world.objects = true then
          { (robot.calculateForces s.config s.canvas s.world.objects u1 u2).update
              s.config s.canvas with
            position := robot.position, velocity := Vector2D.zero }
        else (robot.calculateForces s.config s.canvas s.world.objects u1 u2).update
              s.config s.canvas) := by
  unfold World.update
  rw [hrobot]
  simp only [hstate, if_true]

theorem foldl_collisionStep (cfg : Config R) (r : Robot R) (objects : List (WorldObject R))
    (b : Bool) :
    objects.foldl (Robot.collisionStep cfg r) b =
      (b || objects.any fun obj => Robot.collisionStep cfg r false obj) := by
  induction objects generalizing b with
  | nil => simp
  | cons obj objects ih =>
    rw [List.foldl_cons, ih, List.any_cons, ← Bool.or_assoc]
    congr 1
    cases b
    · simp
    · cases obj <;> simp [Robot.collisionStep]

theorem detectCollisions_eq_any (cfg : Config R) (r : Robot R)
    (objects : List (WorldObject R)) :
    r.detectCollisions cfg objects =
      objects.any fun obj => Robot.collisionStep cfg r false obj := by
  unfold Robot.detectCollisions
  rw [foldl_collisionStep]
  rfl

theorem detectCollisions_congr (cfg : Config R) (r r' : Robot R)
    (objects : List (WorldObject R)) (hp : r'.position = r.position)
    (hc : r'.collisionRadius = r.collisionRadius) :
    r'.detectCollisions cfg objects = r.detectCollisions cfg objects := by
  have h : Robot.collisionStep cfg r' = Robot.collisionStep cfg r := by
    funext b obj
    unfold Robot.collisionStep
    rw [hp, hc]
  unfold Robot.detectCollisions
  rw [h]

theorem detectCollisions_false_wall (cfg : Config R) (r : Robot R)
    (objects : List (WorldObject R)) (h : r.detectCollisions cfg objects = false)
    (ref : Nat) (start end_ : Vector2D R) (hmem : WorldObject.wall ref start end_ ∈ objects) :
    ¬ (WorldObject.distanceToPoint start end_ r.position <
        r.collisionRadius + cfg.wallThickness / 2) := by
  rw [detectCollisions_eq_any, List.any_eq_false] at h
  have h1 := h _ hmem
  intro hlt
  apply h1
  simp [Robot.collisionStep, hlt]

/-- One tick keeps the agent out of reach of a wall of the registry it was out of
reach of, whatever else is in the registry. -/
theorem update_keeps_wall_clear (s : Sim R) (u1 u2 : R) (robot : Robot R) (ref : Nat)
    (start end_ : Vector2D R) (hrobot : s.world.robot = some robot)
    (hmem : WorldObject.wall ref start end_ ∈ s.world.objects)
    (hclear : ¬ (WorldObject.distanceToPoint start end_ robot.position <
        robot.collisionRadius + s.config.wallThickness / 2)) :
    ∃ robot', (World.update s u1 u2).world.robot = some robot' ∧
      ¬ (WorldObject.distanceToPoint start end_ robot'.position <
        robot'.collisionRadius + s.config.wallThickness / 2) := by
  by_cases hstate : s.world.state = .RUNNING
  · refine ⟨_, update_running s robot u1 u2 hstate hrobot, ?_⟩
    split_ifs with hc
    · simpa [update_collisionRadius, calculateForces_collisionRadius] using hclear
    · have hf : ((robot.calculateForces s.config s.canvas s.world.objects u1 u2).update
          s.config s.canvas).detectCollisions s.config s.world.objects = false := by
        simpa using hc
      exact detectCollisions_false_wall _ _ _ hf ref start end_ hmem
  · refine ⟨robot, ?_, hclear⟩
    unfold World.update
    rw [hrobot]
    simp [hstate, hrobot]

theorem animate_keeps_wall_clear (draws : List (R × R)) (s : Sim R) (robot : Robot R)
    (ref : Nat) (start end_ : Vector2D R) (hrobot : s.world.robot = some robot)
    (hmem : WorldObject.wall ref start end_ ∈ s.world.objects)
    (hclear : ¬ (WorldObject.distanceToPoint start end_ robot.position <
        robot.collisionRadius + s.config.wallThickness / 2)) :
    ∃ robot', (animate s draws).world.robot = some robot' ∧
      ¬ (WorldObject.distanceToPoint start end_ robot'.position <
        robot'.collisionRadius + s.config.wallThickness / 2) := by
  induction draws generalizing s robot with
  | nil => exact ⟨robot, hrobot, hclear⟩
  | cons u draws ih =>
    obtain ⟨r1, hr1, hc1⟩ := update_keeps_wall_clear s u.1 u.2 robot ref start end_ hrobot hmem hclear
    have hmem1 : WorldObject.wall ref start end_ ∈ (World.update s u.1 u.2).world.objects := by
      rw [update_objects]; exact hmem
    have hc1' : ¬ (WorldObject.distanceToPoint start end_ r1.position <
        r1.collisionRadius + (World.update s u.1 u.2).config.wallThickness / 2) := by
      rw [update_config]; exact hc1
    obtain ⟨r2, hr2, hc2⟩ := ih (World.update s u.1 u.2) r1 hr1 hmem1 hc1'
    rw [update_config] at hc2
    exact ⟨r2, hr2, hc2⟩

/-- C8: World.update changes nothing unless the state is RUNNING and an agent
exists: in state EDITING or PAUSED, or with no robot, the whole page state after
update (registry, robot with all its fields and sensors, state, configuration with
the homebase counter) equals the state before. -/
theorem C8_update_noop_unless_running_with_agent (s : Sim R) (u1 u2 : R)
    (h : s.world.state = .EDITING ∨ s.world.state = .PAUSED ∨ s.world.robot = none) :
    World.update s u1 u2 = s := by
  unfold World.update
  rcases h with h | h | h
  · split
    · simp [h]
    · rfl
  · split
    · simp [h]
    · rfl
  · rw [h]

/-- C4: in a running world with an agent, if detectCollisions is true after force
calculation and integration, then after World.update the position of the agent is
its position before the tick and its velocity is the zero vector. -/
theorem C4_collision_rollback_exact (s : Sim R) (robot : Robot R) (u1 u2 : R)
    (hstate : s.world.state = .RUNNING) (hrobot : s.world.robot = some robot)
    (hcollision : ((robot.calculateForces s.config s.canvas s.world.objects u1 u2).update
        s.config s.canvas).detectCollisions s.config s.world.objects = true) :
    ∃ robot', (World.update s u1 u2).world.robot = some robot' ∧
      robot'.position = robot.position ∧ robot'.velocity = Vector2D.zero := by
  refine ⟨_, update_running s robot u1 u2 hstate hrobot, ?_, ?_⟩
  · rw [if_pos hcollision]
  · rw [if_pos hcollision]

/-- C7: (1) in a running world whose agent collides with no wall and no obstacle,
detectCollisions is still false on the agent after World.update, for every
configuration and every pair of random draws; (2) with the wall from (200, 0) to
(200, 100) in the registry and wall thickness 10, an agent whose centre is not within
collisionRadius + 5 of the segment is still not within that distance after any number
of frames, whatever the draws. -/
theorem C7_no_penetration :
    (∀ (s : Sim R) (robot : Robot R) (u1 u2 : R),
      s.world.state = .RUNNING → s.world.robot = some robot →
      robot.detectCollisions s.config s.world.objects = false →
      ∃ robot', (World.update s u1 u2).world.robot = some robot' ∧
        robot'.detectCollisions (World.update s u1 u2).config
          (World.update s u1 u2).world.objects = false) ∧
    (∀ (s : Sim R) (robot : Robot R) (draws : List (R × R)) (ref : Nat),
      s.world.robot = some robot →
      WorldObject.wall ref ⟨200, 0⟩ ⟨200, 100⟩ ∈ s.world.objects →
      s.config.wallThickness = 10 →
      ¬ (WorldObject.distanceToPoint ⟨200, 0⟩ ⟨200, 100⟩ robot.position <
          robot.collisionRadius + 5) →
      ∃ robot', (animate s draws).world.robot = some robot' ∧
        ¬ (WorldObject.distanceToPoint ⟨200, 0⟩ ⟨200, 100⟩ robot'.position <
          robot'.collisionRadius + 5)) := by
  constructor
  · intro s robot u1 u2 hstate hrobot hclear
    refine ⟨_, update_running s robot u1 u2 hstate hrobot, ?_⟩
    rw [update_config, update_objects]
    split_ifs with hc
    · rw [← hclear]
      apply detectCollisions_congr
      · rfl
      · simp [update_collisionRadius, calculateForces_collisionRadius]
    · simpa using hc
  · intro s robot draws ref hrobot hmem hthick hclear
    have h5 : s.config.wallThickness / 2 = 5 := by rw [hthick]; norm_num
    have := animate_keeps_wall_clear draws s robot ref ⟨200, 0⟩ ⟨200, 100⟩ hrobot hmem
      (by rw [h5]; exact hclear)
    rw [h5] at this
    exact this

end Tick

/-- C8 (witness): the paused world with its agent is left as it is by a tick. -/
theorem C8_update_noop_witness :
    (worldPaused : Sim ℝ).world.state = .PAUSED ∧
    (worldPaused : Sim ℝ).world.robot.isSome = true ∧
    World.update (worldPaused : Sim ℝ) (1 / 2) (1 / 2) = worldPaused :=
  ⟨rfl, rfl,
    C8_update_noop_unless_running_with_agent worldPaused (1 / 2) (1 / 2) (Or.inr (Or.inl rfl))⟩

/-- C4 (witness): the agent standing on an obstacle is rolled back to where it was. -/
theorem C4_collision_rollback_witness :
    (worldBlocked : Sim ℝ).world.state = .RUNNING ∧
    (worldBlocked : Sim ℝ).world.robot = some (Robot.new configNoSensors 400 300) ∧
    ∃ robot', (World.update (worldBlocked : Sim ℝ) (1 / 2) (1 / 2)).world.robot = some robot' ∧
      robot'.position = (Robot.new (configNoSensors : Config ℝ) 400 300).position ∧
      robot'.velocity = Vector2D.zero :=
  ⟨rfl, rfl,
    C4_collision_rollback_exact worldBlocked (Robot.new configNoSensors 400 300) (1 / 2) (1 / 2)
      rfl rfl blocked_collides⟩

/-- C7 (witness): the agent started at (350, 50) is 150 away from the wall, and stays
clear of it over one tick and over three frames. -/
theorem C7_no_penetration_witness :
    (worldWall : Sim ℝ).world.state = .RUNNING ∧
    (worldWall : Sim ℝ).world.robot = some (Robot.new configNoSensors 350 50) ∧
    (Robot.new (configNoSensors : Config ℝ) 350 50).detectCollisions (worldWall : Sim ℝ).config
      (worldWall : Sim ℝ).world.objects = false ∧
    (∃ robot', (World.update (worldWall : Sim ℝ) (1 / 2) (1 / 4)).world.robot = some robot' ∧
      robot'.detectCollisions (World.update (worldWall : Sim ℝ) (1 / 2) (1 / 4)).config
        (World.update (worldWall : Sim ℝ) (1 / 2) (1 / 4)).world.objects = false) ∧
    (∃ robot', (animate (worldWall : Sim ℝ) [(1 / 2, 1 / 4), (0, 0), (3 / 4, 1 / 8)]).world.robot
        = some robot' ∧
      ¬ (WorldObject.distanceToPoint ⟨200, 0⟩ ⟨200, 100⟩ robot'.position <
          robot'.collisionRadius + 5)) := by
  have hd : WorldObject.distanceToPoint (⟨200, 0⟩ : Vector2D ℝ) ⟨200, 100⟩
      (Robot.new (configNoSensors : Config ℝ) 350 50).position = 150 := wall_distance_example
  have hc : (Robot.new (configNoSensors : Config ℝ) 350 50).collisionRadius = 10 := by
    norm_num [Robot.new, Robot.initializeSensorPoints, configNoSensors, Config.initial]
  have hclear : (Robot.new (configNoSensors : Config ℝ) 350 50).detectCollisions
      (worldWall : Sim ℝ).config (worldWall : Sim ℝ).world.objects = false := by
    show (Robot.new (configNoSensors : Config ℝ) 350 50).detectCollisions configNoSensors
      [.start 0 350 50 10, .wall 1 ⟨200, 0⟩ ⟨200, 100⟩] = false
    rw [detectCollisions_eq_any]
    simp only [List.any_cons, List.any_nil, Robot.collisionStep, hd, hc]
    norm_num [configNoSensors, Config.initial]
  refine ⟨rfl, rfl, hclear, ?_, ?_⟩
  · exact C7_no_penetration.1 worldWall _ (1 / 2) (1 / 4) rfl rfl hclear
  · refine C7_no_penetration.2 worldWall _ [(1 / 2, 1 / 4), (0, 0), (3 / 4, 1 / 8)] 1 rfl ?_ rfl ?_
    · show WorldObject.wall 1 ⟨200, 0⟩ ⟨200, 100⟩ ∈
        [WorldObject.start 0 350 50 10, .wall 1 ⟨200, 0⟩ ⟨200, 100⟩]
      simp
    · rw [hd, hc]
      norm_num

/-! ## Speed bound (C5) -/

/-- C5: in a running world with an agent and a non-negative top speed, after one
World.update the magnitude of the velocity of the agent is at most config.robotSpeed,
for every registry and every pair of random draws (real-number arithmetic). -/
theorem C5_speed_bound (s : Sim ℝ) (robot : Robot ℝ) (u1 u2 : ℝ)
    (hstate : s.world.state = .RUNNING) (hrobot : s.world.robot = some robot)
    (hspeed : 0 ≤ s.config.robotSpeed) :
    ∃ robot', (World.update s u1 u2).world.robot = some robot' ∧
      robot'.velocity.magnitude ≤ s.config.robotSpeed := by
  refine ⟨_, update_running s robot u1 u2 hstate hrobot, ?_⟩
  split_ifs
  · show (Vector2D.zero : Vector2D ℝ).magnitude ≤ s.config.robotSpeed
    rw [magnitude_zero]
    exact hspeed
  · rw [update_velocity]
    exact magnitude_limit_le _ _ hspeed

/-- C5 (witness): the running world `worldBlocked`, top speed 3/2. -/
theorem C5_speed_bound_witness :
    (worldBlocked : Sim ℝ).world.state = .RUNNING ∧
    (0 : ℝ) ≤ (worldBlocked : Sim ℝ).config.robotSpeed ∧
    ∃ robot', (World.update (worldBlocked : Sim ℝ) (1 / 3) (2 / 3)).world.robot = some robot' ∧
      robot'.velocity.magnitude ≤ (worldBlocked : Sim ℝ).config.robotSpeed :=
  have h : (0 : ℝ) ≤ (worldBlocked : Sim ℝ).config.robotSpeed := by
    show (0 : ℝ) ≤ 3 / 2
    norm_num
  ⟨rfl, h, C5_speed_bound worldBlocked (Robot.new configNoSensors 400 300) (1 / 3) (2 / 3)
    rfl rfl h⟩

/-! ## Goal cycling (C6) -/

/-- C6: when calculateForces finds the homebase whose number is targetNumber and the
agent is strictly nearer to its centre than radius + collisionRadius, the new
targetNumber is (targetNumber % homeBaseCounter) + 1 and the acceleration is the one
computed with no homebase in the registry (no attraction is added); with the counter
K and 1 <= t <= K the new target is t + 1 for t < K and 1 for t = K. -/
theorem C6_goal_cycling {R : Type} [LinearOrderedField R] [JSMath R]
    (cfg : Config R) (canvas : Canvas R)
    (objects : List (WorldObject R)) (u1 u2 : R) (r : Robot R) (t : Int)
    (ref : Nat) (x y radius : R) (n : Int)
    (ht : r.targetNumber = some t)
    (hfind : Robot.findTarget objects (some t) = some (.homebase ref x y radius n))
    (hnear : (r.position.subtract ⟨x, y⟩).magnitude < radius + r.collisionRadius) :
    (r.calculateForces cfg canvas objects u1 u2).targetNumber =
        (jsMod t cfg.homeBaseCounter).map (· + 1) ∧
    (r.calculateForces cfg canvas objects u1 u2).acceleration =
        (r.calculateForces cfg canvas
          (objects.filter fun o => decide (o.type ≠ .HOMEBASE)) u1 u2).acceleration ∧
    (1 ≤ t → t < cfg.homeBaseCounter →
      (r.calculateForces cfg canvas objects u1 u2).targetNumber = some (t + 1)) ∧
    (1 ≤ t → t = cfg.homeBaseCounter →
      (r.calculateForces cfg canvas objects u1 u2).targetNumber = some 1) := by
  have hsense : Robot.senseObjects cfg
      (objects.filter fun o => decide (o.type ≠ .HOMEBASE)) =
      Robot.senseObjects cfg objects := funext (senseObjects_filter cfg objects)
  have htarget : (r.calculateForces cfg canvas objects u1 u2).targetNumber =
      (jsMod t cfg.homeBaseCounter).map (· + 1) := by
    unfold Robot.calculateForces
    simp only [applyRepulsion_eq]
    rw [applyAttraction_reached cfg objects _ ref x y radius n (by simpa [ht] using hfind)
      (by simpa using hnear)]
    split_ifs <;> simp [Robot.applyForce, ht]
  refine ⟨htarget, ?_, ?_, ?_⟩
  · unfold Robot.calculateForces
    simp only [applyRepulsion_eq, hsense]
    rw [applyAttraction_reached cfg objects _ ref x y radius n (by simpa [ht] using hfind)
      (by simpa using hnear)]
    rw [applyAttraction_none cfg _ _ (findTarget_filter _ _)]
    split_ifs <;> rfl
  · intro h1 hlt
    rw [htarget]
    have hm : jsMod t cfg.homeBaseCounter = some t := by
      unfold jsMod
      rw [if_neg (by omega), Int.tmod_eq_of_lt (by omega) hlt]
    rw [hm]; rfl
  · intro h1 heq
    rw [htarget]
    have hm : jsMod t cfg.homeBaseCounter = some 0 := by
      unfold jsMod
      rw [if_neg (by omega), ← heq, Int.tmod_self]
    rw [hm]; rfl

/-- C6 (witness): two homebases, the agent on the centre of homebase 1 with target 1:
the tick moves the target to 2. -/
theorem C6_goal_cycling_witness :
    (robotAtA : Robot ℝ).targetNumber = some 1 ∧
    Robot.findTarget (worldAB : Sim ℝ).world.objects (some 1) =
      some (.homebase 0 100 100 20 1) ∧
    ((robotAtA : Robot ℝ).position.subtract ⟨100, 100⟩).magnitude <
      20 + (robotAtA : Robot ℝ).collisionRadius ∧
    ((robotAtA : Robot ℝ).calculateForces (worldAB : Sim ℝ).config canvas800
      (worldAB : Sim ℝ).world.objects (1 / 2) (1 / 2)).targetNumber = some 2 := by
  have hnear : ((robotAtA : Robot ℝ).position.subtract ⟨100, 100⟩).magnitude <
      20 + (robotAtA : Robot ℝ).collisionRadius := by
    norm_num [robotAtA, Robot.new, Robot.initializeSensorPoints, configNoSensors,
      Config.initial, Vector2D.subtract, Vector2D.magnitude, sqrt_real]
  refine ⟨rfl, rfl, hnear, ?_⟩
  have h := (C6_goal_cycling (worldAB : Sim ℝ).config canvas800 (worldAB : Sim ℝ).world.objects
    (1 / 2) (1 / 2) robotAtA 1 0 100 100 20 1 rfl rfl hnear).2.2.1 (le_refl 1)
    (show (1 : Int) < 0 + 1 + 1 by norm_num)
  exact h

/-! ## Persistence: what a load builds (C3) -/

section PersistA
variable {R : Type}

theorem toObject_type (ref : Nat) (obj : Record R) : (obj.toObject ref).type = obj.type := by
  cases obj <;> rfl

theorem withRef_toObject (ref : Nat) (obj : Record R) :
    (obj.toObject ref).withRef 0 = obj.toObject 0 := by
  cases obj <;> rfl

theorem withRef_setNumber (n : Int) (o : WorldObject R) :
    (o.setNumber n).withRef 0 = (o.withRef 0).setNumber n := by
  cases o <;> rfl

theorem withRef_type (ref : Nat) (o : WorldObject R) : (o.withRef ref).type = o.type := by
  cases o <;> rfl

end PersistA

section PersistB
variable {R : Type} [LinearOrderedField R] [JSMath R]

theorem addObject_objects (s : Sim R) (object : WorldObject R) :
    (World.addObject s object).world.objects =
      s.world.objects ++
        [if object.type = .HOMEBASE then object.setNumber (s.config.homeBaseCounter + 1)
          else object] := by
  unfold World.addObject
  split_ifs <;> rfl

theorem addObject_counter (s : Sim R) (object : WorldObject R) :
    (World.addObject s object).config.homeBaseCounter =
      if object.type = .HOMEBASE then s.config.homeBaseCounter + 1
      else s.config.homeBaseCounter := by
  unfold World.addObject
  split_ifs <;> rfl

theorem addRecords_cons (s : Sim R) (obj : Record R) (rest : List (Record R)) :
    World.addRecords s (obj :: rest) =
      World.addRecords (World.addObject s (obj.toObject s.world.objects.length)) rest := rfl

theorem addRecords_spec (records : List (Record R)) (s : Sim R) :
    (World.addRecords s records).world.objects.map (WorldObject.withRef 0) =
        s.world.objects.map (WorldObject.withRef 0) ++
          numberFrom s.config.homeBaseCounter records ∧
    (World.addRecords s records).config.homeBaseCounter =
        s.config.homeBaseCounter +
          (records.countP fun o => decide (o.type = .HOMEBASE) : Nat) := by
  induction records generalizing s with
  | nil => simp [World.addRecords, numberFrom]
  | cons obj rest ih =>
    rw [addRecords_cons]
    obtain ⟨h1, h2⟩ := ih (World.addObject s (obj.toObject s.world.objects.length))
    rw [h1, h2, addObject_objects, addObject_counter, toObject_type]
    by_cases h : obj.type = .HOMEBASE
    · simp [h, numberFrom, withRef_setNumber, withRef_toObject, List.countP_cons]
      omega
    · simp [h, numberFrom, withRef_toObject, List.countP_cons]

end PersistB

section PersistC
variable {R : Type} [LinearOrderedField R] [JSMath R]

theorem serializeObject_type (o : WorldObject R) :
    (World.serializeObject o).type = o.type := by
  cases o <;> rfl

theorem toObject_serialize_of_ne (o : WorldObject R) (h : o.type ≠ .HOMEBASE) :
    (World.serializeObject o).toObject 0 = o.withRef 0 := by
  cases o <;> first | rfl | exact absurd rfl h

theorem toObject_serialize_of_number (o : WorldObject R) (n : Int) (h : o.number? = some n) :
    ((World.serializeObject o).toObject 0).setNumber n = o.withRef 0 := by
  cases o <;> simp [WorldObject.number?] at h
  subst h
  rfl

theorem numberFrom_serialize_of_ne (c : Int) (l : List (WorldObject R))
    (h : ∀ o ∈ l, o.type ≠ .HOMEBASE) :
    numberFrom c (l.map World.serializeObject) = l.map (WorldObject.withRef 0) := by
  induction l with
  | nil => rfl
  | cons o l ih =>
    have ho := h o (List.mem_cons_self _ _)
    simp only [List.map_cons, numberFrom, serializeObject_type, if_neg ho]
    rw [toObject_serialize_of_ne o ho, ih (fun o' ho' => h o' (List.mem_cons_of_mem _ ho'))]

theorem numberFrom_serialize_of_numbers (l : List (WorldObject R)) (c : Int) (n : Nat)
    (h : ∀ o ∈ l, o.type = .HOMEBASE)
    (hnum : homebaseNumbers l = (List.range n).map fun (i : Nat) => c + 1 + (i : Int)) :
    numberFrom c (l.map World.serializeObject) = l.map (WorldObject.withRef 0) := by
  induction l generalizing c n with
  | nil => rfl
  | cons o l ih =>
    have ho := h o (List.mem_cons_self _ _)
    obtain ⟨m, hm⟩ : ∃ m, o.number? = some m := by
      cases o <;> first | exact ⟨_, rfl⟩ | exact absurd ho (by simp [WorldObject.type])
    unfold homebaseNumbers at hnum ih
    rw [List.filterMap_cons_some hm] at hnum
    cases n with
    | zero => simp at hnum
    | succ n =>
      rw [List.range_succ_eq_map, List.map_cons, List.map_map] at hnum
      rw [List.cons.injEq] at hnum
      obtain ⟨h0, hrest⟩ := hnum
      have hm' : m = c + 1 := by simpa using h0
      simp only [List.map_cons, numberFrom, serializeObject_type, if_pos ho]
      rw [← hm', toObject_serialize_of_number o m hm]
      congr 1
      rw [hm']
      apply ih (c + 1) n (fun o' ho' => h o' (List.mem_cons_of_mem _ ho'))
      rw [hrest]
      apply List.map_congr_left
      intro i _
      simp only [Function.comp, Nat.succ_eq_add_one]
      push_cast
      ring

end PersistC

section PersistD
variable {R : Type} [LinearOrderedField R] [JSMath R]

theorem reset_objects (s : Sim R) : (World.reset s).world.objects = s.world.objects := rfl

theorem reset_config (s : Sim R) : (World.reset s).config = s.config := rfl

/-- The registry a successful load builds. -/
theorem deserialize_array_objects (s : Sim R) (records : List (Record R))
    (config : Option (DocConfig R)) :
    (World.deserialize s (some ⟨.array records, config⟩)).1 = true ∧
    (World.deserialize s (some ⟨.array records, config⟩)).2.world.objects.map
        (WorldObject.withRef 0) =
      numberFrom 0 (records.filter fun obj => decide (obj.type ≠ .HOMEBASE)) ++
      numberFrom
        (((records.filter fun obj => decide (obj.type ≠ .HOMEBASE)).countP
            fun o => decide (o.type = .HOMEBASE) : Nat) : Int)
        ((records.filter fun obj => decide (obj.type = .HOMEBASE)).insertionSort
          homebaseOrder) := by
  refine ⟨rfl, ?_⟩
  unfold World.deserialize
  simp only [reset_objects]
  rw [(addRecords_spec _ _).1, (addRecords_spec _ _).1, (addRecords_spec _ _).2]
  cases config <;> simp [World.clear, World.assignConfig]

theorem countP_homebase_filter (records : List (Record R)) :
    (records.filter fun obj => decide (obj.type ≠ .HOMEBASE)).countP
      (fun o => decide (o.type = .HOMEBASE)) = 0 := by
  rw [List.countP_eq_zero]
  intro o ho
  rw [List.mem_filter] at ho
  simpa using ho.2

theorem homebaseNumbers_filter (objects : List (WorldObject R)) :
    homebaseNumbers (objects.filter fun o => decide (o.type = .HOMEBASE)) =
      homebaseNumbers objects := by
  unfold homebaseNumbers
  induction objects with
  | nil => rfl
  | cons o l ih =>
    rw [List.filter_cons]
    by_cases h : o.type = .HOMEBASE
    · rw [if_pos (by simpa using h), List.filterMap_cons, List.filterMap_cons, ih]
    · have hnone : o.number? = none := by
        cases o <;> first | rfl | exact absurd rfl h
      rw [if_neg (by simpa using h), List.filterMap_cons_none hnone, ih]

theorem contiguousNumbers_sorted (K : Nat) : (contiguousNumbers K).Sorted (· ≤ ·) := by
  unfold contiguousNumbers List.Sorted
  rw [List.pairwise_map]
  exact (List.pairwise_le_range K).imp (fun h => by omega)

theorem serialize_objects (s : Sim R) :
    World.serialize s =
      ⟨.array (s.world.objects.map World.serializeObject), (World.serialize s).config⟩ := rfl

/-- Sorting homebase objects by the key their records carry orders their numbers. -/
theorem sorted_homebaseNumbers (l : List (WorldObject R))
    (h : l.Sorted fun a b =>
      homebaseOrder (World.serializeObject a) (World.serializeObject b)) :
    (homebaseNumbers l).Sorted (· ≤ ·) := by
  unfold homebaseNumbers
  refine List.Pairwise.filterMap _ ?_ h
  intro a a' hr b hb b' hb'
  cases a with
  | homebase r x y rad n =>
    cases a' with
    | homebase r' x' y' rad' n' =>
      simp only [WorldObject.number?, Option.mem_def, Option.some.injEq] at hb hb'
      subst hb hb'
      have : ((n : Int) : R) ≤ ((n' : Int) : R) := hr
      exact_mod_cast this
    | _ => simp [WorldObject.number?] at hb'
  | _ => simp [WorldObject.number?] at hb

/-- C3: for a world whose homebases carry exactly the numbers 1..K, deserialize applied
to the document written by serialize returns true, and the registry it builds holds
the same objects as the world (same type, coordinates, radius, wall endpoints and
homebase number, compared under one reference) up to order. -/
theorem C3_round_trip (s s' : Sim R) (K : Nat)
    (hnum : (homebaseNumbers s.world.objects).Perm (contiguousNumbers K)) :
    (World.deserialize s' (some (World.serialize s))).1 = true ∧
    ((World.deserialize s' (some (World.serialize s))).2.world.objects.map
        (WorldObject.withRef 0)).Perm (s.world.objects.map (WorldObject.withRef 0)) := by
  rw [serialize_objects]
  obtain ⟨h1, h2⟩ := deserialize_array_objects s'
    (s.world.objects.map World.serializeObject) (World.serialize s).config
  refine ⟨h1, ?_⟩
  rw [h2, countP_homebase_filter, Nat.cast_zero]
  -- the records that are not homebases
  have hA : ((s.world.objects.map World.serializeObject).filter
      fun obj => decide (obj.type ≠ .HOMEBASE)) =
      (s.world.objects.filter fun o => decide (o.type ≠ .HOMEBASE)).map
        World.serializeObject := by
    rw [List.filter_map]
    congr 1
    apply List.filter_congr
    intro o _
    simp [serializeObject_type]
  have hB : ((s.world.objects.map World.serializeObject).filter
      fun obj => decide (obj.type = .HOMEBASE)) =
      (s.world.objects.filter fun o => decide (o.type = .HOMEBASE)).map
        World.serializeObject := by
    rw [List.filter_map]
    congr 1
    apply List.filter_congr
    intro o _
    simp [serializeObject_type]
  rw [hA, hB]
  rw [numberFrom_serialize_of_ne 0 _ (fun o ho => by
    rw [List.mem_filter] at ho
    simpa using ho.2)]
  -- the sort commutes with serialisation
  rw [← List.map_insertionSort
    (fun a b : WorldObject R =>
      homebaseOrder (World.serializeObject a) (World.serializeObject b))
    homebaseOrder World.serializeObject _ (fun a _ b _ => Iff.rfl)]
  haveI : IsTotal (WorldObject R) (fun a b : WorldObject R =>
      homebaseOrder (World.serializeObject a) (World.serializeObject b)) :=
    ⟨fun a b => le_total (World.serializeObject a).numberOrZero
      (World.serializeObject b).numberOrZero⟩
  haveI : IsTrans (WorldObject R) (fun a b : WorldObject R =>
      homebaseOrder (World.serializeObject a) (World.serializeObject b)) :=
    ⟨fun a b c hab hbc => le_trans (α := R) hab hbc⟩
  have hperm := List.perm_insertionSort
    (fun a b : WorldObject R =>
      homebaseOrder (World.serializeObject a) (World.serializeObject b))
    (s.world.objects.filter fun o => decide (o.type = .HOMEBASE))
  have hsorted := List.sorted_insertionSort
    (fun a b : WorldObject R =>
      homebaseOrder (World.serializeObject a) (World.serializeObject b))
    (s.world.objects.filter fun o => decide (o.type = .HOMEBASE))
  have hnumbers : homebaseNumbers
      ((s.world.objects.filter fun o => decide (o.type = .HOMEBASE)).insertionSort
        (fun a b : WorldObject R =>
          homebaseOrder (World.serializeObject a) (World.serializeObject b))) =
      contiguousNumbers K := by
    apply List.eq_of_perm_of_sorted _ (sorted_homebaseNumbers _ hsorted)
      (contiguousNumbers_sorted K)
    refine List.Perm.trans (List.Perm.filterMap _ hperm) ?_
    have := homebaseNumbers_filter s.world.objects
    unfold homebaseNumbers at this
    rw [this]
    exact hnum
  rw [numberFrom_serialize_of_numbers _ 0 K (fun o ho => by
      rw [List.mem_insertionSort, List.mem_filter] at ho
      simpa using ho.2)
    (by rw [hnumbers]; unfold contiguousNumbers; apply List.map_congr_left; intro i _; ring)]
  refine List.Perm.trans (List.Perm.append_left _ (List.Perm.map _ hperm)) ?_
  rw [← List.map_append]
  apply List.Perm.map
  have hf := List.filter_append_perm (fun o : WorldObject R => decide (o.type ≠ .HOMEBASE))
    s.world.objects
  refine List.Perm.trans ?_ hf
  apply List.Perm.of_eq
  congr 1
  apply List.filter_congr
  intro o _
  simp
end PersistD

/-! ## Registry lemmas -/

section RegistryA
variable {R : Type}

theorem setNumber_ref (n : Int) (o : WorldObject R) : (o.setNumber n).ref = o.ref := by
  cases o <;> rfl

theorem setNumber_type (n : Int) (o : WorldObject R) : (o.setNumber n).type = o.type := by
  cases o <;> rfl

theorem toObject_ref (ref : Nat) (obj : Record R) : (obj.toObject ref).ref = ref := by
  cases obj <;> rfl

theorem countP_eraseIdx (p : WorldObject R → Bool) (l : List (WorldObject R)) (i : Nat)
    (h : i < l.length) (hp : p (l.get ⟨i, h⟩) = true) :
    (l.eraseIdx i).countP p + 1 = l.countP p := by
  induction l generalizing i with
  | nil => simp at h
  | cons a l ih =>
    cases i with
    | zero =>
      have ha : p a = true := by simpa using hp
      simp [List.countP_cons, ha]
    | succ i =>
      have h' : i < l.length := by simpa using h
      have := ih i h' (by simpa using hp)
      simp only [List.eraseIdx_cons_succ, List.countP_cons]
      omega

end RegistryA

section RegistryB
variable {R : Type} [LinearOrderedField R] [JSMath R]

theorem renumber_ref (c : Int) (l : List (WorldObject R)) :
    (World.renumber c l).map WorldObject.ref = l.map WorldObject.ref := by
  induction l generalizing c with
  | nil => rfl
  | cons o l ih =>
    unfold World.renumber
    split_ifs <;> simp [ih, setNumber_ref]

theorem renumber_startCount (c : Int) (l : List (WorldObject R)) :
    startCount (World.renumber c l) = startCount l := by
  unfold startCount
  induction l generalizing c with
  | nil => rfl
  | cons o l ih =>
    unfold World.renumber
    split_ifs <;> simp [List.countP_cons, ih, setNumber_type]

theorem removeObject_of_none (s : Sim R) (object : WorldObject R)
    (h : s.world.objects.findIdx? (fun o => o.ref == object.ref) = none) :
    World.removeObject s object = s := by
  unfold World.removeObject
  rw [h]

theorem removeObject_objects_of_some (s : Sim R) (object : WorldObject R) (index : Nat)
    (h : s.world.objects.findIdx? (fun o => o.ref == object.ref) = some index) :
    (World.removeObject s object).world.objects =
      (if object.type = .HOMEBASE then World.renumber 1 s.world.objects
        else s.world.objects).eraseIdx index := by
  unfold World.removeObject
  rw [h]
  split_ifs <;> rfl

theorem removeObject_startCount_le (s : Sim R) (object : WorldObject R) :
    startCount (World.removeObject s object).world.objects ≤ startCount s.world.objects := by
  cases h : s.world.objects.findIdx? (fun o => o.ref == object.ref) with
  | none => rw [removeObject_of_none s object h]
  | some index =>
    rw [removeObject_objects_of_some s object index h]
    split_ifs
    · rw [← renumber_startCount 1 s.world.objects]
      exact (List.eraseIdx_sublist _ _).countP_le _
    · exact (List.eraseIdx_sublist _ _).countP_le _

theorem removeObject_refs_sublist (s : Sim R) (object : WorldObject R) :
    ((World.removeObject s object).world.objects.map WorldObject.ref).Sublist
      (s.world.objects.map WorldObject.ref) := by
  cases h : s.world.objects.findIdx? (fun o => o.ref == object.ref) with
  | none => rw [removeObject_of_none s object h]
  | some index =>
    rw [removeObject_objects_of_some s object index h]
    split_ifs
    · rw [← renumber_ref 1 s.world.objects]
      exact (List.eraseIdx_sublist _ _).map _
    · exact (List.eraseIdx_sublist _ _).map _

/-- Removing the Start object found by the START tool leaves no Start behind, when
the registry held at most one and references are distinct. -/
theorem removeObject_existingStart (s : Sim R) (e : WorldObject R)
    (hfind : s.world.objects.find? (fun obj => decide (obj.type = .START)) = some e)
    (hcount : startCount s.world.objects ≤ 1)
    (hnodup : (s.world.objects.map WorldObject.ref).Nodup) :
    startCount (World.removeObject s e).world.objects = 0 := by
  have hmem : e ∈ s.world.objects := List.mem_of_find?_eq_some hfind
  have hstart : e.type = .START := by simpa using List.find?_some hfind
  have hex : ∃ x, x ∈ s.world.objects ∧ (fun o : WorldObject R => o.ref == e.ref) x = true :=
    ⟨e, hmem, by simp⟩
  obtain ⟨index, hidx⟩ : ∃ index,
      s.world.objects.findIdx? (fun o => o.ref == e.ref) = some index := by
    cases h : s.world.objects.findIdx? (fun o => o.ref == e.ref) with
    | some i => exact ⟨i, rfl⟩
    | none =>
      rw [List.findIdx?_eq_none_iff] at h
      have := h e hmem
      simp at this
  rw [removeObject_objects_of_some s e index hidx, if_neg (by rw [hstart]; decide)]
  obtain ⟨hlt, hp, _⟩ := List.findIdx?_eq_some_iff_getElem.mp hidx
  have href : (s.world.objects.get ⟨index, hlt⟩).ref = e.ref := by simpa using hp
  have heq : s.world.objects.get ⟨index, hlt⟩ = e :=
    List.inj_on_of_nodup_map hnodup (List.get_mem _ _ _) hmem href
  have := countP_eraseIdx (fun o : WorldObject R => decide (o.type = .START))
    s.world.objects index hlt (by rw [heq]; simpa using hstart)
  unfold startCount at hcount ⊢
  omega

end RegistryB

/-! ## At most one Start (C9) -/

section StartA
variable {R : Type}

theorem startCount_append (l l' : List (WorldObject R)) :
    startCount (l ++ l') = startCount l + startCount l' := by
  unfold startCount
  rw [List.countP_append]

theorem startCount_map_withRef (l : List (WorldObject R)) :
    startCount (l.map (WorldObject.withRef 0)) = startCount l := by
  unfold startCount
  rw [List.countP_map]
  congr 1
  funext o
  simp [withRef_type]

theorem startCount_numberFrom (c : Int) (records : List (Record R)) :
    startCount (numberFrom c records) = startRecords records := by
  unfold startCount startRecords
  induction records generalizing c with
  | nil => rfl
  | cons obj rest ih =>
    unfold numberFrom
    split_ifs <;> simp [List.countP_cons, ih, setNumber_type, toObject_type]

end StartA

section StartB
variable {R : Type} [LinearOrderedField R] [JSMath R]

theorem addObject_refs (s : Sim R) (object : WorldObject R) :
    (World.addObject s object).world.objects.map WorldObject.ref =
      s.world.objects.map WorldObject.ref ++ [object.ref] := by
  rw [addObject_objects]
  split_ifs <;> simp [setNumber_ref]

theorem addObject_startCount (s : Sim R) (object : WorldObject R) :
    startCount (World.addObject s object).world.objects =
      startCount s.world.objects + if object.type = .START then 1 else 0 := by
  rw [addObject_objects, startCount_append]
  congr 1
  unfold startCount
  split_ifs <;> simp_all [List.countP_cons, setNumber_type]

theorem addRecords_refs (records : List (Record R)) (s : Sim R) :
    (World.addRecords s records).world.objects.map WorldObject.ref =
      s.world.objects.map WorldObject.ref ++
        List.range' s.world.objects.length records.length := by
  induction records generalizing s with
  | nil => simp [World.addRecords]
  | cons obj rest ih =>
    rw [addRecords_cons, ih, addObject_refs, toObject_ref]
    have hlen : (World.addObject s (obj.toObject s.world.objects.length)).world.objects.length =
        s.world.objects.length + 1 := by
      rw [addObject_objects]; simp
    rw [hlen, List.length_cons, List.range'_succ]
    simp

theorem startCount_of_find_none (l : List (WorldObject R))
    (h : l.find? (fun obj => decide (obj.type = .START)) = none) : startCount l = 0 := by
  unfold startCount
  rw [List.countP_eq_zero]
  intro o ho
  have := List.find?_eq_none.mp h o ho
  simpa using this

theorem handleMouseDownStart_editing (s : Sim R) (ref : Nat) (x y : R)
    (hstate : s.world.state = .EDITING) :
    (handleMouseDownStart s ref x y).world.objects =
      (World.addObject
        (match s.world.objects.find? (fun obj => decide (obj.type = .START)) with
          | some existingStart => World.removeObject s existingStart
          | none => s) (.start ref x y 10)).world.objects ∧
    (handleMouseDownStart s ref x y).world.robot =
      some (Robot.new (World.addObject
        (match s.world.objects.find? (fun obj => decide (obj.type = .START)) with
          | some existingStart => World.removeObject s existingStart
          | none => s) (.start ref x y 10)).config x y) := by
  unfold handleMouseDownStart
  rw [if_neg (by simp [hstate])]
  exact ⟨rfl, rfl⟩

/-- The START tool in the editing state: one Start afterwards, distinct references. -/
theorem handleMouseDownStart_invariant (s : Sim R) (ref : Nat) (x y : R)
    (hstate : s.world.state = .EDITING) (hfresh : Fresh ref s)
    (hcount : startCount s.world.objects ≤ 1)
    (hnodup : (s.world.objects.map WorldObject.ref).Nodup) :
    startCount (handleMouseDownStart s ref x y).world.objects = 1 ∧
    ((handleMouseDownStart s ref x y).world.objects.map WorldObject.ref).Nodup := by
  rw [(handleMouseDownStart_editing s ref x y hstate).1]
  have key : ∀ s1 : Sim R, startCount s1.world.objects = 0 →
      (s1.world.objects.map WorldObject.ref).Sublist (s.world.objects.map WorldObject.ref) →
      startCount (World.addObject s1 (.start ref x y 10)).world.objects = 1 ∧
      ((World.addObject s1 (.start ref x y 10)).world.objects.map WorldObject.ref).Nodup := by
    intro s1 h0 hsub
    constructor
    · rw [addObject_startCount, h0]
      rfl
    · rw [addObject_refs, List.nodup_append]
      refine ⟨hnodup.sublist hsub, List.nodup_singleton _, ?_⟩
      intro a ha hb
      rw [List.mem_singleton] at hb
      have ha' := hsub.subset ha
      rw [List.mem_map] at ha'
      obtain ⟨o, ho, rfl⟩ := ha'
      exact hfresh o ho hb
  cases hfind : s.world.objects.find? (fun obj => decide (obj.type = .START)) with
  | none => exact key s (startCount_of_find_none _ hfind) (List.Sublist.refl _)
  | some e =>
    exact key _ (removeObject_existingStart s e hfind hcount hnodup)
      (removeObject_refs_sublist s e)

theorem deserialize_array_refs (s : Sim R) (records : List (Record R))
    (config : Option (DocConfig R)) :
    (World.deserialize s (some ⟨.array records, config⟩)).2.world.objects.map WorldObject.ref =
      List.range' 0 records.length := by
  have hlen : ∀ (l : List (Record R)) (s0 : Sim R),
      (World.addRecords s0 l).world.objects.length = s0.world.objects.length + l.length := by
    intro l s0
    have := congrArg List.length (addRecords_refs l s0)
    simpa using this
  have hperm : ((records.filter fun obj => decide (obj.type ≠ .HOMEBASE)) ++
      (records.filter fun obj => decide (obj.type = .HOMEBASE))).length = records.length := by
    have hf := List.filter_append_perm (fun o : Record R => decide (o.type ≠ .HOMEBASE)) records
    rw [← hf.length_eq]
    congr 2
    apply List.filter_congr
    intro o _
    simp
  unfold World.deserialize
  simp only [reset_objects]
  rw [addRecords_refs, addRecords_refs, hlen]
  have h0 : ∀ s1 : Sim R, s1.world.objects = [] →
      List.map WorldObject.ref s1.world.objects ++
        List.range' s1.world.objects.length
          (List.filter (fun obj => decide (obj.type ≠ .HOMEBASE)) records).length ++
        List.range' (s1.world.objects.length +
          (List.filter (fun obj => decide (obj.type ≠ .HOMEBASE)) records).length)
          (List.insertionSort homebaseOrder
            (List.filter (fun obj => decide (obj.type = .HOMEBASE)) records)).length =
      List.range' 0 records.length := by
    intro s1 h1
    rw [h1, List.length_insertionSort]
    simp only [List.map_nil, List.nil_append, List.length_nil, Nat.zero_add]
    have h := List.range'_append_1 0
      (List.filter (fun obj : Record R => decide (obj.type ≠ .HOMEBASE)) records).length
      (List.filter (fun obj : Record R => decide (obj.type = .HOMEBASE)) records).length
    rw [Nat.zero_add] at h
    rw [h, Nat.add_comm, ← List.length_append, hperm]
  cases config with
  | none => exact h0 _ rfl
  | some c => exact h0 _ rfl

theorem deserialize_array_startCount (s : Sim R) (records : List (Record R))
    (config : Option (DocConfig R)) :
    startCount (World.deserialize s (some ⟨.array records, config⟩)).2.world.objects =
      startRecords records := by
  rw [← startCount_map_withRef, (deserialize_array_objects s records config).2,
    startCount_append, startCount_numberFrom, startCount_numberFrom]
  unfold startRecords
  rw [(List.perm_insertionSort homebaseOrder _).countP_eq, ← List.countP_append]
  have hf := List.filter_append_perm (fun o : Record R => decide (o.type ≠ .HOMEBASE)) records
  rw [← hf.countP_eq]
  congr 2
  apply List.filter_congr
  intro o _
  simp

/-- The invariant of the registry under the editing steps. -/
theorem editStep_invariant (s s' : Sim R) (hstep : EditStep s s')
    (hcount : startCount s.world.objects ≤ 1)
    (hnodup : (s.world.objects.map WorldObject.ref).Nodup) :
    startCount s'.world.objects ≤ 1 ∧ (s'.world.objects.map WorldObject.ref).Nodup := by
  cases hstep with
  | placeStart ref x y hfresh =>
    by_cases hstate : s.world.state = .EDITING
    · obtain ⟨h1, h2⟩ := handleMouseDownStart_invariant s ref x y hstate hfresh hcount hnodup
      exact ⟨le_of_eq h1, h2⟩
    · have : handleMouseDownStart s ref x y = s := by
        unfold handleMouseDownStart
        rw [if_pos hstate]
      rw [this]
      exact ⟨hcount, hnodup⟩
  | add object hne hfresh =>
    constructor
    · rw [addObject_startCount, if_neg hne]; exact hcount
    · rw [addObject_refs, List.nodup_append]
      refine ⟨hnodup, List.nodup_singleton _, ?_⟩
      intro a ha hb
      rw [List.mem_singleton] at hb
      rw [List.mem_map] at ha
      obtain ⟨o, ho, rfl⟩ := ha
      exact hfresh o ho hb
  | remove object =>
    exact ⟨le_trans (removeObject_startCount_le s object) hcount,
      hnodup.sublist (removeObject_refs_sublist s object)⟩
  | clear => exact ⟨by simp [World.clear, startCount], by simp [World.clear]⟩
  | reset => exact ⟨hcount, hnodup⟩
  | tick u1 u2 =>
    rw [update_objects]
    exact ⟨hcount, hnodup⟩
  | setState state => exact ⟨hcount, hnodup⟩
  | load records config hrec =>
    rw [deserialize_array_startCount, deserialize_array_refs]
    exact ⟨hrec, List.nodup_range' _ _⟩
  | loadInvalid worldData hinvalid =>
    cases worldData with
    | none => exact ⟨hcount, hnodup⟩
    | some d =>
      obtain ⟨objs, cfg⟩ := d
      cases objs with
      | missing => exact ⟨by simp [World.deserialize, World.clear, startCount],
          by simp [World.deserialize, World.clear]⟩
      | notArray => exact ⟨by simp [World.deserialize, World.clear, startCount],
          by simp [World.deserialize, World.clear]⟩
      | array records => exact absurd rfl (hinvalid _ rfl records)

theorem reachable_invariant (s : Sim R) (h : Reachable s) :
    startCount s.world.objects ≤ 1 ∧ (s.world.objects.map WorldObject.ref).Nodup := by
  induction h with
  | empty s h0 => rw [h0]; exact ⟨by simp [startCount], by simp⟩
  | step s s' _ hstep ih => exact editStep_invariant s s' hstep ih.1 ih.2

end StartB

section StartC

variable {R : Type} [LinearOrderedField R] [JSMath R]

theorem addObject_config_of_ne (s : Sim R) (object : WorldObject R)
    (h : object.type ≠ .HOMEBASE) : (World.addObject s object).config = s.config := by
  unfold World.addObject
  rw [if_neg h]

theorem removeObject_config_of_ne (s : Sim R) (object : WorldObject R)
    (h : object.type ≠ .HOMEBASE) : (World.removeObject s object).config = s.config := by
  unfold World.removeObject
  split
  · rw [if_neg h]
  · rfl

/-- C9 (amended): addObject never removes a Start; the replacement is done by the
START tool of handleMouseDown.  In every state reachable from an empty registry by
START-tool placements, addObject of new objects that are not a Start, removeObject,
clear, reset, ticks, changes of simulation state and deserialize of documents with at
most one START record, the registry holds at most one Start; and in the editing state
the START tool leaves exactly one Start, the new one, and re-creates the agent at its
position. -/
theorem C9_at_most_one_start_through_start_tool (s : Sim R) (h : Reachable s) :
    startCount s.world.objects ≤ 1 ∧
    ∀ (ref : Nat) (x y : R), Fresh ref s → s.world.state = .EDITING →
      startCount (handleMouseDownStart s ref x y).world.objects = 1 ∧
      WorldObject.start ref x y 10 ∈ (handleMouseDownStart s ref x y).world.objects ∧
      (handleMouseDownStart s ref x y).world.robot = some (Robot.new s.config x y) := by
  obtain ⟨hcount, hnodup⟩ := reachable_invariant s h
  refine ⟨hcount, ?_⟩
  intro ref x y hfresh hstate
  refine ⟨(handleMouseDownStart_invariant s ref x y hstate hfresh hcount hnodup).1, ?_, ?_⟩
  · rw [(handleMouseDownStart_editing s ref x y hstate).1, addObject_objects]
    simp [WorldObject.type]
  · rw [(handleMouseDownStart_editing s ref x y hstate).2,
      addObject_config_of_ne _ _ (by simp [WorldObject.type])]
    cases hfind : s.world.objects.find? (fun obj => decide (obj.type = .START)) with
    | none => rfl
    | some e =>
      have hstart : e.type = .START := by simpa using List.find?_some hfind
      show some (Robot.new (World.removeObject s e).config x y) = _
      rw [removeObject_config_of_ne s e (by rw [hstart]; decide)]

/-- C10: for a document that parses but whose `objects` field is missing or not an
array, deserialize returns false and leaves the cleared world: empty registry, no
agent, homebase counter 0, every other configuration field and the simulation state
as before. -/
theorem C10_invalid_document_clears_world (s : Sim R) (worldData : Document R)
    (h : worldData.objects = .missing ∨ worldData.objects = .notArray) :
    (World.deserialize s (some worldData)).1 = false ∧
    (World.deserialize s (some worldData)).2 = World.clear s ∧
    (World.clear s).world.objects = [] ∧
    (World.clear s).world.robot = none ∧
    (World.clear s).config.homeBaseCounter = 0 ∧
    (World.clear s).world.state = s.world.state ∧
    (World.clear s).config.robotSize = s.config.robotSize ∧
    (World.clear s).config.robotSpeed = s.config.robotSpeed ∧
    (World.clear s).config.repulsiveForce = s.config.repulsiveForce ∧
    (World.clear s).config.attractiveForce = s.config.attractiveForce ∧
    (World.clear s).config.noiseGain = s.config.noiseGain ∧
    (World.clear s).config.sensorRange = s.config.sensorRange ∧
    (World.clear s).config.boundaryForce = s.config.boundaryForce ∧
    (World.clear s).config.numSensorPoints = s.config.numSensorPoints ∧
    (World.clear s).config.sensorPointSpacing = s.config.sensorPointSpacing ∧
    (World.clear s).config.enableBoundary = s.config.enableBoundary ∧
    (World.clear s).config.wallThickness = s.config.wallThickness ∧
    (World.clear s).config.minWallLength = s.config.minWallLength := by
  obtain ⟨objs, cfg⟩ := worldData
  have hd : World.deserialize s (some ⟨objs, cfg⟩) = (false, World.clear s) := by
    rcases h with h | h <;> simp only at h <;> subst h <;> rfl
  rw [hd]
  exact ⟨rfl, rfl, rfl, rfl, rfl, rfl, rfl, rfl, rfl, rfl, rfl, rfl, rfl, rfl, rfl, rfl, rfl,
    rfl⟩

end StartC

/-- C3 (witness): the world with homebases A, B, C numbered 1, 2, 3 survives the
round trip. -/
theorem C3_round_trip_witness :
    (homebaseNumbers (worldABC : Sim ℝ).world.objects).Perm (contiguousNumbers 3) ∧
    (World.deserialize (Sim.initial canvas800) (some (World.serialize (worldABC : Sim ℝ)))).1
      = true ∧
    ((World.deserialize (Sim.initial canvas800)
        (some (World.serialize (worldABC : Sim ℝ)))).2.world.objects.map
        (WorldObject.withRef 0)).Perm
      ((worldABC : Sim ℝ).world.objects.map (WorldObject.withRef 0)) :=
  have h : (homebaseNumbers (worldABC : Sim ℝ).world.objects).Perm (contiguousNumbers 3) :=
    List.Perm.of_eq rfl
  ⟨h, C3_round_trip worldABC (Sim.initial canvas800) 3 h⟩

/-- C9 (counterexample): two calls of addObject with a Start each leave two Start
objects in the registry, the first one still among them, and the agent is the one
created at the first Start, (100, 100), not at the new one. -/
theorem C9_addObject_keeps_previous_start :
    startCount (worldTwoStarts : Sim ℝ).world.objects = 2 ∧
    WorldObject.start 0 100 100 10 ∈ (worldTwoStarts : Sim ℝ).world.objects ∧
    (worldTwoStarts : Sim ℝ).world.robot = some (Robot.new Config.initial 100 100) := by
  refine ⟨rfl, ?_, rfl⟩
  show WorldObject.start 0 100 100 10 ∈
    [WorldObject.start 0 100 100 10, WorldObject.start 1 300 300 10]
  simp

/-- C9 (witness): the START tool used twice from the initial page. -/
theorem C9_at_most_one_start_witness :
    Reachable (worldStartOnce : Sim ℝ) ∧
    Fresh 1 (worldStartOnce : Sim ℝ) ∧
    (worldStartOnce : Sim ℝ).world.state = .EDITING ∧
    startCount (worldStartOnce : Sim ℝ).world.objects ≤ 1 ∧
    startCount (worldStartTwice : Sim ℝ).world.objects = 1 ∧
    WorldObject.start 1 300 300 10 ∈ (worldStartTwice : Sim ℝ).world.objects ∧
    (worldStartTwice : Sim ℝ).world.robot =
      some (Robot.new (worldStartOnce : Sim ℝ).config 300 300) := by
  have hreach : Reachable (worldStartOnce : Sim ℝ) :=
    Reachable.step _ _ (Reachable.empty (Sim.initial canvas800) rfl)
      (EditStep.placeStart _ 0 100 100 (fun o ho => by
        have : o ∈ ([] : List (WorldObject ℝ)) := ho
        simp at this))
  have hfresh : Fresh 1 (worldStartOnce : Sim ℝ) := by
    intro o ho
    have ho' : o ∈ [WorldObject.start 0 (100 : ℝ) 100 10] := ho
    rw [List.mem_singleton] at ho'
    subst ho'
    decide
  have h := C9_at_most_one_start_through_start_tool (worldStartOnce : Sim ℝ) hreach
  exact ⟨hreach, hfresh, rfl, h.1, h.2 1 300 300 hfresh rfl⟩

/-- C10 (witness): loading a document without `objects` into the world with three
homebases returns false and leaves the cleared world; the speed the document carries
is not applied. -/
theorem C10_invalid_document_witness :
    (documentWithoutObjects : Document ℝ).objects = .missing ∧
    (World.deserialize (worldABC : Sim ℝ) (some documentWithoutObjects)).1 = false ∧
    (World.deserialize (worldABC : Sim ℝ) (some documentWithoutObjects)).2.world.objects = [] ∧
    (World.deserialize (worldABC : Sim ℝ) (some documentWithoutObjects)).2.config.robotSpeed
      = 3 / 2 := by
  have h := C10_invalid_document_clears_world (worldABC : Sim ℝ) documentWithoutObjects
    (Or.inl rfl)
  refine ⟨rfl, h.1, ?_, ?_⟩
  · rw [h.2.1]; exact h.2.2.1
  · rw [h.2.1]; rfl

/-! ## What a load builds (C11) -/

section LoadA
variable {R : Type}

theorem numberFrom_of_ne (c : Int) (l : List (Record R))
    (h : ∀ o ∈ l, o.type ≠ .HOMEBASE) :
    numberFrom c l = l.map (Record.toObject 0) := by
  induction l with
  | nil => rfl
  | cons o l ih =>
    have ho := h o (List.mem_cons_self _ _)
    simp only [List.map_cons, numberFrom, if_neg ho]
    rw [ih (fun o' ho' => h o' (List.mem_cons_of_mem _ ho'))]

theorem contiguousNumbers_succ (K : Nat) :
    contiguousNumbers (K + 1) = 1 :: (contiguousNumbers K).map (· + 1) := by
  unfold contiguousNumbers
  rw [List.range_succ_eq_map, List.map_cons, List.map_map, List.map_map]
  simp only [Nat.cast_zero, zero_add, List.cons.injEq, true_and]
  apply List.map_congr_left
  intro i _
  simp

theorem numberFrom_of_homebases (l : List (Record R)) (c : Int)
    (h : ∀ o ∈ l, o.type = .HOMEBASE) :
    numberFrom c l =
      List.zipWith (fun rec n => (rec.toObject 0).setNumber n) l
        ((contiguousNumbers l.length).map (· + c)) := by
  induction l generalizing c with
  | nil => rfl
  | cons o l ih =>
    have ho := h o (List.mem_cons_self _ _)
    simp only [numberFrom, if_pos ho, List.length_cons, contiguousNumbers_succ, List.map_cons,
      List.zipWith_cons_cons, List.map_map]
    rw [ih (c + 1) (fun o' ho' => h o' (List.mem_cons_of_mem _ ho'))]
    congr 1
    · rw [add_comm]
    · congr 1
      apply List.map_congr_left
      intro i _
      simp only [Function.comp]
      ring

theorem homebaseNumbers_append (l l' : List (WorldObject R)) :
    homebaseNumbers (l ++ l') = homebaseNumbers l ++ homebaseNumbers l' := by
  unfold homebaseNumbers
  rw [List.filterMap_append]

theorem homebaseNumbers_map_withRef (l : List (WorldObject R)) :
    homebaseNumbers (l.map (WorldObject.withRef 0)) = homebaseNumbers l := by
  unfold homebaseNumbers
  rw [List.filterMap_map]
  congr 1
  funext o
  cases o <;> rfl

theorem homebaseNumbers_toObject_of_ne (l : List (Record R))
    (h : ∀ o ∈ l, o.type ≠ .HOMEBASE) :
    homebaseNumbers (l.map (Record.toObject 0)) = [] := by
  unfold homebaseNumbers
  rw [List.filterMap_eq_nil_iff]
  intro o ho
  rw [List.mem_map] at ho
  obtain ⟨rec, hrec, rfl⟩ := ho
  have := h rec hrec
  cases rec <;> first | rfl | exact absurd rfl this

theorem homebaseNumbers_zipWith (l : List (Record R)) (ns : List Int)
    (h : ∀ o ∈ l, o.type = .HOMEBASE) (hlen : ns.length = l.length) :
    homebaseNumbers (List.zipWith (fun rec n => (rec.toObject 0).setNumber n) l ns) = ns := by
  unfold homebaseNumbers
  induction l generalizing ns with
  | nil => cases ns with
    | nil => rfl
    | cons _ _ => simp at hlen
  | cons o l ih =>
    cases ns with
    | nil => simp at hlen
    | cons n ns =>
      have ho := h o (List.mem_cons_self _ _)
      have hnum : ((o.toObject 0).setNumber n).number? = some n := by
        cases o <;> first | rfl | exact absurd ho (by simp [Record.type])
      rw [List.zipWith_cons_cons, List.filterMap_cons_some hnum,
        ih ns (fun o' ho' => h o' (List.mem_cons_of_mem _ ho')) (by simpa using hlen)]

end LoadA

section LoadB
variable {R : Type} [LinearOrderedField R] [JSMath R]

theorem deserialize_array_counter (s : Sim R) (records : List (Record R))
    (config : Option (DocConfig R)) :
    (World.deserialize s (some ⟨.array records, config⟩)).2.config.homeBaseCounter =
      ((records.filter fun obj => decide (obj.type = .HOMEBASE)).length : Int) := by
  have hB : ((records.filter fun obj => decide (obj.type = .HOMEBASE)).insertionSort
      homebaseOrder).countP (fun o => decide (o.type = .HOMEBASE)) =
      (records.filter fun obj => decide (obj.type = .HOMEBASE)).length := by
    rw [(List.perm_insertionSort homebaseOrder _).countP_eq, List.countP_eq_length]
    intro o ho
    rw [List.mem_filter] at ho
    exact ho.2
  unfold World.deserialize
  simp only [reset_config]
  rw [(addRecords_spec _ _).2, (addRecords_spec _ _).2, countP_homebase_filter, hB]
  cases config <;> simp [World.clear, World.assignConfig]

/-- C11: for a document with an `objects` array, deserialize returns true; afterwards
the homebase counter is K, the number of HOMEBASE records (whatever numbers and
counter the document carries); the registry holds first the other objects in document
order, then the homebases; the homebases are the HOMEBASE records sorted by
`number || 0` ascending with ties in document order, and the i-th of them carries the
number i, so the numbers in registry order are 1..K. -/
theorem C11_load_numbers_homebases (s : Sim R) (records : List (Record R)) (config : Option (DocConfig R)) :
    (World.deserialize s (some ⟨.array records, config⟩)).1 = true ∧
    (World.deserialize s (some ⟨.array records, config⟩)).2.config.homeBaseCounter =
      ((records.filter fun obj => decide (obj.type = .HOMEBASE)).length : Int) ∧
    homebaseNumbers (World.deserialize s (some ⟨.array records, config⟩)).2.world.objects =
      contiguousNumbers (records.filter fun obj => decide (obj.type = .HOMEBASE)).length ∧
    (World.deserialize s (some ⟨.array records, config⟩)).2.world.objects.map
        (WorldObject.withRef 0) =
      (records.filter fun obj => decide (obj.type ≠ .HOMEBASE)).map (Record.toObject 0) ++
      List.zipWith (fun rec n => (rec.toObject 0).setNumber n)
        ((records.filter fun obj => decide (obj.type = .HOMEBASE)).insertionSort homebaseOrder)
        (contiguousNumbers (records.filter fun obj => decide (obj.type = .HOMEBASE)).length) ∧
    ((records.filter fun obj => decide (obj.type = .HOMEBASE)).insertionSort homebaseOrder).Perm
      (records.filter fun obj => decide (obj.type = .HOMEBASE)) ∧
    ((records.filter fun obj => decide (obj.type = .HOMEBASE)).insertionSort
      homebaseOrder).Sorted homebaseOrder ∧
    ∀ a b : Record R, homebaseOrder a b →
      List.Sublist [a, b] (records.filter fun obj => decide (obj.type = .HOMEBASE)) →
      List.Sublist [a, b]
        ((records.filter fun obj => decide (obj.type = .HOMEBASE)).insertionSort
          homebaseOrder) := by
  have hsortedHB : ∀ o ∈ (records.filter fun obj => decide (obj.type = .HOMEBASE)).insertionSort
      homebaseOrder, o.type = .HOMEBASE := by
    intro o ho
    rw [List.mem_insertionSort, List.mem_filter] at ho
    simpa using ho.2
  have hothers : ∀ o ∈ records.filter fun obj => decide (obj.type ≠ .HOMEBASE),
      o.type ≠ .HOMEBASE := by
    intro o ho
    rw [List.mem_filter] at ho
    simpa using ho.2
  have hobjects : (World.deserialize s (some ⟨.array records, config⟩)).2.world.objects.map
        (WorldObject.withRef 0) =
      (records.filter fun obj => decide (obj.type ≠ .HOMEBASE)).map (Record.toObject 0) ++
      List.zipWith (fun rec n => (rec.toObject 0).setNumber n)
        ((records.filter fun obj => decide (obj.type = .HOMEBASE)).insertionSort homebaseOrder)
        (contiguousNumbers (records.filter fun obj => decide (obj.type = .HOMEBASE)).length) := by
    rw [(deserialize_array_objects s records config).2, countP_homebase_filter, Nat.cast_zero,
      numberFrom_of_ne 0 _ hothers, numberFrom_of_homebases _ 0 hsortedHB,
      List.length_insertionSort]
    simp
  refine ⟨rfl, deserialize_array_counter s records config, ?_, hobjects,
    List.perm_insertionSort _ _, List.sorted_insertionSort _ _, ?_⟩
  · rw [← homebaseNumbers_map_withRef, hobjects, homebaseNumbers_append,
      homebaseNumbers_toObject_of_ne _ hothers,
      homebaseNumbers_zipWith _ _ hsortedHB (by
        unfold contiguousNumbers
        simp)]
    rfl
  · intro a b hab hsub
    exact List.pair_sublist_insertionSort hab hsub

end LoadB

/-! ## serialize, addObject, reset (C12, C18, C19) -/

section RegistryC
variable {R : Type} [LinearOrderedField R] [JSMath R]

/-- C12 (amended): the document written by serialize lists one record per registry
object in registry order (a wall with its two endpoints; a homebase with x, y, radius
and its number; an obstacle or a start with x, y, radius and no number), and its
`config` holds homeBaseCounter, robotSpeed, repulsiveForce, attractiveForce, noiseGain,
sensorRange, boundaryForce and enableBoundary, and no other key. -/
theorem C12_serialize_document (s : Sim R) :
    (World.serialize s).objects = .array (s.world.objects.map World.serializeObject) ∧
    (∀ (ref : Nat) (st e : Vector2D R),
      World.serializeObject (.wall ref st e) = .wall ⟨st.x, st.y⟩ ⟨e.x, e.y⟩) ∧
    (∀ (ref : Nat) (x y radius : R) (n : Int),
      World.serializeObject (.homebase ref x y radius n) = .homebase x y radius (some (n : R))) ∧
    (∀ (ref : Nat) (x y radius : R),
      World.serializeObject (.obstacle ref x y radius) = .obstacle x y radius) ∧
    (∀ (ref : Nat) (x y radius : R),
      World.serializeObject (.start ref x y radius) = .start x y radius) ∧
    ∃ c : DocConfig R, (World.serialize s).config = some c ∧
      c.homeBaseCounter = some s.config.homeBaseCounter ∧
      c.robotSpeed = some s.config.robotSpeed ∧
      c.repulsiveForce = some s.config.repulsiveForce ∧
      c.attractiveForce = some s.config.attractiveForce ∧
      c.noiseGain = some s.config.noiseGain ∧
      c.sensorRange = some s.config.sensorRange ∧
      c.boundaryForce = some s.config.boundaryForce ∧
      c.enableBoundary = some s.config.enableBoundary ∧
      c.robotSize = none ∧ c.numSensorPoints = none ∧ c.sensorPointSpacing = none ∧
      c.wallThickness = none ∧ c.minWallLength = none :=
  ⟨rfl, fun _ _ _ => rfl, fun _ _ _ _ _ => rfl, fun _ _ _ _ => rfl, fun _ _ _ _ => rfl,
    _, rfl, rfl, rfl, rfl, rfl, rfl, rfl, rfl, rfl, rfl, rfl, rfl, rfl, rfl⟩

/-- C18: addObject of a homebase appends it at the end of the registry with the
number counter + 1 and increments the counter, the objects already present staying as
they are; addObject of any other object appends it and leaves the counter and the
homebase numbers unchanged. -/
theorem C18_addObject_numbers_homebase (s : Sim R) (object : WorldObject R) :
    (∀ (ref : Nat) (x y radius : R) (m : Int), object = .homebase ref x y radius m →
      (World.addObject s object).world.objects =
        s.world.objects ++ [.homebase ref x y radius (s.config.homeBaseCounter + 1)] ∧
      (World.addObject s object).config.homeBaseCounter = s.config.homeBaseCounter + 1) ∧
    (object.type ≠ .HOMEBASE →
      (World.addObject s object).world.objects = s.world.objects ++ [object] ∧
      (World.addObject s object).config.homeBaseCounter = s.config.homeBaseCounter ∧
      homebaseNumbers (World.addObject s object).world.objects =
        homebaseNumbers s.world.objects) := by
  constructor
  · intro ref x y radius m h
    subst h
    exact ⟨by rw [addObject_objects]; rfl, by rw [addObject_counter]; rfl⟩
  · intro h
    have hobj : (World.addObject s object).world.objects = s.world.objects ++ [object] := by
      rw [addObject_objects, if_neg h]
    refine ⟨hobj, by rw [addObject_counter, if_neg h], ?_⟩
    rw [hobj, homebaseNumbers_append]
    have : homebaseNumbers [object] = [] := by
      cases object <;> first | rfl | exact absurd rfl h
    rw [this, List.append_nil]

/-- C19: reset sets the state to EDITING and leaves the registry and the
configuration (the homebase counter included) unchanged; with an agent and a Start in
the registry the agent gets the position of the first Start, zero velocity and
acceleration and targetNumber 1 (angle, sensor points and collision radius stay); with
no Start the agent is unchanged, and with no agent there is still none. -/
theorem C19_reset (s : Sim R) :
    (World.reset s).world.state = .EDITING ∧
    (World.reset s).world.objects = s.world.objects ∧
    (World.reset s).config = s.config ∧
    (∀ (robot : Robot R) (ref : Nat) (x y radius : R), s.world.robot = some robot →
      s.world.objects.find? (fun obj => decide (obj.type = .START)) =
        some (.start ref x y radius) →
      ∃ robot', (World.reset s).world.robot = some robot' ∧
        robot'.position = ⟨x, y⟩ ∧ robot'.velocity = Vector2D.zero ∧
        robot'.acceleration = Vector2D.zero ∧ robot'.targetNumber = some 1 ∧
        robot'.angle = robot.angle ∧ robot'.sensorPoints = robot.sensorPoints ∧
        robot'.collisionRadius = robot.collisionRadius) ∧
    ((∀ o ∈ s.world.objects, o.type ≠ .START) → (World.reset s).world.robot = s.world.robot) ∧
    (s.world.robot = none → (World.reset s).world.robot = none) := by
  refine ⟨rfl, rfl, rfl, ?_, ?_, ?_⟩
  · intro robot ref x y radius hrobot hfind
    unfold World.reset
    simp only [hrobot, hfind]
    exact ⟨_, rfl, rfl, rfl, rfl, rfl, rfl, rfl, rfl⟩
  · intro hno
    have hfind : s.world.objects.find? (fun obj => decide (obj.type = .START)) = none := by
      rw [List.find?_eq_none]
      intro o ho
      simpa using hno o ho
    unfold World.reset
    simp only [hfind]
    cases s.world.robot <;> rfl
  · intro hnone
    unfold World.reset
    simp only [hnone]

end RegistryC

/-! ## Collision detection (C14) -/

section Collision
variable {R : Type} [LinearOrderedField R] [JSMath R]

/-- C14: detectCollisions is true exactly when the registry holds a wall whose segment
distance from the centre of the agent is strictly less than collisionRadius +
wallThickness / 2, or an obstacle whose centre is strictly nearer than collisionRadius +
its radius; a registry of homebases and starts only gives false, and dropping every
homebase and start from the registry does not change the result. -/
theorem C14_detectCollisions_iff (cfg : Config R) (r : Robot R) (objects : List (WorldObject R)) :
    (r.detectCollisions cfg objects = true ↔
      (∃ (ref : Nat) (s e : Vector2D R), WorldObject.wall ref s e ∈ objects ∧
        WorldObject.distanceToPoint s e r.position <
          r.collisionRadius + cfg.wallThickness / 2) ∨
      (∃ (ref : Nat) (x y radius : R), WorldObject.obstacle ref x y radius ∈ objects ∧
        JSMath.sqrt ((x - r.position.x) ^ 2 + (y - r.position.y) ^ 2) <
          r.collisionRadius + radius)) ∧
    ((∀ o ∈ objects, o.type = .HOMEBASE ∨ o.type = .START) →
      r.detectCollisions cfg objects = false) ∧
    r.detectCollisions cfg objects =
      r.detectCollisions cfg
        (objects.filter fun o => decide (o.type = .WALL ∨ o.type = .OBSTACLE)) := by
  have hiff : r.detectCollisions cfg objects = true ↔
      (∃ (ref : Nat) (s e : Vector2D R), WorldObject.wall ref s e ∈ objects ∧
        WorldObject.distanceToPoint s e r.position <
          r.collisionRadius + cfg.wallThickness / 2) ∨
      (∃ (ref : Nat) (x y radius : R), WorldObject.obstacle ref x y radius ∈ objects ∧
        JSMath.sqrt ((x - r.position.x) ^ 2 + (y - r.position.y) ^ 2) <
          r.collisionRadius + radius) := by
    rw [detectCollisions_eq_any, List.any_eq_true]
    constructor
    · rintro ⟨o, ho, hstep⟩
      cases o with
      | wall ref s e =>
        left
        refine ⟨ref, s, e, ho, ?_⟩
        simpa [Robot.collisionStep] using hstep
      | obstacle ref x y radius =>
        right
        refine ⟨ref, x, y, radius, ho, ?_⟩
        simpa [Robot.collisionStep] using hstep
      | homebase ref x y radius n => simp [Robot.collisionStep] at hstep
      | start ref x y radius => simp [Robot.collisionStep] at hstep
    · rintro (⟨ref, s, e, ho, hlt⟩ | ⟨ref, x, y, radius, ho, hlt⟩)
      · exact ⟨_, ho, by simp [Robot.collisionStep, hlt]⟩
      · exact ⟨_, ho, by simp [Robot.collisionStep, hlt]⟩
  refine ⟨hiff, ?_, ?_⟩
  · intro hall
    rw [detectCollisions_eq_any, List.any_eq_false]
    intro o ho
    have := hall o ho
    cases o <;> simp [Robot.collisionStep, WorldObject.type] at this ⊢
  · rw [detectCollisions_eq_any, detectCollisions_eq_any, List.any_filter]
    congr 1
    funext o
    cases o <;> simp [Robot.collisionStep, WorldObject.type]

end Collision

/-- C12 (counterexample): the document written for the world with two homebases has
the key homeBaseCounter in its `config`, with value 2. -/
theorem C12_document_carries_counter :
    (World.serialize (worldAB : Sim ℝ)).config.bind DocConfig.homeBaseCounter = some 2 := rfl

/-- C18 (witness): adding homebase C to the world with A and B, and adding an obstacle. -/
theorem C18_addObject_witness :
    (baseC : WorldObject ℝ) = .homebase 2 500 100 20 0 ∧
    ((World.addObject (worldAB : Sim ℝ) baseC).world.objects =
        (worldAB : Sim ℝ).world.objects ++
          [.homebase 2 500 100 20 ((worldAB : Sim ℝ).config.homeBaseCounter + 1)] ∧
      (World.addObject (worldAB : Sim ℝ) baseC).config.homeBaseCounter =
        (worldAB : Sim ℝ).config.homeBaseCounter + 1) ∧
    (WorldObject.obstacle 5 10 10 15 : WorldObject ℝ).type ≠ .HOMEBASE ∧
    homebaseNumbers (World.addObject (worldAB : Sim ℝ) (.obstacle 5 10 10 15)).world.objects =
      homebaseNumbers (worldAB : Sim ℝ).world.objects :=
  ⟨rfl, (C18_addObject_numbers_homebase (worldAB : Sim ℝ) baseC).1 2 500 100 20 0 rfl,
    by decide,
    ((C18_addObject_numbers_homebase (worldAB : Sim ℝ) (.obstacle 5 10 10 15)).2
      (by decide)).2.2⟩

/-- C19 (witness): reset of the world in which the START tool placed the agent. -/
theorem C19_reset_witness :
    (worldStartOnce : Sim ℝ).world.robot = some (Robot.new Config.initial 100 100) ∧
    (worldStartOnce : Sim ℝ).world.objects.find? (fun obj => decide (obj.type = .START)) =
      some (.start 0 100 100 10) ∧
    ∃ robot', (World.reset (worldStartOnce : Sim ℝ)).world.robot = some robot' ∧
      robot'.position = ⟨100, 100⟩ ∧ robot'.velocity = Vector2D.zero ∧
      robot'.acceleration = Vector2D.zero ∧ robot'.targetNumber = some 1 ∧
      robot'.angle = (Robot.new (Config.initial : Config ℝ) 100 100).angle ∧
      robot'.sensorPoints = (Robot.new (Config.initial : Config ℝ) 100 100).sensorPoints ∧
      robot'.collisionRadius = (Robot.new (Config.initial : Config ℝ) 100 100).collisionRadius :=
  ⟨rfl, rfl,
    (C19_reset (worldStartOnce : Sim ℝ)).2.2.2.1 (Robot.new Config.initial 100 100) 0 100 100 10
      rfl rfl⟩

/-- C14 (witness): the agent standing on the centre of an obstacle collides. -/
theorem C14_detectCollisions_witness :
    WorldObject.obstacle 1 400 300 15 ∈ (worldBlocked : Sim ℝ).world.objects ∧
    (Robot.new (configNoSensors : Config ℝ) 400 300).detectCollisions
      (worldBlocked : Sim ℝ).config (worldBlocked : Sim ℝ).world.objects = true := by
  have hmem : WorldObject.obstacle 1 400 300 15 ∈ (worldBlocked : Sim ℝ).world.objects := by
    show WorldObject.obstacle 1 400 300 15 ∈
      [WorldObject.start 0 (400 : ℝ) 300 10, WorldObject.obstacle 1 400 300 15]
    simp
  refine ⟨hmem, ?_⟩
  apply (C14_detectCollisions_iff _ _ _).1.mpr
  right
  refine ⟨1, 400, 300, 15, hmem, ?_⟩
  norm_num [Robot.new, Robot.initializeSensorPoints, configNoSensors, Config.initial, sqrt_real]

/-! ## Vector arithmetic over the real numbers (C15, C16, C17) -/

theorem magnitude_nonneg (v : Vector2D ℝ) : 0 ≤ v.magnitude := Real.sqrt_nonneg _

theorem magnitude_eq_zero_iff (v : Vector2D ℝ) : v.magnitude = 0 ↔ v = Vector2D.zero := by
  constructor
  · intro h
    have hsq := magnitude_mul_self v
    rw [h] at hsq
    have hx : v.x = 0 := by nlinarith [mul_self_nonneg v.x, mul_self_nonneg v.y]
    have hy : v.y = 0 := by nlinarith [mul_self_nonneg v.x, mul_self_nonneg v.y]
    cases v
    simp only [Vector2D.zero, Vector2D.mk.injEq]
    exact ⟨hx, hy⟩
  · intro h
    rw [h]
    exact magnitude_zero

theorem magnitude_multiply (v : Vector2D ℝ) (c : ℝ) (hc : 0 ≤ c) :
    (v.multiply c).magnitude = v.magnitude * c := by
  unfold Vector2D.magnitude Vector2D.multiply
  simp only [sqrt_real]
  rw [show v.x * c * (v.x * c) + v.y * c * (v.y * c) = (v.x * v.x + v.y * v.y) * (c * c) by ring,
    Real.sqrt_mul (by nlinarith [mul_self_nonneg v.x, mul_self_nonneg v.y]),
    Real.sqrt_mul_self hc]

/-- C17: over the real numbers, normalize of a vector other than the zero vector has
magnitude 1, and normalize of the zero vector is the zero vector. -/
theorem C17_normalize (v : Vector2D ℝ) :
    (v ≠ Vector2D.zero → v.normalize.magnitude = 1) ∧
    (Vector2D.zero : Vector2D ℝ).normalize = Vector2D.zero := by
  constructor
  · intro hv
    have hne : v.magnitude ≠ 0 := fun h => hv ((magnitude_eq_zero_iff v).mp h)
    have hpos : 0 < v.magnitude := lt_of_le_of_ne (magnitude_nonneg v) (Ne.symm hne)
    unfold Vector2D.normalize
    simp only [hne, if_false]
    rw [magnitude_multiply v _ (by positivity)]
    field_simp
  · unfold Vector2D.normalize
    simp only [magnitude_zero, if_true]

theorem limit_of_gt (v : Vector2D ℝ) (max : ℝ) (h0 : 0 ≤ max) (h : v.magnitude > max) :
    v.limit max = (v.multiply (1 / v.magnitude)).multiply max := by
  have hne : v.magnitude ≠ 0 := ne_of_gt (lt_of_le_of_lt h0 h)
  unfold Vector2D.limit Vector2D.normalize
  simp only [h, if_true, hne, if_false]

/-- C15: over the real numbers, for max >= 0 the magnitude of limit(v, max) is at most
max, and limit(v, max) is v itself when the magnitude of v is at most max. -/
theorem C15_limit_bound (v : Vector2D ℝ) (max : ℝ) (hmax : 0 ≤ max) :
    (v.limit max).magnitude ≤ max ∧ (v.magnitude ≤ max → v.limit max = v) := by
  refine ⟨magnitude_limit_le v max hmax, ?_⟩
  intro hle
  unfold Vector2D.limit
  simp only [not_lt.mpr hle, gt_iff_lt, if_false]

/-- C16: over the real numbers, for max >= 0 and a vector of magnitude greater than
max, limit(v, max) is v scaled by max / magnitude(v): its magnitude is exactly max, the
factor is non-negative, and for max > 0 its unit vector is the unit vector of v. -/
theorem C16_limit_rescales (v : Vector2D ℝ) (max : ℝ) (hmax : 0 ≤ max)
    (h : v.magnitude > max) :
    v.limit max = v.multiply (max / v.magnitude) ∧
    (v.limit max).magnitude = max ∧
    0 ≤ max / v.magnitude ∧
    (0 < max → (v.limit max).normalize = v.normalize) := by
  have hpos : 0 < v.magnitude := lt_of_le_of_lt hmax h
  have hne : v.magnitude ≠ 0 := ne_of_gt hpos
  have hlim : v.limit max = v.multiply (max / v.magnitude) := by
    rw [limit_of_gt v max hmax h]
    unfold Vector2D.multiply
    simp only [Vector2D.mk.injEq]
    constructor <;> field_simp
  have hmag : (v.limit max).magnitude = max := by
    rw [hlim, magnitude_multiply v _ (div_nonneg hmax (le_of_lt hpos))]
    field_simp
  refine ⟨hlim, hmag, div_nonneg hmax (le_of_lt hpos), ?_⟩
  intro hmaxpos
  have hne' : max ≠ 0 := ne_of_gt hmaxpos
  unfold Vector2D.normalize
  simp only [hmag, hne', hne, if_false]
  rw [hlim]
  unfold Vector2D.multiply
  simp only [Vector2D.mk.injEq]
  constructor <;> (field_simp; ring)

/-! ## Distance to a segment (C13) -/

theorem segment_length_eq_zero_iff (l : Line ℝ) :
    (l.end_.subtract l.start).magnitude = 0 ↔ l.start = l.end_ := by
  rw [magnitude_eq_zero_iff]
  obtain ⟨⟨sx, sy⟩, ⟨ex, ey⟩⟩ := l
  simp only [Vector2D.subtract, Vector2D.zero, Vector2D.mk.injEq]
  constructor
  · rintro ⟨h1, h2⟩
    exact ⟨by linarith, by linarith⟩
  · rintro ⟨h1, h2⟩
    exact ⟨by linarith, by linarith⟩

theorem distanceToPoint_of_eq (l : Line ℝ) (p : Vector2D ℝ) (h : l.start = l.end_) :
    l.distanceToPoint p = (p.subtract l.start).magnitude := by
  unfold Line.distanceToPoint
  simp only [(segment_length_eq_zero_iff l).mpr h, if_true]

theorem distanceToPoint_of_ne (l : Line ℝ) (p : Vector2D ℝ) (h : l.start ≠ l.end_) :
    l.distanceToPoint p = (p.subtract (l.pointAt (l.clampedParameter p))).magnitude := by
  have hne : (l.end_.subtract l.start).magnitude ≠ 0 :=
    fun h0 => h ((segment_length_eq_zero_iff l).mp h0)
  unfold Line.distanceToPoint Line.pointAt Line.clampedParameter
  simp only [hne, if_false, pow_two]

theorem pointAt_of_eq (l : Line ℝ) (u : ℝ) (h : l.start = l.end_) : l.pointAt u = l.start := by
  unfold Line.pointAt
  rw [← h]
  simp [Vector2D.subtract, Vector2D.multiply, Vector2D.add]

/-- The clamped parameter minimises the squared distance over `[0, 1]`. -/
theorem clamp_minimises (wx wy dx dy u : ℝ) (hD : 0 < dx * dx + dy * dy)
    (hu0 : 0 ≤ u) (hu1 : u ≤ 1) :
    (wx - dx * max 0 (min 1 ((wx * dx + wy * dy) / (dx * dx + dy * dy)))) *
        (wx - dx * max 0 (min 1 ((wx * dx + wy * dy) / (dx * dx + dy * dy)))) +
      (wy - dy * max 0 (min 1 ((wx * dx + wy * dy) / (dx * dx + dy * dy)))) *
        (wy - dy * max 0 (min 1 ((wx * dx + wy * dy) / (dx * dx + dy * dy)))) ≤
    (wx - dx * u) * (wx - dx * u) + (wy - dy * u) * (wy - dy * u) := by
  set D := dx * dx + dy * dy with hDdef
  set c := (wx * dx + wy * dy) / D with hc
  have hq : wx * dx + wy * dy = c * D := by
    rw [hc]; field_simp
  have key : ∀ t : ℝ, 0 ≤ (D * t - c * D) * (u - t) →
      (wx - dx * t) * (wx - dx * t) + (wy - dy * t) * (wy - dy * t) ≤
      (wx - dx * u) * (wx - dx * u) + (wy - dy * u) * (wy - dy * u) := by
    intro t ht
    have e : (wx - dx * u) * (wx - dx * u) + (wy - dy * u) * (wy - dy * u) -
        ((wx - dx * t) * (wx - dx * t) + (wy - dy * t) * (wy - dy * t)) =
        D * (u - t) * (u - t) + 2 * ((D * t - (wx * dx + wy * dy)) * (u - t)) := by
      rw [hDdef]; ring
    rw [hq] at e
    nlinarith [mul_nonneg (le_of_lt hD) (mul_self_nonneg (u - t))]
  apply key
  rcases le_total c 0 with h0 | h0
  · have ht : max 0 (min 1 c) = 0 := max_eq_left (le_trans (min_le_right _ _) h0)
    rw [ht]
    have : 0 ≤ -(c * D) := by nlinarith
    nlinarith
  · rcases le_total 1 c with h1 | h1
    · have ht : max 0 (min 1 c) = 1 := by
        rw [min_eq_left h1]; exact max_eq_right zero_le_one
      rw [ht]
      have h2 : D * 1 - c * D ≤ 0 := by nlinarith
      nlinarith
    · have ht : max 0 (min 1 c) = c := by
        rw [min_eq_right h1]; exact max_eq_right h0
      rw [ht]
      have : D * c - c * D = 0 := by ring
      rw [this, zero_mul]

/-- C13: over the real numbers, distanceToPoint of a segment from s to e is the
distance from p to s when s = e, and otherwise the distance from p to s + t (e - s)
with t = clamp(((p - s) . (e - s)) / |e - s|^2, 0, 1); it is at most the distance from p
to any point s + u (e - s), 0 <= u <= 1, of the segment, and it is attained at one of
them: it is the minimum distance from p to the closed segment. -/
theorem C13_distanceToPoint_is_segment_distance (l : Line ℝ) (p : Vector2D ℝ) :
    (l.start = l.end_ → l.distanceToPoint p = (p.subtract l.start).magnitude) ∧
    (l.start ≠ l.end_ →
      l.distanceToPoint p = (p.subtract (l.pointAt (l.clampedParameter p))).magnitude) ∧
    (∀ u : ℝ, 0 ≤ u → u ≤ 1 →
      l.distanceToPoint p ≤ (p.subtract (l.pointAt u)).magnitude) ∧
    (∃ u : ℝ, 0 ≤ u ∧ u ≤ 1 ∧ l.distanceToPoint p = (p.subtract (l.pointAt u)).magnitude) := by
  refine ⟨distanceToPoint_of_eq l p, distanceToPoint_of_ne l p, ?_, ?_⟩
  · intro u hu0 hu1
    by_cases h : l.start = l.end_
    · rw [distanceToPoint_of_eq l p h, pointAt_of_eq l u h]
    · rw [distanceToPoint_of_ne l p h]
      have hne : (l.end_.subtract l.start).magnitude ≠ 0 :=
        fun h0 => h ((segment_length_eq_zero_iff l).mp h0)
      have hD : 0 < (l.end_.x - l.start.x) * (l.end_.x - l.start.x) +
          (l.end_.y - l.start.y) * (l.end_.y - l.start.y) := by
        have := magnitude_mul_self (l.end_.subtract l.start)
        have hp : 0 < (l.end_.subtract l.start).magnitude :=
          lt_of_le_of_ne (magnitude_nonneg _) (Ne.symm hne)
        have := mul_pos hp hp
        simp only [Vector2D.subtract] at *
        linarith
      have hsq : (l.end_.subtract l.start).magnitude ^ 2 =
          (l.end_.x - l.start.x) * (l.end_.x - l.start.x) +
          (l.end_.y - l.start.y) * (l.end_.y - l.start.y) := by
        rw [pow_two, magnitude_mul_self]
        rfl
      unfold Line.clampedParameter Line.pointAt
      rw [hsq]
      unfold Vector2D.magnitude
      simp only [sqrt_real, Vector2D.subtract, Vector2D.add, Vector2D.multiply, Vector2D.dot]
      apply Real.sqrt_le_sqrt
      have := clamp_minimises (p.x - l.start.x) (p.y - l.start.y) (l.end_.x - l.start.x)
        (l.end_.y - l.start.y) u hD hu0 hu1
      have e1 : ∀ t : ℝ, p.x - (l.start.x + (l.end_.x - l.start.x) * t) =
          p.x - l.start.x - (l.end_.x - l.start.x) * t := fun t => by ring
      have e2 : ∀ t : ℝ, p.y - (l.start.y + (l.end_.y - l.start.y) * t) =
          p.y - l.start.y - (l.end_.y - l.start.y) * t := fun t => by ring
      simp only [e1, e2]
      exact this
  · by_cases h : l.start = l.end_
    · exact ⟨0, le_refl 0, zero_le_one, by
        rw [distanceToPoint_of_eq l p h, pointAt_of_eq l 0 h]⟩
    · refine ⟨l.clampedParameter p, ?_, ?_, distanceToPoint_of_ne l p h⟩
      · exact le_max_left _ _
      · exact max_le zero_le_one (min_le_left _ _)

/-- C15 (witness): the vector (3, 4) and the bound 10. -/
theorem C15_limit_bound_witness :
    (0 : ℝ) ≤ 10 ∧ ((⟨3, 4⟩ : Vector2D ℝ).limit 10).magnitude ≤ 10 :=
  ⟨by norm_num, (C15_limit_bound ⟨3, 4⟩ 10 (by norm_num)).1⟩

/-- C16 (witness): the vector (3, 4), of magnitude 5, limited to 1. -/
theorem C16_limit_rescales_witness :
    (0 : ℝ) ≤ 1 ∧ (⟨3, 4⟩ : Vector2D ℝ).magnitude > 1 ∧
    ((⟨3, 4⟩ : Vector2D ℝ).limit 1).magnitude = 1 := by
  have hgt : (⟨3, 4⟩ : Vector2D ℝ).magnitude > 1 := by
    show (1 : ℝ) < Real.sqrt (3 * 3 + 4 * 4)
    rw [Real.lt_sqrt (by norm_num)]
    norm_num
  exact ⟨by norm_num, hgt, (C16_limit_rescales ⟨3, 4⟩ 1 (by norm_num) hgt).2.1⟩

/-- C17 (witness): the vector (3, 4). -/
theorem C17_normalize_witness :
    (⟨3, 4⟩ : Vector2D ℝ) ≠ Vector2D.zero ∧ (⟨3, 4⟩ : Vector2D ℝ).normalize.magnitude = 1 := by
  have hne : (⟨3, 4⟩ : Vector2D ℝ) ≠ Vector2D.zero := by
    intro h
    have := congrArg Vector2D.x h
    norm_num [Vector2D.zero] at this
  exact ⟨hne, (C17_normalize ⟨3, 4⟩).1 hne⟩

/-- C13 (witness): the segment from (200, 0) to (200, 100) and the point (350, 50),
compared with the midpoint of the segment. -/
theorem C13_distanceToPoint_witness :
    (wallLine : Line ℝ).start ≠ (wallLine : Line ℝ).end_ ∧
    (wallLine : Line ℝ).distanceToPoint ⟨350, 50⟩ =
      ((⟨350, 50⟩ : Vector2D ℝ).subtract
        ((wallLine : Line ℝ).pointAt ((wallLine : Line ℝ).clampedParameter ⟨350, 50⟩))).magnitude ∧
    (wallLine : Line ℝ).distanceToPoint ⟨350, 50⟩ ≤
      ((⟨350, 50⟩ : Vector2D ℝ).subtract ((wallLine : Line ℝ).pointAt (1 / 2))).magnitude := by
  have hne : (wallLine : Line ℝ).start ≠ (wallLine : Line ℝ).end_ := by
    intro h
    have := congrArg Vector2D.y h
    norm_num [wallLine] at this
  exact ⟨hne, (C13_distanceToPoint_is_segment_distance wallLine ⟨350, 50⟩).2.1 hne,
    (C13_distanceToPoint_is_segment_distance wallLine ⟨350, 50⟩).2.2.1 (1 / 2) (by norm_num)
      (by norm_num)⟩

/-! ## Sensor positions at the time of the force calculation (C20) -/

section Sensors
variable {R : Type} [LinearOrderedField R] [JSMath R]

theorem detect_position (cfg : Config R) (sensor : SensorPoint R) (obj : WorldObject R) :
    (sensor.detect cfg obj).position = sensor.position := by
  unfold SensorPoint.detect
  cases obj <;> simp only <;> split_ifs <;> rfl

theorem senseObjects_position (cfg : Config R) (objects : List (WorldObject R))
    (sensor : SensorPoint R) :
    (Robot.senseObjects cfg objects sensor).position = sensor.position := by
  unfold Robot.senseObjects
  induction objects generalizing sensor with
  | nil => rfl
  | cons o objects ih =>
    rw [List.foldl_cons, ih]
    split_ifs
    · exact detect_position cfg sensor o
    · rfl

theorem senseObjects_of_markers (cfg : Config R) (objects : List (WorldObject R))
    (sensor : SensorPoint R) (h : ∀ o ∈ objects, o.type = .HOMEBASE ∨ o.type = .START) :
    Robot.senseObjects cfg objects sensor = sensor := by
  unfold Robot.senseObjects
  induction objects generalizing sensor with
  | nil => rfl
  | cons o objects ih =>
    rw [List.foldl_cons, if_neg, ih sensor (fun o' ho' => h o' (List.mem_cons_of_mem _ ho'))]
    intro hn
    rcases h o (List.mem_cons_self _ _) with h1 | h1
    · exact hn.1 h1
    · exact hn.2 h1

theorem calculateForces_sensorPoints (cfg : Config R) (canvas : Canvas R)
    (objects : List (WorldObject R)) (u1 u2 : R) (r : Robot R) :
    (r.calculateForces cfg canvas objects u1 u2).sensorPoints =
      r.sensorPoints.map (Robot.senseObjects cfg objects) := by
  unfold Robot.calculateForces
  simp only [applyRepulsion_eq]
  split <;> simp [Robot.applyForce, applyAttraction_sensorPoints]

/-- Sensors with empty detection lists add no repulsion. -/
theorem repulsion_of_no_detections (cfg : Config R) (r : Robot R)
    (sensors : List (SensorPoint R)) (a : Vector2D R)
    (h : ∀ sensor ∈ sensors, sensor.detectedObjects = []) :
    sensors.foldl (fun a sensor =>
      sensor.detectedObjects.foldl (fun a d => a.add (Robot.repulsionForce cfg r d)) a) a = a := by
  induction sensors generalizing a with
  | nil => rfl
  | cons sensor sensors ih =>
    rw [List.foldl_cons, h sensor (List.mem_cons_self _ _), List.foldl_nil,
      ih a (fun s' hs' => h s' (List.mem_cons_of_mem _ hs'))]

theorem update_sensorPoints (cfg : Config R) (canvas : Canvas R) (r : Robot R) :
    (r.update cfg canvas).sensorPoints =
      r.sensorPoints.mapIdx fun i _ =>
        { position :=
            ⟨(r.update cfg canvas).position.x + JSMath.cos (Robot.sensorAngle cfg i) * cfg.sensorRange,
             (r.update cfg canvas).position.y + JSMath.sin (Robot.sensorAngle cfg i) * cfg.sensorRange⟩,
          detectedObjects := [] } := by
  unfold Robot.update Robot.updateSensorPoints
  simp only
  split <;> rfl

end Sensors

section SensorsB
variable {R : Type} [LinearOrderedField R] [JSMath R]

theorem detectCollisions_of_markers (cfg : Config R) (r : Robot R)
    (objects : List (WorldObject R)) (h : ∀ o ∈ objects, o.type = .HOMEBASE ∨ o.type = .START) :
    r.detectCollisions cfg objects = false := by
  rw [detectCollisions_eq_any, List.any_eq_false]
  intro o ho
  have := h o ho
  cases o <;> simp [Robot.collisionStep, WorldObject.type] at this ⊢

theorem update_position (cfg : Config R) (canvas : Canvas R) (r : Robot R) :
    (r.update cfg canvas).position =
      ⟨max r.collisionRadius (min (canvas.width - r.collisionRadius)
          (r.position.x + ((r.velocity.add r.acceleration).limit cfg.robotSpeed).x)),
       max r.collisionRadius (min (canvas.height - r.collisionRadius)
          (r.position.y + ((r.velocity.add r.acceleration).limit cfg.robotSpeed).y))⟩ := by
  unfold Robot.update Robot.updateSensorPoints
  simp only
  split <;> rfl

theorem new_sensors_empty (cfg : Config R) (x y : R) :
    ∀ sensor ∈ (Robot.new cfg x y).sensorPoints, sensor.detectedObjects = [] := by
  intro sensor hs
  simp only [Robot.new, Robot.initializeSensorPoints, List.mem_map] at hs
  obtain ⟨i, _, rfl⟩ := hs
  rfl

end SensorsB

theorem goal_objects :
    (worldGoal : Sim ℝ).world.objects =
      [.start 0 100 100 10, .homebase 1 300 100 20 1] := rfl

theorem goal_robot :
    (worldGoal : Sim ℝ).world.robot = some (Robot.new Config.initial 100 100) := rfl

theorem goal_markers :
    ∀ o ∈ (worldGoal : Sim ℝ).world.objects, o.type = .HOMEBASE ∨ o.type = .START := by
  rw [goal_objects]
  intro o ho
  simp only [List.mem_cons, List.mem_singleton, List.not_mem_nil, or_false] at ho
  rcases ho with rfl | rfl
  · right; rfl
  · left; rfl

theorem goal_acceleration :
    ((Robot.new (Config.initial : Config ℝ) 100 100).calculateForces (worldGoal : Sim ℝ).config
      (worldGoal : Sim ℝ).canvas (worldGoal : Sim ℝ).world.objects (1 / 2) (1 / 2)).acceleration =
      ⟨120, 0⟩ := by
  have hs : (Robot.new (Config.initial : Config ℝ) 100 100).sensorPoints.map
      (Robot.senseObjects (worldGoal : Sim ℝ).config (worldGoal : Sim ℝ).world.objects) =
      (Robot.new (Config.initial : Config ℝ) 100 100).sensorPoints := by
    conv_rhs => rw [← List.map_id (Robot.new (Config.initial : Config ℝ) 100 100).sensorPoints]
    apply List.map_congr_left
    intro sensor _
    exact senseObjects_of_markers _ _ sensor goal_markers
  have h200 : Real.sqrt 40000 = 200 := by
    rw [show (40000 : ℝ) = 200 * 200 by norm_num]
    exact Real.sqrt_mul_self (by norm_num)
  have hfind : Robot.findTarget (worldGoal : Sim ℝ).world.objects (some 1) =
      some (.homebase 1 300 100 20 1) := rfl
  unfold Robot.calculateForces
  simp only [applyRepulsion_eq, hs]
  rw [repulsion_of_no_detections _ _ _ _ (new_sensors_empty _ _ _)]
  unfold Robot.applyAttraction
  have ht : (Robot.new (Config.initial : Config ℝ) 100 100).targetNumber = some 1 := rfl
  simp only [ht, hfind]
  have hp : (Robot.new (Config.initial : Config ℝ) 100 100).position = ⟨100, 100⟩ := rfl
  have hc : (Robot.new (Config.initial : Config ℝ) 100 100).collisionRadius = 20 / 2 := rfl
  have hcfg : (worldGoal : Sim ℝ).config.enableBoundary = true := rfl
  have hatt : (worldGoal : Sim ℝ).config.attractiveForce = 120 := rfl
  have hnoise : (worldGoal : Sim ℝ).config.noiseGain = 2 := rfl
  have hbf : (worldGoal : Sim ℝ).config.boundaryForce = 100 := rfl
  have hw : (worldGoal : Sim ℝ).canvas.width = 800 := rfl
  have hh : (worldGoal : Sim ℝ).canvas.height = 600 := rfl
  simp only [hp, hc, hcfg, hatt, hnoise, if_true]
  norm_num [Vector2D.subtract, Vector2D.magnitude, sqrt_real, h200, Robot.applyForce,
    Vector2D.add, Vector2D.zero, Vector2D.normalize, Vector2D.multiply, Robot.boundaryForce,
    hp, hw, hh, hbf]

theorem reset_robot_of_start {R : Type} [LinearOrderedField R] [JSMath R]
    (s : Sim R) (robot : Robot R) (ref : Nat) (x y radius : R)
    (hrobot : s.world.robot = some robot)
    (hfind : s.world.objects.find? (fun obj => decide (obj.type = .START)) =
      some (.start ref x y radius)) :
    (World.reset s).world.robot =
      some { robot with
        position := ⟨x, y⟩, velocity := Vector2D.zero, acceleration := Vector2D.zero,
        targetNumber := some 1 } := by
  unfold World.reset
  simp only [hrobot, hfind]

theorem goal_limit : (Vector2D.limit (⟨120, 0⟩ : Vector2D ℝ) (3 / 2)) = ⟨3 / 2, 0⟩ := by
  have h120 : Real.sqrt 14400 = 120 := by
    rw [show (14400 : ℝ) = 120 * 120 by norm_num]
    exact Real.sqrt_mul_self (by norm_num)
  have hm : (⟨120, 0⟩ : Vector2D ℝ).magnitude = 120 := by
    norm_num [Vector2D.magnitude, sqrt_real, h120]
  unfold Vector2D.limit Vector2D.normalize
  simp only [hm]
  norm_num [Vector2D.multiply]

theorem goal_update_position :
    (((Robot.new (Config.initial : Config ℝ) 100 100).calculateForces (worldGoal : Sim ℝ).config
      (worldGoal : Sim ℝ).canvas (worldGoal : Sim ℝ).world.objects (1 / 2) (1 / 2)).update
      (worldGoal : Sim ℝ).config (worldGoal : Sim ℝ).canvas).position = ⟨203 / 2, 100⟩ := by
  rw [update_position, goal_acceleration, calculateForces_velocity, calculateForces_position,
    calculateForces_collisionRadius]
  have hv : (Robot.new (Config.initial : Config ℝ) 100 100).velocity = ⟨0, 0⟩ := rfl
  have hp : (Robot.new (Config.initial : Config ℝ) 100 100).position = ⟨100, 100⟩ := rfl
  have hc : (Robot.new (Config.initial : Config ℝ) 100 100).collisionRadius = 20 / 2 := rfl
  have hs : (worldGoal : Sim ℝ).config.robotSpeed = 3 / 2 := rfl
  have hw : (worldGoal : Sim ℝ).canvas.width = 800 := rfl
  have hh : (worldGoal : Sim ℝ).canvas.height = 600 := rfl
  have ha : Vector2D.add (⟨0, 0⟩ : Vector2D ℝ) ⟨120, 0⟩ = ⟨120, 0⟩ := by
    norm_num [Vector2D.add]
  rw [hv, hp, hc, hs, hw, hh, ha, goal_limit]
  norm_num

/-- C20 (evaluation at the failing input): START tool at (100, 100), HOMEBASE tool at
(300, 100), Play, one frame with both random draws 1/2, then Reset.  The agent is back
at (100, 100), but its first sensor is still at (283/2, 100), where the frame left it,
not at the centre plus sensorRange (cos 0, sin 0) = (140, 100); and the sensor list
that the next calculateForces tests has its first sensor at that same stale point. -/
theorem C20_sensors_stale_after_reset :
    ∃ (robot : Robot ℝ) (sensor : SensorPoint ℝ),
      (worldGoalReset : Sim ℝ).world.robot = some robot ∧
      robot.sensorPoints.head? = some sensor ∧
      robot.position = ⟨100, 100⟩ ∧
      sensor.position = ⟨283 / 2, 100⟩ ∧
      sensor.position ≠
        ⟨robot.position.x + JSMath.cos (Robot.sensorAngle (worldGoalReset : Sim ℝ).config 0) *
            (worldGoalReset : Sim ℝ).config.sensorRange,
          robot.position.y + JSMath.sin (Robot.sensorAngle (worldGoalReset : Sim ℝ).config 0) *
            (worldGoalReset : Sim ℝ).config.sensorRange⟩ ∧
      ∀ u1 u2 : ℝ,
        (robot.calculateForces (worldGoalReset : Sim ℝ).config (worldGoalReset : Sim ℝ).canvas
          (worldGoalReset : Sim ℝ).world.objects u1 u2).sensorPoints.head?.map
            SensorPoint.position = some ⟨283 / 2, 100⟩ := by
  have hupd := update_running (worldGoal : Sim ℝ) (Robot.new Config.initial 100 100)
    (1 / 2) (1 / 2) rfl goal_robot
  rw [if_neg (by rw [detectCollisions_of_markers _ _ _ goal_markers]; simp)] at hupd
  have hfind : (World.update (worldGoal : Sim ℝ) (1 / 2) (1 / 2)).world.objects.find?
      (fun obj => decide (obj.type = .START)) = some (.start 0 100 100 10) := by
    rw [update_objects, goal_objects]
    rfl
  have hreset := reset_robot_of_start _ _ 0 100 100 10 hupd hfind
  have hangle : Robot.sensorAngle (worldGoal : Sim ℝ).config 0 = 0 := by
    simp [Robot.sensorAngle]
  have hrange : (worldGoal : Sim ℝ).config.sensorRange = 40 := rfl
  have hhead : (((Robot.new (Config.initial : Config ℝ) 100 100).calculateForces
      (worldGoal : Sim ℝ).config (worldGoal : Sim ℝ).canvas (worldGoal : Sim ℝ).world.objects
      (1 / 2) (1 / 2)).update (worldGoal : Sim ℝ).config
      (worldGoal : Sim ℝ).canvas).sensorPoints.head? =
      some { position := ⟨283 / 2, 100⟩, detectedObjects := [] } := by
    rw [update_sensorPoints, goal_update_position, List.head?_mapIdx,
      calculateForces_sensorPoints, List.head?_map]
    have h0 : (Robot.new (Config.initial : Config ℝ) 100 100).sensorPoints.head? =
        some { position := ⟨100 + JSMath.cos (Robot.sensorAngle (Config.initial : Config ℝ) 0) * 40,
                            100 + JSMath.sin (Robot.sensorAngle (Config.initial : Config ℝ) 0) * 40⟩,
               detectedObjects := [] } := rfl
    rw [h0]
    simp only [Option.map_some', hangle, hrange]
    norm_num [realMath]
  refine ⟨_, _, hreset, hhead, rfl, rfl, ?_, ?_⟩
  · have hcfg : (worldGoalReset : Sim ℝ).config = (worldGoal : Sim ℝ).config := by
      show (World.reset (World.update (worldGoal : Sim ℝ) (1 / 2) (1 / 2))).config = _
      rw [reset_config, update_config]
    rw [hcfg, hangle, hrange]
    intro h
    have := congrArg Vector2D.x h
    norm_num [realMath] at this
  · intro u1 u2
    rw [calculateForces_sensorPoints, List.head?_map]
    show Option.map SensorPoint.position (Option.map _ (((Robot.new (Config.initial : Config ℝ) 100 100).calculateForces
      (worldGoal : Sim ℝ).config (worldGoal : Sim ℝ).canvas (worldGoal : Sim ℝ).world.objects
      (1 / 2) (1 / 2)).update (worldGoal : Sim ℝ).config
      (worldGoal : Sim ℝ).canvas).sensorPoints.head?) = _
    rw [hhead]
    simp only [Option.map_some', senseObjects_position]

/-- C11 (witness): a document with three homebase records numbered 2, none, 2: the load
gives the counter 3 and the numbers 1, 2, 3, and the two records numbered 2 keep their
document order. -/
theorem C11_load_witness :
    homebaseOrder (Record.homebase 10 10 20 (some 2) : Record ℝ)
      (Record.homebase 30 30 20 (some 2)) ∧
    List.Sublist [(Record.homebase 10 10 20 (some 2) : Record ℝ), Record.homebase 30 30 20 (some 2)]
      ((recordsMixed : List (Record ℝ)).filter fun obj => decide (obj.type = .HOMEBASE)) ∧
    List.Sublist [(Record.homebase 10 10 20 (some 2) : Record ℝ), Record.homebase 30 30 20 (some 2)]
      (((recordsMixed : List (Record ℝ)).filter fun obj =>
        decide (obj.type = .HOMEBASE)).insertionSort homebaseOrder) ∧
    (World.deserialize (worldAB : Sim ℝ)
      (some ⟨.array recordsMixed, none⟩)).2.config.homeBaseCounter = 3 ∧
    homebaseNumbers (World.deserialize (worldAB : Sim ℝ)
      (some ⟨.array recordsMixed, none⟩)).2.world.objects = [1, 2, 3] := by
  have hord : homebaseOrder (Record.homebase 10 10 20 (some 2) : Record ℝ)
      (Record.homebase 30 30 20 (some 2)) := le_refl (2 : ℝ)
  have hsub : List.Sublist
      [(Record.homebase 10 10 20 (some 2) : Record ℝ), Record.homebase 30 30 20 (some 2)]
      ((recordsMixed : List (Record ℝ)).filter fun obj => decide (obj.type = .HOMEBASE)) :=
    List.Sublist.cons₂ _ (List.Sublist.cons _ (List.Sublist.cons₂ _ List.Sublist.slnil))
  have h := C11_load_numbers_homebases (worldAB : Sim ℝ) recordsMixed none
  exact ⟨hord, hsub, h.2.2.2.2.2.2 _ _ hord hsub, h.2.1, h.2.2.1⟩

/-! ## Detection and repulsion (C21, C22) -/

section ForcesA
variable {R : Type} [LinearOrderedField R] [JSMath R]

theorem add_zero_vector (v : Vector2D R) : v.add Vector2D.zero = v := by
  cases v
  simp [Vector2D.add, Vector2D.zero]

theorem repulsionForce_eq_term (cfg : Config R) (r : Robot R) (d : Detection R) :
    Robot.repulsionForce cfg r d = repulsionTerm cfg r.position d := by
  unfold Robot.repulsionForce repulsionTerm referencePoint
  obtain ⟨o, dist⟩ := d
  cases o with
  | wall ref s e =>
    simp only
    have hx : s.x + (e.x - s.x) / 2 = (s.x + e.x) / 2 := by ring
    have hy : s.y + (e.y - s.y) / 2 = (s.y + e.y) / 2 := by ring
    rw [hx, hy]
  | homebase ref x y radius n => rfl
  | obstacle ref x y radius => rfl
  | start ref x y radius => rfl

theorem repulsion_fold_eq_sum (cfg : Config R) (r : Robot R) (sensors : List (SensorPoint R)) :
    sensors.foldl (fun a sensor =>
      sensor.detectedObjects.foldl (fun a d => a.add (Robot.repulsionForce cfg r d)) a)
      Vector2D.zero =
    Vector2D.sum ((allDetections sensors).map (repulsionTerm cfg r.position)) := by
  unfold Vector2D.sum allDetections
  rw [List.foldl_map, List.flatMap, List.foldl_flatten, List.foldl_map]
  simp only [repulsionForce_eq_term]

theorem applyAttraction_eq (cfg : Config R) (objects : List (WorldObject R)) (r : Robot R) :
    (Robot.applyAttraction cfg objects r).acceleration =
      r.acceleration.add (attractionVector cfg objects r) := by
  unfold Robot.applyAttraction attractionVector
  generalize Robot.findTarget objects r.targetNumber = t
  cases t with
  | none => exact (add_zero_vector r.acceleration).symm
  | some o =>
    cases o with
    | homebase ref x y radius n =>
      dsimp only
      split_ifs
      · exact (add_zero_vector r.acceleration).symm
      · rfl
    | wall ref s e => exact (add_zero_vector r.acceleration).symm
    | obstacle ref x y radius => exact (add_zero_vector r.acceleration).symm
    | start ref x y radius => exact (add_zero_vector r.acceleration).symm

theorem calculateForces_acceleration (cfg : Config R) (canvas : Canvas R)
    (objects : List (WorldObject R)) (u1 u2 : R) (r : Robot R) :
    (r.calculateForces cfg canvas objects u1 u2).acceleration =
      (((Vector2D.sum ((allDetections (r.sensorPoints.map (Robot.senseObjects cfg objects))).map
          (repulsionTerm cfg r.position))).add
        (attractionVector cfg objects r)).add (noiseVector cfg u1 u2)).add
        (boundaryVector cfg canvas r) := by
  have hatt : ∀ (a : Vector2D R) (sp : List (SensorPoint R)),
      attractionVector cfg objects { r with acceleration := a, sensorPoints := sp } =
        attractionVector cfg objects r := fun _ _ => rfl
  have hbound : ∀ r' : Robot R, r'.position = r.position →
      Robot.boundaryForce cfg canvas r' = Robot.boundaryForce cfg canvas r := by
    intro r' h1
    unfold Robot.boundaryForce
    rw [h1]
  unfold Robot.calculateForces boundaryVector noiseVector
  simp only [applyRepulsion_eq]
  rw [repulsion_fold_eq_sum]
  split_ifs
  · simp only [Robot.applyForce, applyAttraction_eq]
    refine congrArg₂ Vector2D.add ?_ (hbound _ (applyAttraction_position _ _ _))
    rw [hatt]
  · simp only [Robot.applyForce, applyAttraction_eq]
    rw [hatt, add_zero_vector]

theorem detect_eq (cfg : Config R) (sensor : SensorPoint R) (o : WorldObject R) :
    sensor.detect cfg o =
      if measuredDistance sensor.position o < cfg.sensorRange then
        { position := sensor.position,
          detectedObjects :=
            sensor.detectedObjects ++ [⟨o, measuredDistance sensor.position o⟩] }
      else sensor := by
  cases o <;> rfl

theorem senseObjects_eq (cfg : Config R) (objects : List (WorldObject R))
    (sensor : SensorPoint R) :
    Robot.senseObjects cfg objects sensor =
      { position := sensor.position,
        detectedObjects := sensor.detectedObjects ++
          (objects.filter fun o =>
            decide (o.type ≠ .HOMEBASE ∧ o.type ≠ .START) &&
              decide (measuredDistance sensor.position o < cfg.sensorRange)).map
            fun o => ⟨o, measuredDistance sensor.position o⟩ } := by
  unfold Robot.senseObjects
  induction objects generalizing sensor with
  | nil => simp
  | cons o objects ih =>
    rw [List.foldl_cons, ih, List.filter_cons]
    by_cases h1 : o.type ≠ .HOMEBASE ∧ o.type ≠ .START
    · rw [if_pos h1, detect_eq]
      by_cases h2 : measuredDistance sensor.position o < cfg.sensorRange
      · simp [h1, h2]
      · simp [h1, h2]
    · rw [if_neg h1]
      simp [h1]

theorem type_wall_or_obstacle (o : WorldObject R) :
    (o.type ≠ .HOMEBASE ∧ o.type ≠ .START) ↔ (o.type = .WALL ∨ o.type = .OBSTACLE) := by
  cases o <;> simp [WorldObject.type]

/-- C21: a sensor whose detection list is empty holds, after the detection pass of
calculateForces, an entry (object, distance) exactly for the registry objects that are
a wall or an obstacle and whose measured distance from the sensor position (segment
distance for a wall, centre distance for an obstacle) is strictly below sensorRange; the
stored distance is the measured one, an object at distance exactly sensorRange gives no
entry, and neither does a homebase or a start. -/
theorem C21_detection_pass (cfg : Config R) (canvas : Canvas R)
    (objects : List (WorldObject R)) (u1 u2 : R) (r : Robot R) (i : Nat)
    (sensor : SensorPoint R) (hsensor : r.sensorPoints[i]? = some sensor)
    (hempty : sensor.detectedObjects = []) :
    ∃ sensed : SensorPoint R,
      (r.calculateForces cfg canvas objects u1 u2).sensorPoints[i]? = some sensed ∧
      sensed.position = sensor.position ∧
      (∀ (o : WorldObject R) (dist : R),
        (⟨o, dist⟩ : Detection R) ∈ sensed.detectedObjects ↔
          o ∈ objects ∧ (o.type = .WALL ∨ o.type = .OBSTACLE) ∧
            measuredDistance sensor.position o < cfg.sensorRange ∧
            dist = measuredDistance sensor.position o) ∧
      (∀ (o : WorldObject R) (dist : R),
        measuredDistance sensor.position o = cfg.sensorRange →
          (⟨o, dist⟩ : Detection R) ∉ sensed.detectedObjects) ∧
      (∀ (o : WorldObject R) (dist : R), o.type = .HOMEBASE ∨ o.type = .START →
          (⟨o, dist⟩ : Detection R) ∉ sensed.detectedObjects) := by
  have hmem : ∀ (o : WorldObject R) (dist : R),
      (⟨o, dist⟩ : Detection R) ∈ (Robot.senseObjects cfg objects sensor).detectedObjects ↔
        o ∈ objects ∧ (o.type = .WALL ∨ o.type = .OBSTACLE) ∧
          measuredDistance sensor.position o < cfg.sensorRange ∧
          dist = measuredDistance sensor.position o := by
    intro o dist
    rw [senseObjects_eq, hempty, List.nil_append, List.mem_map]
    constructor
    · rintro ⟨o', ho', heq⟩
      rw [List.mem_filter, Bool.and_eq_true, decide_eq_true_eq, decide_eq_true_eq,
        type_wall_or_obstacle] at ho'
      injection heq with h1 h2
      subst h1
      exact ⟨ho'.1, ho'.2.1, ho'.2.2, h2.symm⟩
    · rintro ⟨h1, h2, h3, h4⟩
      refine ⟨o, ?_, by rw [h4]⟩
      rw [List.mem_filter, Bool.and_eq_true, decide_eq_true_eq, decide_eq_true_eq,
        type_wall_or_obstacle]
      exact ⟨h1, h2, h3⟩
  refine ⟨Robot.senseObjects cfg objects sensor, ?_, senseObjects_position _ _ _, hmem, ?_, ?_⟩
  · rw [calculateForces_sensorPoints, List.getElem?_map, hsensor]
    rfl
  · intro o dist hd hin
    exact absurd ((hmem o dist).1 hin).2.2.1 (by rw [hd]; exact lt_irrefl _)
  · intro o dist ht hin
    have := ((hmem o dist).1 hin).2.1
    cases o <;> simp [WorldObject.type] at ht this

theorem measuredDistance_nonneg (p : Vector2D ℝ) (o : WorldObject ℝ) :
    0 ≤ measuredDistance p o := by
  cases o with
  | wall ref s e =>
    unfold measuredDistance WorldObject.distanceToPoint Line.distanceToPoint
    dsimp only
    split_ifs <;> exact magnitude_nonneg _
  | homebase ref x y radius n => exact Real.sqrt_nonneg _
  | obstacle ref x y radius => exact Real.sqrt_nonneg _
  | start ref x y radius => exact Real.sqrt_nonneg _

theorem normalize_zero_vector : (Vector2D.zero : Vector2D ℝ).normalize = Vector2D.zero := by
  unfold Vector2D.normalize
  simp only [magnitude_zero, if_true]

theorem magnitude_normalize_of_ne (v : Vector2D ℝ) (hv : v ≠ Vector2D.zero) :
    v.normalize.magnitude = 1 := by
  have hne : v.magnitude ≠ 0 := fun h => hv ((magnitude_eq_zero_iff v).mp h)
  unfold Vector2D.normalize
  simp only [hne, if_false]
  rw [magnitude_multiply v _ (by have := magnitude_nonneg v; positivity)]
  field_simp

theorem magnitude_normalize_le (v : Vector2D ℝ) : v.normalize.magnitude ≤ 1 := by
  by_cases hv : v = Vector2D.zero
  · rw [hv, normalize_zero_vector, magnitude_zero]
    exact zero_le_one
  · exact le_of_eq (magnitude_normalize_of_ne v hv)

theorem magnitude_multiply_abs (v : Vector2D ℝ) (c : ℝ) :
    (v.multiply c).magnitude = v.magnitude * |c| := by
  unfold Vector2D.magnitude Vector2D.multiply
  simp only [sqrt_real]
  rw [show v.x * c * (v.x * c) + v.y * c * (v.y * c) = (v.x * v.x + v.y * v.y) * (c * c) by ring,
    Real.sqrt_mul (by nlinarith [mul_self_nonneg v.x, mul_self_nonneg v.y]),
    Real.sqrt_mul_self_eq_abs]

theorem mem_allDetections_sensed (cfg : Config R) (objects : List (WorldObject R))
    (sensors : List (SensorPoint R)) (hempty : ∀ sensor ∈ sensors, sensor.detectedObjects = [])
    (d : Detection R)
    (hd : d ∈ allDetections (sensors.map (Robot.senseObjects cfg objects))) :
    ∃ sensor ∈ sensors, d.object ∈ objects ∧
      d.distance = measuredDistance sensor.position d.object ∧
      d.distance < cfg.sensorRange := by
  unfold allDetections at hd
  rw [List.mem_flatMap] at hd
  obtain ⟨sensed, hs, hin⟩ := hd
  rw [List.mem_map] at hs
  obtain ⟨sensor, hsensor, rfl⟩ := hs
  rw [senseObjects_eq, hempty sensor hsensor, List.nil_append, List.mem_map] at hin
  obtain ⟨o, ho, rfl⟩ := hin
  rw [List.mem_filter, Bool.and_eq_true, decide_eq_true_eq, decide_eq_true_eq] at ho
  exact ⟨sensor, hsensor, ho.1, rfl, ho.2.2⟩

/-- C22: over the real numbers, the acceleration left by the repulsion pass of
calculateForces is the sum, over the detections of all sensors in order (one term per
detecting sensor), of normalize(position - ref) * ((1 - distance / sensorRange) *
repulsiveForce), with ref the midpoint of a wall and the centre of an obstacle; the
final acceleration is that sum plus attraction, noise and boundary force; and when the
detection lists are empty before the pass, sensorRange > 0 and repulsiveForce >= 0, the
magnitude of every term lies between 0 and repulsiveForce. -/
theorem C22_repulsion_sum (cfg : Config ℝ) (canvas : Canvas ℝ)
    (objects : List (WorldObject ℝ)) (u1 u2 : ℝ) (r : Robot ℝ) :
    (Robot.applyRepulsion cfg
        (Robot.mk r.position r.velocity Vector2D.zero r.angle
          (r.sensorPoints.map (Robot.senseObjects cfg objects)) r.targetNumber
          r.collisionRadius)).acceleration =
      Vector2D.sum ((allDetections (r.calculateForces cfg canvas objects u1 u2).sensorPoints).map
        fun d => ((r.position.subtract (referencePoint d.object)).normalize).multiply
          ((1 - d.distance / cfg.sensorRange) * cfg.repulsiveForce)) ∧
    (r.calculateForces cfg canvas objects u1 u2).acceleration =
      (((Vector2D.sum
          ((allDetections (r.calculateForces cfg canvas objects u1 u2).sensorPoints).map
            fun d => ((r.position.subtract (referencePoint d.object)).normalize).multiply
              ((1 - d.distance / cfg.sensorRange) * cfg.repulsiveForce))).add
        (attractionVector cfg objects r)).add (noiseVector cfg u1 u2)).add
        (boundaryVector cfg canvas r) ∧
    (∀ (ref : Nat) (s e : Vector2D ℝ),
      referencePoint (.wall ref s e) = ⟨(s.x + e.x) / 2, (s.y + e.y) / 2⟩) ∧
    (∀ (ref : Nat) (x y radius : ℝ), referencePoint (.obstacle ref x y radius) = ⟨x, y⟩) ∧
    ((∀ sensor ∈ r.sensorPoints, sensor.detectedObjects = []) →
      0 < cfg.sensorRange → 0 ≤ cfg.repulsiveForce →
      ∀ d ∈ allDetections (r.calculateForces cfg canvas objects u1 u2).sensorPoints,
        0 ≤ (((r.position.subtract (referencePoint d.object)).normalize).multiply
          ((1 - d.distance / cfg.sensorRange) * cfg.repulsiveForce)).magnitude ∧
        (((r.position.subtract (referencePoint d.object)).normalize).multiply
          ((1 - d.distance / cfg.sensorRange) * cfg.repulsiveForce)).magnitude ≤
          cfg.repulsiveForce) := by
  refine ⟨?_, ?_, fun _ _ _ => rfl, fun _ _ _ _ => rfl, ?_⟩
  · rw [applyRepulsion_eq, calculateForces_sensorPoints]
    exact repulsion_fold_eq_sum cfg r _
  · rw [calculateForces_sensorPoints]
    exact calculateForces_acceleration cfg canvas objects u1 u2 r
  · intro hempty hrange hrf d hd
    rw [calculateForces_sensorPoints] at hd
    obtain ⟨sensor, _, _, hdist, hlt⟩ := mem_allDetections_sensed cfg objects _ hempty d hd
    have h0 : 0 ≤ d.distance := by
      rw [hdist]
      exact measuredDistance_nonneg _ _
    have hq0 : 0 ≤ d.distance / cfg.sensorRange := div_nonneg h0 (le_of_lt hrange)
    have hq1 : d.distance / cfg.sensorRange < 1 := (div_lt_one hrange).2 hlt
    have hc0 : 0 ≤ (1 - d.distance / cfg.sensorRange) * cfg.repulsiveForce :=
      mul_nonneg (by linarith) hrf
    have hc1 : (1 - d.distance / cfg.sensorRange) * cfg.repulsiveForce ≤ cfg.repulsiveForce := by
      nlinarith
    refine ⟨magnitude_nonneg _, ?_⟩
    rw [magnitude_multiply _ _ hc0]
    have hn := magnitude_normalize_le (r.position.subtract (referencePoint d.object))
    have hn0 := magnitude_nonneg (r.position.subtract (referencePoint d.object)).normalize
    nlinarith

end ForcesA


/-! ## Attraction, boundary force, noise, integration and the counter (C23 - C28) -/

section ForcesB
variable {R : Type} [LinearOrderedField R] [JSMath R]

theorem findTarget_none_iff (objects : List (WorldObject R)) (t : Option Int) :
    Robot.findTarget objects t = none ↔
      ∀ o ∈ objects, ¬ (o.type = .HOMEBASE ∧ o.number? = t) := by
  unfold Robot.findTarget
  rw [List.find?_eq_none]
  simp only [Bool.and_eq_true, decide_eq_true_eq]

theorem calculateForces_targetNumber_of_none (cfg : Config R) (canvas : Canvas R)
    (objects : List (WorldObject R)) (u1 u2 : R) (r : Robot R)
    (hfind : Robot.findTarget objects r.targetNumber = none) :
    (r.calculateForces cfg canvas objects u1 u2).targetNumber = r.targetNumber := by
  unfold Robot.calculateForces
  simp only [applyRepulsion_eq]
  rw [applyAttraction_none cfg objects _ (by exact hfind)]
  split_ifs <;> rfl

theorem calculateForces_targetNumber_of_far (cfg : Config R) (canvas : Canvas R)
    (objects : List (WorldObject R)) (u1 u2 : R) (r : Robot R)
    (ref : Nat) (x y radius : R) (n : Int)
    (hfind : Robot.findTarget objects r.targetNumber = some (.homebase ref x y radius n))
    (hfar : radius + r.collisionRadius ≤ (r.position.subtract ⟨x, y⟩).magnitude) :
    (r.calculateForces cfg canvas objects u1 u2).targetNumber = r.targetNumber := by
  unfold Robot.calculateForces
  simp only [applyRepulsion_eq]
  unfold Robot.applyAttraction
  simp only [hfind, not_lt.mpr hfar, if_false]
  split_ifs <;> rfl

theorem attractionVector_of_none (cfg : Config R) (objects : List (WorldObject R)) (r : Robot R)
    (hfind : Robot.findTarget objects r.targetNumber = none) :
    attractionVector cfg objects r = Vector2D.zero := by
  unfold attractionVector
  rw [hfind]

theorem attractionVector_of_far (cfg : Config R) (objects : List (WorldObject R)) (r : Robot R)
    (ref : Nat) (x y radius : R) (n : Int)
    (hfind : Robot.findTarget objects r.targetNumber = some (.homebase ref x y radius n))
    (hfar : radius + r.collisionRadius ≤ (r.position.subtract ⟨x, y⟩).magnitude) :
    attractionVector cfg objects r =
      ((Vector2D.subtract ⟨x, y⟩ r.position).normalize).multiply cfg.attractiveForce := by
  unfold attractionVector
  simp only [hfind, not_lt.mpr hfar, if_false]

theorem subtract_eq_zero_iff (v w : Vector2D R) : v.subtract w = Vector2D.zero ↔ v = w := by
  cases v; cases w
  simp only [Vector2D.subtract, Vector2D.zero, Vector2D.mk.injEq, sub_eq_zero]

/-- C23 (amended): over the real numbers, the acceleration of calculateForces is
repulsion plus attraction plus noise plus boundary force, where the attraction is zero
and targetNumber is unchanged when no homebase of the registry has the number
targetNumber; when the first such homebase exists and the distance of the agent to its
centre is at least radius + collisionRadius, the attraction is exactly
normalize(target - position) * attractiveForce and targetNumber is unchanged; the
magnitude of that vector is |attractiveForce| when the agent is not on the centre of the
target (in particular whenever radius + collisionRadius > 0), and it is the zero vector
when the agent is on the centre. -/
theorem C23_attraction (cfg : Config ℝ) (canvas : Canvas ℝ)
    (objects : List (WorldObject ℝ)) (u1 u2 : ℝ) (r : Robot ℝ) :
    (r.calculateForces cfg canvas objects u1 u2).acceleration =
      (((Vector2D.sum
          ((allDetections (r.calculateForces cfg canvas objects u1 u2).sensorPoints).map
            (repulsionTerm cfg r.position))).add
        (attractionVector cfg objects r)).add (noiseVector cfg u1 u2)).add
        (boundaryVector cfg canvas r) ∧
    ((∀ o ∈ objects, ¬ (o.type = .HOMEBASE ∧ o.number? = r.targetNumber)) →
      attractionVector cfg objects r = Vector2D.zero ∧
      (r.calculateForces cfg canvas objects u1 u2).targetNumber = r.targetNumber) ∧
    (∀ (ref : Nat) (x y radius : ℝ) (n : Int),
      Robot.findTarget objects r.targetNumber = some (.homebase ref x y radius n) →
      radius + r.collisionRadius ≤ (r.position.subtract ⟨x, y⟩).magnitude →
      attractionVector cfg objects r =
        ((Vector2D.subtract ⟨x, y⟩ r.position).normalize).multiply cfg.attractiveForce ∧
      (r.calculateForces cfg canvas objects u1 u2).targetNumber = r.targetNumber ∧
      (r.position ≠ ⟨x, y⟩ → (attractionVector cfg objects r).magnitude = |cfg.attractiveForce|) ∧
      (0 < radius + r.collisionRadius →
        (attractionVector cfg objects r).magnitude = |cfg.attractiveForce|) ∧
      (r.position = ⟨x, y⟩ → attractionVector cfg objects r = Vector2D.zero)) := by
  refine ⟨?_, ?_, ?_⟩
  · rw [calculateForces_sensorPoints]
    exact calculateForces_acceleration cfg canvas objects u1 u2 r
  · intro hnone
    have hfind := (findTarget_none_iff objects r.targetNumber).2 hnone
    exact ⟨attractionVector_of_none cfg objects r hfind,
      calculateForces_targetNumber_of_none cfg canvas objects u1 u2 r hfind⟩
  · intro ref x y radius n hfind hfar
    have hvec := attractionVector_of_far cfg objects r ref x y radius n hfind hfar
    have hmag : r.position ≠ ⟨x, y⟩ →
        (attractionVector cfg objects r).magnitude = |cfg.attractiveForce| := by
      intro hne
      rw [hvec, magnitude_multiply_abs, magnitude_normalize_of_ne, one_mul]
      intro h0
      exact hne ((subtract_eq_zero_iff _ _).1 h0).symm
    refine ⟨hvec, calculateForces_targetNumber_of_far cfg canvas objects u1 u2 r ref x y radius n
      hfind hfar, hmag, ?_, ?_⟩
    · intro hpos
      apply hmag
      intro heq
      have h0 : (r.position.subtract ⟨x, y⟩).magnitude = 0 := by
        rw [(subtract_eq_zero_iff _ _).2 heq, magnitude_zero]
      linarith
    · intro heq
      rw [hvec, (subtract_eq_zero_iff _ _).2 heq.symm, normalize_zero_vector]
      simp [Vector2D.multiply, Vector2D.zero]
theorem point_acceleration :
    ((robotPoint : Robot ℝ).calculateForces configPoint canvas800 objectsPoint
      (1 / 2) (1 / 2)).acceleration = Vector2D.zero := by
  rw [calculateForces_acceleration]
  have hs : (robotPoint : Robot ℝ).sensorPoints = [] := rfl
  have hfind : Robot.findTarget (objectsPoint : List (WorldObject ℝ))
      (robotPoint : Robot ℝ).targetNumber = some (.homebase 0 100 100 0 1) := rfl
  have hp : (robotPoint : Robot ℝ).position = ⟨100, 100⟩ := rfl
  have hc : (robotPoint : Robot ℝ).collisionRadius = 0 / 2 := rfl
  have hb : (configPoint : Config ℝ).enableBoundary = true := rfl
  have hn : (configPoint : Config ℝ).noiseGain = 2 := rfl
  have ha : (configPoint : Config ℝ).attractiveForce = 120 := rfl
  have hbf : (configPoint : Config ℝ).boundaryForce = 100 := rfl
  have hw : (canvas800 : Canvas ℝ).width = 800 := rfl
  have hh : (canvas800 : Canvas ℝ).height = 600 := rfl
  unfold attractionVector boundaryVector noiseVector
  simp only [hs, hfind, hp, hc, hb, hn, ha, if_true]
  norm_num [allDetections, Vector2D.sum, Vector2D.subtract, Vector2D.magnitude, sqrt_real,
    Vector2D.add, Vector2D.zero, Vector2D.normalize, Vector2D.multiply, Robot.boundaryForce,
    hp, hw, hh, hbf]

/-- C23 (counterexample): a point agent (collision radius 0) on the centre of its target
homebase of radius 0: the distance 0 is at least radius + collisionRadius = 0, yet the
vector normalize(target - position) * attractiveForce has magnitude 0, not
|attractiveForce| = 120, and the whole acceleration of the tick is the zero vector. -/
theorem C23_zero_attraction_on_centre :
    Robot.findTarget (objectsPoint : List (WorldObject ℝ)) (robotPoint : Robot ℝ).targetNumber =
      some (.homebase 0 100 100 0 1) ∧
    (0 : ℝ) + (robotPoint : Robot ℝ).collisionRadius ≤
      ((robotPoint : Robot ℝ).position.subtract ⟨100, 100⟩).magnitude ∧
    ((robotPoint : Robot ℝ).calculateForces configPoint canvas800 objectsPoint
      (1 / 2) (1 / 2)).acceleration = Vector2D.zero ∧
    (((Vector2D.subtract ⟨100, 100⟩ (robotPoint : Robot ℝ).position).normalize).multiply
      (configPoint : Config ℝ).attractiveForce).magnitude = 0 ∧
    |(configPoint : Config ℝ).attractiveForce| = 120 := by
  have hp : (robotPoint : Robot ℝ).position = ⟨100, 100⟩ := rfl
  have hc : (robotPoint : Robot ℝ).collisionRadius = 0 / 2 := rfl
  have ha : (configPoint : Config ℝ).attractiveForce = 120 := rfl
  refine ⟨rfl, ?_, point_acceleration, ?_, ?_⟩
  · rw [hp, hc]
    norm_num [Vector2D.subtract, Vector2D.magnitude, sqrt_real]
  · rw [hp, ha]
    norm_num [Vector2D.subtract, Vector2D.magnitude, sqrt_real, Vector2D.normalize,
      Vector2D.zero, Vector2D.multiply]
  · rw [ha]
    norm_num

/-- C24 (amended): the acceleration of calculateForces is repulsion plus attraction plus
noise plus a boundary part, which is the vector boundaryForce when boundary avoidance is
enabled and nothing when it is disabled.  On each axis the component of boundaryForce is
(50 - p) * (boundaryForce / 50) when p < 50; it is (size - 50 - p) * (boundaryForce / 50)
when p > size - 50 and p is not below 50 (for size >= 100 the second condition is
implied); it is 0 otherwise.  For boundaryForce >= 0 the component is >= 0 in the first
case and <= 0 in the second. -/
theorem C24_boundary_force (cfg : Config R) (canvas : Canvas R)
    (objects : List (WorldObject R)) (u1 u2 : R) (r : Robot R) :
    (r.calculateForces cfg canvas objects u1 u2).acceleration =
      (((Vector2D.sum
          ((allDetections (r.calculateForces cfg canvas objects u1 u2).sensorPoints).map
            (repulsionTerm cfg r.position))).add
        (attractionVector cfg objects r)).add (noiseVector cfg u1 u2)).add
        (boundaryVector cfg canvas r) ∧
    (cfg.enableBoundary = true → boundaryVector cfg canvas r = Robot.boundaryForce cfg canvas r) ∧
    (cfg.enableBoundary = false →
      boundaryVector cfg canvas r = Vector2D.zero ∧
      (r.calculateForces cfg canvas objects u1 u2).acceleration =
        ((Vector2D.sum
          ((allDetections (r.calculateForces cfg canvas objects u1 u2).sensorPoints).map
            (repulsionTerm cfg r.position))).add
        (attractionVector cfg objects r)).add (noiseVector cfg u1 u2)) ∧
    (r.position.x < 50 →
      (Robot.boundaryForce cfg canvas r).x = (50 - r.position.x) * (cfg.boundaryForce / 50)) ∧
    (¬ r.position.x < 50 → r.position.x > canvas.width - 50 →
      (Robot.boundaryForce cfg canvas r).x =
        (canvas.width - 50 - r.position.x) * (cfg.boundaryForce / 50)) ∧
    (¬ r.position.x < 50 → ¬ r.position.x > canvas.width - 50 →
      (Robot.boundaryForce cfg canvas r).x = 0) ∧
    (r.position.y < 50 →
      (Robot.boundaryForce cfg canvas r).y = (50 - r.position.y) * (cfg.boundaryForce / 50)) ∧
    (¬ r.position.y < 50 → r.position.y > canvas.height - 50 →
      (Robot.boundaryForce cfg canvas r).y =
        (canvas.height - 50 - r.position.y) * (cfg.boundaryForce / 50)) ∧
    (¬ r.position.y < 50 → ¬ r.position.y > canvas.height - 50 →
      (Robot.boundaryForce cfg canvas r).y = 0) ∧
    (100 ≤ canvas.width → r.position.x > canvas.width - 50 →
      (Robot.boundaryForce cfg canvas r).x =
        (canvas.width - 50 - r.position.x) * (cfg.boundaryForce / 50)) ∧
    (100 ≤ canvas.height → r.position.y > canvas.height - 50 →
      (Robot.boundaryForce cfg canvas r).y =
        (canvas.height - 50 - r.position.y) * (cfg.boundaryForce / 50)) ∧
    (0 ≤ cfg.boundaryForce →
      (r.position.x < 50 → 0 ≤ (Robot.boundaryForce cfg canvas r).x) ∧
      (¬ r.position.x < 50 → r.position.x > canvas.width - 50 →
        (Robot.boundaryForce cfg canvas r).x ≤ 0) ∧
      (r.position.y < 50 → 0 ≤ (Robot.boundaryForce cfg canvas r).y) ∧
      (¬ r.position.y < 50 → r.position.y > canvas.height - 50 →
        (Robot.boundaryForce cfg canvas r).y ≤ 0)) := by
  have hx1 : r.position.x < 50 →
      (Robot.boundaryForce cfg canvas r).x = (50 - r.position.x) * (cfg.boundaryForce / 50) := by
    intro h
    simp only [Robot.boundaryForce, h, if_true]
  have hx2 : ¬ r.position.x < 50 → r.position.x > canvas.width - 50 →
      (Robot.boundaryForce cfg canvas r).x =
        (canvas.width - 50 - r.position.x) * (cfg.boundaryForce / 50) := by
    intro h h'
    simp only [Robot.boundaryForce, h, h', if_true, if_false]
  have hy1 : r.position.y < 50 →
      (Robot.boundaryForce cfg canvas r).y = (50 - r.position.y) * (cfg.boundaryForce / 50) := by
    intro h
    simp only [Robot.boundaryForce, h, if_true]
  have hy2 : ¬ r.position.y < 50 → r.position.y > canvas.height - 50 →
      (Robot.boundaryForce cfg canvas r).y =
        (canvas.height - 50 - r.position.y) * (cfg.boundaryForce / 50) := by
    intro h h'
    simp only [Robot.boundaryForce, h, h', if_true, if_false]
  have hacc := calculateForces_acceleration cfg canvas objects u1 u2 r
  rw [← calculateForces_sensorPoints cfg canvas objects u1 u2 r] at hacc
  refine ⟨hacc, ?_, ?_, hx1, hx2, ?_, hy1, hy2, ?_, ?_, ?_, ?_⟩
  · intro h
    simp only [boundaryVector, h, if_true]
  · intro h
    have hb : boundaryVector cfg canvas r = Vector2D.zero := by
      simp only [boundaryVector, h, Bool.false_eq_true, if_false]
    refine ⟨hb, ?_⟩
    rw [hacc, hb, add_zero_vector]
  · intro h h'
    simp only [Robot.boundaryForce, h, h', if_false]
  · intro h h'
    simp only [Robot.boundaryForce, h, h', if_false]
  · intro hw h
    exact hx2 (by linarith) h
  · intro hw h
    exact hy2 (by linarith) h
  · intro hbf
    have hq : 0 ≤ cfg.boundaryForce / 50 := div_nonneg hbf (by norm_num)
    refine ⟨?_, ?_, ?_, ?_⟩
    · intro h
      rw [hx1 h]
      exact mul_nonneg (by linarith) hq
    · intro h h'
      rw [hx2 h h']
      exact mul_nonpos_of_nonpos_of_nonneg (by linarith) hq
    · intro h
      rw [hy1 h]
      exact mul_nonneg (by linarith) hq
    · intro h h'
      rw [hy2 h h']
      exact mul_nonpos_of_nonpos_of_nonneg (by linarith) hq

/-- C24 (counterexample): on a canvas 60 wide the agent at x = 30 is above
size - 50 = 10, yet the x component of the boundary force is (50 - 30) * (100 / 50) = 40,
not (60 - 50 - 30) * (100 / 50) = -40: the test of the low edge comes first. -/
theorem C24_low_edge_takes_precedence :
    (configNoSensors : Config ℝ).enableBoundary = true ∧
    (robotNarrow : Robot ℝ).position.x > (canvasNarrow : Canvas ℝ).width - 50 ∧
    (Robot.boundaryForce configNoSensors canvasNarrow (robotNarrow : Robot ℝ)).x = 40 ∧
    ((canvasNarrow : Canvas ℝ).width - 50 - (robotNarrow : Robot ℝ).position.x) *
      ((configNoSensors : Config ℝ).boundaryForce / 50) = -40 ∧
    ((robotNarrow : Robot ℝ).calculateForces configNoSensors canvasNarrow []
      (1 / 2) (1 / 2)).acceleration = ⟨40, 0⟩ := by
  have hp : (robotNarrow : Robot ℝ).position = ⟨30, 300⟩ := rfl
  have hw : (canvasNarrow : Canvas ℝ).width = 60 := rfl
  have hh : (canvasNarrow : Canvas ℝ).height = 600 := rfl
  have hbf : (configNoSensors : Config ℝ).boundaryForce = 100 := rfl
  have hb : (configNoSensors : Config ℝ).enableBoundary = true := rfl
  have hn : (configNoSensors : Config ℝ).noiseGain = 2 := rfl
  have hs : (robotNarrow : Robot ℝ).sensorPoints = [] := rfl
  have hforce : Robot.boundaryForce configNoSensors canvasNarrow (robotNarrow : Robot ℝ) =
      ⟨40, 0⟩ := by
    unfold Robot.boundaryForce
    simp only [hp, hw, hh, hbf]
    norm_num
  refine ⟨rfl, ?_, ?_, ?_, ?_⟩
  · rw [hp, hw]; norm_num
  · rw [hforce]
  · rw [hp, hw, hbf]; norm_num
  · rw [calculateForces_acceleration]
    have hfind : Robot.findTarget ([] : List (WorldObject ℝ))
        (robotNarrow : Robot ℝ).targetNumber = none := rfl
    rw [attractionVector_of_none _ _ _ hfind]
    unfold boundaryVector noiseVector
    simp only [hs, hb, hn, if_true, hforce]
    norm_num [allDetections, Vector2D.sum, Vector2D.add, Vector2D.zero]

theorem calculateForces_of_no_noise (cfg : Config R) (canvas : Canvas R)
    (objects : List (WorldObject R)) (u1 u2 v1 v2 : R) (r : Robot R)
    (h : cfg.noiseGain = 0) :
    r.calculateForces cfg canvas objects u1 u2 = r.calculateForces cfg canvas objects v1 v2 := by
  unfold Robot.calculateForces
  simp only [h, mul_zero]

/-- C28: with noiseGain = 0 a tick does not depend on the random draws: World.update
gives the same page state (so the same position, velocity, angle and targetNumber of
the agent) for any two pairs of draws; in general the noise added to the acceleration
is ((u1 * 2 - 1) * noiseGain, (u2 * 2 - 1) * noiseGain), and for noiseGain >= 0 and a
draw in [0, 1) each component lies between -noiseGain and noiseGain. -/
theorem C28_noise (s : Sim R) (u1 u2 v1 v2 : R) :
    (s.config.noiseGain = 0 → World.update s u1 u2 = World.update s v1 v2) ∧
    (∀ (robot : Robot R),
      (robot.calculateForces s.config s.canvas s.world.objects u1 u2).acceleration =
        (((Vector2D.sum ((allDetections
            (robot.calculateForces s.config s.canvas s.world.objects u1 u2).sensorPoints).map
              (repulsionTerm s.config robot.position))).add
          (attractionVector s.config s.world.objects robot)).add
            ⟨(u1 * 2 - 1) * s.config.noiseGain, (u2 * 2 - 1) * s.config.noiseGain⟩).add
          (boundaryVector s.config s.canvas robot)) ∧
    (0 ≤ s.config.noiseGain → 0 ≤ u1 → u1 < 1 →
      -s.config.noiseGain ≤ (u1 * 2 - 1) * s.config.noiseGain ∧
      (u1 * 2 - 1) * s.config.noiseGain ≤ s.config.noiseGain) ∧
    (0 ≤ s.config.noiseGain → 0 ≤ u2 → u2 < 1 →
      -s.config.noiseGain ≤ (u2 * 2 - 1) * s.config.noiseGain ∧
      (u2 * 2 - 1) * s.config.noiseGain ≤ s.config.noiseGain) := by
  refine ⟨?_, ?_, ?_, ?_⟩
  · intro h
    unfold World.update
    cases s.world.robot with
    | none => rfl
    | some robot =>
      simp only [calculateForces_of_no_noise s.config s.canvas s.world.objects u1 u2 v1 v2 robot h]
  · intro robot
    rw [calculateForces_sensorPoints]
    exact calculateForces_acceleration _ _ _ _ _ _
  · intro hg h0 h1
    constructor <;> nlinarith
  · intro hg h0 h1
    constructor <;> nlinarith

theorem update_acceleration (cfg : Config R) (canvas : Canvas R) (r : Robot R) :
    (r.update cfg canvas).acceleration = Vector2D.zero := by
  unfold Robot.update Robot.updateSensorPoints
  simp only

/-- C25: when the canvas is at least 2 * collisionRadius wide and high, after
Robot.update the position lies in [collisionRadius, width - collisionRadius] x
[collisionRadius, height - collisionRadius], the velocity is
limit(velocity + acceleration, robotSpeed), the acceleration is the zero vector and
collisionRadius is unchanged. -/
theorem C25_update (cfg : Config R) (canvas : Canvas R) (r : Robot R)
    (hw : 2 * r.collisionRadius ≤ canvas.width) (hh : 2 * r.collisionRadius ≤ canvas.height) :
    r.collisionRadius ≤ (r.update cfg canvas).position.x ∧
    (r.update cfg canvas).position.x ≤ canvas.width - r.collisionRadius ∧
    r.collisionRadius ≤ (r.update cfg canvas).position.y ∧
    (r.update cfg canvas).position.y ≤ canvas.height - r.collisionRadius ∧
    (r.update cfg canvas).velocity = (r.velocity.add r.acceleration).limit cfg.robotSpeed ∧
    (r.update cfg canvas).acceleration = Vector2D.zero ∧
    (r.update cfg canvas).collisionRadius = r.collisionRadius := by
  rw [update_position]
  refine ⟨le_max_left _ _, max_le (by linarith) (min_le_left _ _), le_max_left _ _,
    max_le (by linarith) (min_le_left _ _), update_velocity cfg canvas r,
    update_acceleration cfg canvas r, update_collisionRadius cfg canvas r⟩

theorem update_detections (cfg : Config R) (canvas : Canvas R) (r : Robot R) :
    ∀ sensor ∈ (r.update cfg canvas).sensorPoints, sensor.detectedObjects = [] := by
  intro sensor hs
  rw [update_sensorPoints, List.mem_mapIdx] at hs
  obtain ⟨i, _, rfl⟩ := hs
  rfl

/-- C26: after a tick of World.update in the RUNNING state with an agent, with or
without rollback, the agent has as many sensors as before and the detection list of
every one of them is empty. -/
theorem C26_no_detections_between_ticks (s : Sim R) (robot : Robot R) (u1 u2 : R)
    (hstate : s.world.state = .RUNNING) (hrobot : s.world.robot = some robot) :
    ∃ moved : Robot R, (World.update s u1 u2).world.robot = some moved ∧
      moved.sensorPoints.length = robot.sensorPoints.length ∧
      (∀ sensor ∈ moved.sensorPoints, sensor.detectedObjects = []) ∧
      allDetections moved.sensorPoints = [] := by
  have hall : ∀ sensors : List (SensorPoint R),
      (∀ sensor ∈ sensors, sensor.detectedObjects = []) → allDetections sensors = [] := by
    intro sensors h
    unfold allDetections
    rw [List.flatMap_eq_nil_iff]
    exact h
  have hlen : ((robot.calculateForces s.config s.canvas s.world.objects u1 u2).update
      s.config s.canvas).sensorPoints.length = robot.sensorPoints.length := by
    rw [update_sensorPoints, List.length_mapIdx, calculateForces_sensorPoints, List.length_map]
  rw [update_running s robot u1 u2 hstate hrobot]
  split_ifs
  · exact ⟨_, rfl, hlen, update_detections _ _ _, hall _ (update_detections _ _ _)⟩
  · exact ⟨_, rfl, hlen, update_detections _ _ _, hall _ (update_detections _ _ _)⟩

theorem countP_eraseIdx_of_not (p : WorldObject R → Bool) (l : List (WorldObject R)) (i : Nat)
    (h : i < l.length) (hp : p (l.get ⟨i, h⟩) = false) :
    (l.eraseIdx i).countP p = l.countP p := by
  induction l generalizing i with
  | nil => simp at h
  | cons a l ih =>
    cases i with
    | zero =>
      have ha : p a = false := by simpa using hp
      simp [List.countP_cons, ha]
    | succ i =>
      have h' : i < l.length := by simpa using h
      have := ih i h' (by simpa using hp)
      simp only [List.eraseIdx_cons_succ, List.countP_cons]
      omega

theorem renumber_type (c : Int) (l : List (WorldObject R)) :
    (World.renumber c l).map WorldObject.type = l.map WorldObject.type := by
  induction l generalizing c with
  | nil => rfl
  | cons o l ih =>
    unfold World.renumber
    split_ifs <;> simp [ih, setNumber_type]

theorem homebaseCount_eq_count (l : List (WorldObject R)) :
    homebaseCount l = (l.map WorldObject.type).count .HOMEBASE := by
  unfold homebaseCount
  rw [List.count, List.countP_map]
  congr 1

theorem homebaseCount_eraseIdx (l : List (WorldObject R)) (i : Nat) (h : i < l.length) :
    (homebaseCount (l.eraseIdx i) : Int) =
      if (l.get ⟨i, h⟩).type = .HOMEBASE then (homebaseCount l : Int) - 1
      else (homebaseCount l : Int) := by
  unfold homebaseCount
  split_ifs with ht
  · have := countP_eraseIdx (fun o : WorldObject R => decide (o.type = .HOMEBASE)) l i h
      (by simpa using ht)
    omega
  · have := countP_eraseIdx_of_not (fun o : WorldObject R => decide (o.type = .HOMEBASE)) l i h
      (by simpa using ht)
    omega

theorem removeObject_counter_of_some (s : Sim R) (object : WorldObject R) (index : Nat)
    (h : s.world.objects.findIdx? (fun o => o.ref == object.ref) = some index) :
    (World.removeObject s object).config.homeBaseCounter =
      if object.type = .HOMEBASE then s.config.homeBaseCounter - 1
      else s.config.homeBaseCounter := by
  unfold World.removeObject
  rw [h]
  split_ifs <;> rfl

theorem registryStep_counter (s s' : Sim R) (hstep : RegistryStep s s')
    (h : s.config.homeBaseCounter = (homebaseCount s.world.objects : Int)) :
    s'.config.homeBaseCounter = (homebaseCount s'.world.objects : Int) := by
  cases hstep with
  | add object =>
    rw [addObject_counter, addObject_objects]
    unfold homebaseCount at h ⊢
    split_ifs with ht
    · rw [List.countP_append, h]
      simp [List.countP_cons, setNumber_type, ht]
    · rw [List.countP_append, h]
      simp [List.countP_cons, ht]
  | remove object hsame =>
    cases hidx : s.world.objects.findIdx? (fun o => o.ref == object.ref) with
    | none => rw [removeObject_of_none s object hidx]; exact h
    | some index =>
      obtain ⟨hlt, hp, _⟩ := List.findIdx?_eq_some_iff_getElem.mp hidx
      have href : (s.world.objects.get ⟨index, hlt⟩).ref = object.ref := by simpa using hp
      have htype : (s.world.objects.get ⟨index, hlt⟩).type = object.type :=
        hsame _ (List.get_mem _ _ _) href
      rw [removeObject_counter_of_some s object index hidx,
        removeObject_objects_of_some s object index hidx]
      by_cases ht : object.type = .HOMEBASE
      · rw [if_pos ht, if_pos ht]
        have hlen : (World.renumber 1 s.world.objects).length = s.world.objects.length := by
          have := congrArg List.length (renumber_type 1 s.world.objects)
          simpa using this
        have hlt' : index < (World.renumber 1 s.world.objects).length := by rw [hlen]; exact hlt
        have ht' : ((World.renumber 1 s.world.objects).get ⟨index, hlt'⟩).type = .HOMEBASE := by
          have h1 : ((World.renumber 1 s.world.objects).map WorldObject.type)[index]? =
              (s.world.objects.map WorldObject.type)[index]? := by
            rw [renumber_type]
          rw [List.getElem?_map, List.getElem?_map, List.getElem?_eq_getElem hlt',
            List.getElem?_eq_getElem hlt] at h1
          simp only [Option.map_some', Option.some.injEq] at h1
          rw [List.get_eq_getElem, h1, ← ht, ← htype, List.get_eq_getElem]
        rw [homebaseCount_eraseIdx _ index hlt', if_pos ht', homebaseCount_eq_count,
          renumber_type, ← homebaseCount_eq_count, h]
      · rw [if_neg ht, if_neg ht, homebaseCount_eraseIdx _ index hlt,
          if_neg (by rw [htype]; exact ht), h]
  | clear => rfl

theorem reachable_counter (s : Sim R) (h : RegistryReachable s) :
    s.config.homeBaseCounter = (homebaseCount s.world.objects : Int) := by
  induction h with
  | empty s hobjects hcounter => rw [hcounter, hobjects]; rfl
  | step s s' _ hstep ih => exact registryStep_counter s s' hstep ih

/-- C27: in every state reached from an empty registry with counter 0 by calls of
addObject, removeObject (of an object of the registry or of any other object) and clear,
homeBaseCounter is the number of Homebase entries of the registry; so whenever the
search of calculateForces finds a target homebase the counter is at least 1 and the
remainder n % homeBaseCounter is a number (never the NaN of a division by zero). -/
theorem C27_counter_counts_homebases (s : Sim R) (h : RegistryReachable s) :
    s.config.homeBaseCounter = (homebaseCount s.world.objects : Int) ∧
    (∀ (t : Option Int) (target : WorldObject R),
      Robot.findTarget s.world.objects t = some target →
        1 ≤ s.config.homeBaseCounter ∧
        ∀ n : Int, jsMod n s.config.homeBaseCounter =
          some (Int.tmod n s.config.homeBaseCounter)) := by
  have hcount := reachable_counter s h
  refine ⟨hcount, ?_⟩
  intro t target hfind
  have hmem : target ∈ s.world.objects := List.mem_of_find?_eq_some hfind
  have htype : target.type = .HOMEBASE := by
    have := List.find?_some hfind
    simp only [Bool.and_eq_true, decide_eq_true_eq] at this
    exact this.1
  have hpos : 0 < homebaseCount s.world.objects := by
    unfold homebaseCount
    rw [List.countP_pos_iff]
    exact ⟨target, hmem, by simpa using htype⟩
  have h1 : 1 ≤ s.config.homeBaseCounter := by
    rw [hcount]
    exact_mod_cast hpos
  refine ⟨h1, ?_⟩
  intro n
  unfold jsMod
  rw [if_neg (by omega)]

end ForcesB

/-! ## Concrete instances (C21 - C28) -/

theorem oneSensor_new :
    (Robot.new (configOneSensor : Config ℝ) 100 100) = robotOneSensor := by
  have h0 : Robot.sensorAngle (configOneSensor : Config ℝ) 0 = 0 := by
    simp [Robot.sensorAngle]
  have hr : (configOneSensor : Config ℝ).sensorRange = 40 := rfl
  have hs : (configOneSensor : Config ℝ).robotSize = 20 := rfl
  have hn : (configOneSensor : Config ℝ).numSensorPoints = 1 := rfl
  unfold Robot.new Robot.initializeSensorPoints robotOneSensor
  simp only [hn, hr, hs, List.range_succ, List.range_zero, List.nil_append, List.map_cons,
    List.map_nil, h0]
  have hc : (JSMath.cos (0 : ℝ) : ℝ) = 1 := Real.cos_zero
  have hsn : (JSMath.sin (0 : ℝ) : ℝ) = 0 := Real.sin_zero
  rw [hc, hsn]
  norm_num

theorem sqrt_100 : Real.sqrt 100 = 10 := by
  rw [show (100 : ℝ) = 10 * 10 by norm_num]
  exact Real.sqrt_mul_self (by norm_num)

theorem sqrt_1600 : Real.sqrt 1600 = 40 := by
  rw [show (1600 : ℝ) = 40 * 40 by norm_num]
  exact Real.sqrt_mul_self (by norm_num)

theorem near_distance :
    measuredDistance (⟨140, 100⟩ : Vector2D ℝ) (.obstacle 0 150 100 15) = 10 := by
  simp only [measuredDistance, sqrt_real]
  norm_num [sqrt_100]

theorem edge_distance :
    measuredDistance (⟨140, 100⟩ : Vector2D ℝ) (.obstacle 2 180 100 15) = 40 := by
  simp only [measuredDistance, sqrt_real]
  norm_num [sqrt_1600]

/-- C21 (witness): the sensor at (140, 100) detects the obstacle 10 units away with
distance 10, and neither the obstacle exactly 40 units away nor the homebase under it. -/
theorem C21_detection_witness :
    (robotOneSensor : Robot ℝ).sensorPoints[0]? = some ⟨⟨140, 100⟩, []⟩ ∧
    ∃ sensed : SensorPoint ℝ,
      ((robotOneSensor : Robot ℝ).calculateForces configOneSensor canvas800 objectsNear
        (1 / 2) (1 / 2)).sensorPoints[0]? = some sensed ∧
      (⟨.obstacle 0 150 100 15, 10⟩ : Detection ℝ) ∈ sensed.detectedObjects ∧
      (∀ dist : ℝ, (⟨.obstacle 2 180 100 15, dist⟩ : Detection ℝ) ∉ sensed.detectedObjects) ∧
      (∀ dist : ℝ,
        (⟨.homebase 1 140 100 20 1, dist⟩ : Detection ℝ) ∉ sensed.detectedObjects) := by
  refine ⟨rfl, ?_⟩
  obtain ⟨sensed, h1, _, h3, h4, h5⟩ := C21_detection_pass (configOneSensor : Config ℝ)
    canvas800 objectsNear (1 / 2) (1 / 2) robotOneSensor 0 ⟨⟨140, 100⟩, []⟩ rfl rfl
  refine ⟨sensed, h1, ?_, ?_, ?_⟩
  · refine (h3 _ _).2 ⟨?_, Or.inr rfl, ?_, ?_⟩
    · simp [objectsNear]
    · rw [near_distance]
      show (10 : ℝ) < 40
      norm_num
    · exact near_distance.symm
  · intro dist
    exact h4 _ dist edge_distance
  · intro dist
    exact h5 _ dist (Or.inl rfl)

/-- C22 (witness): for the one-sensor agent next to the obstacles, with sensor range 40
and repulsive gain 150, every repulsion term has a magnitude between 0 and 150. -/
theorem C22_repulsion_witness :
    (∀ sensor ∈ (robotOneSensor : Robot ℝ).sensorPoints, sensor.detectedObjects = []) ∧
    0 < (configOneSensor : Config ℝ).sensorRange ∧
    0 ≤ (configOneSensor : Config ℝ).repulsiveForce ∧
    ∀ d ∈ allDetections ((robotOneSensor : Robot ℝ).calculateForces configOneSensor canvas800
        objectsNear (1 / 2) (1 / 2)).sensorPoints,
      0 ≤ ((((robotOneSensor : Robot ℝ).position.subtract (referencePoint d.object)).normalize).multiply
        ((1 - d.distance / (configOneSensor : Config ℝ).sensorRange) *
          (configOneSensor : Config ℝ).repulsiveForce)).magnitude ∧
      ((((robotOneSensor : Robot ℝ).position.subtract (referencePoint d.object)).normalize).multiply
        ((1 - d.distance / (configOneSensor : Config ℝ).sensorRange) *
          (configOneSensor : Config ℝ).repulsiveForce)).magnitude ≤
        (configOneSensor : Config ℝ).repulsiveForce := by
  have hempty : ∀ sensor ∈ (robotOneSensor : Robot ℝ).sensorPoints,
      sensor.detectedObjects = [] := by
    intro sensor hs
    simp only [robotOneSensor, List.mem_singleton] at hs
    rw [hs]
  have hrange : 0 < (configOneSensor : Config ℝ).sensorRange := by
    show (0 : ℝ) < 40
    norm_num
  have hrf : 0 ≤ (configOneSensor : Config ℝ).repulsiveForce := by
    show (0 : ℝ) ≤ 150
    norm_num
  exact ⟨hempty, hrange, hrf,
    (C22_repulsion_sum (configOneSensor : Config ℝ) canvas800 objectsNear (1 / 2) (1 / 2)
      robotOneSensor).2.2.2.2 hempty hrange hrf⟩

theorem sqrt_40000 : Real.sqrt 40000 = 200 := by
  rw [show (40000 : ℝ) = 200 * 200 by norm_num]
  exact Real.sqrt_mul_self (by norm_num)

/-- C23 (witness): the agent at (100, 100) with target homebase 1 at (300, 100), 200
units away: the attraction has magnitude 120 and the target stays 1. -/
theorem C23_attraction_witness :
    Robot.findTarget (worldGoal : Sim ℝ).world.objects
      (Robot.new (Config.initial : Config ℝ) 100 100).targetNumber =
        some (.homebase 1 300 100 20 1) ∧
    (20 : ℝ) + (Robot.new (Config.initial : Config ℝ) 100 100).collisionRadius ≤
      ((Robot.new (Config.initial : Config ℝ) 100 100).position.subtract ⟨300, 100⟩).magnitude ∧
    (attractionVector (Config.initial : Config ℝ) (worldGoal : Sim ℝ).world.objects
      (Robot.new Config.initial 100 100)).magnitude = |(Config.initial : Config ℝ).attractiveForce| ∧
    ((Robot.new (Config.initial : Config ℝ) 100 100).calculateForces Config.initial canvas800
      (worldGoal : Sim ℝ).world.objects (1 / 2) (1 / 2)).targetNumber = some 1 := by
  have hp : (Robot.new (Config.initial : Config ℝ) 100 100).position = ⟨100, 100⟩ := rfl
  have hc : (Robot.new (Config.initial : Config ℝ) 100 100).collisionRadius = 20 / 2 := rfl
  have hfar : (20 : ℝ) + (Robot.new (Config.initial : Config ℝ) 100 100).collisionRadius ≤
      ((Robot.new (Config.initial : Config ℝ) 100 100).position.subtract ⟨300, 100⟩).magnitude := by
    rw [hp, hc]
    norm_num [Vector2D.subtract, Vector2D.magnitude, sqrt_real, sqrt_40000]
  have h := (C23_attraction (Config.initial : Config ℝ) canvas800
    (worldGoal : Sim ℝ).world.objects (1 / 2) (1 / 2) (Robot.new Config.initial 100 100)).2.2
    1 300 100 20 1 rfl hfar
  refine ⟨rfl, hfar, h.2.2.2.1 ?_, h.2.1⟩
  rw [hc]
  norm_num

/-- C24 (witness): on the 800 by 600 canvas the agent at (780, 20) gets the boundary
force (-60, 60): away from the right edge and away from the top edge. -/
theorem C24_boundary_witness :
    (Robot.new (configNoSensors : Config ℝ) 780 20).position.x > (canvas800 : Canvas ℝ).width - 50 ∧
    (Robot.boundaryForce (configNoSensors : Config ℝ) canvas800
      (Robot.new configNoSensors 780 20)).x = -60 ∧
    (Robot.boundaryForce (configNoSensors : Config ℝ) canvas800
      (Robot.new configNoSensors 780 20)).y = 60 := by
  have hp : (Robot.new (configNoSensors : Config ℝ) 780 20).position = ⟨780, 20⟩ := rfl
  have hw : (canvas800 : Canvas ℝ).width = 800 := rfl
  have hbf : (configNoSensors : Config ℝ).boundaryForce = 100 := rfl
  have hx : (Robot.new (configNoSensors : Config ℝ) 780 20).position.x >
      (canvas800 : Canvas ℝ).width - 50 := by
    rw [hp, hw]; norm_num
  have h := C24_boundary_force (configNoSensors : Config ℝ) canvas800 [] (1 / 2) (1 / 2)
    (Robot.new configNoSensors 780 20)
  refine ⟨hx, ?_, ?_⟩
  · rw [h.2.2.2.2.2.2.2.2.2.1 (by rw [hw]; norm_num) hx, hp, hw, hbf]
    norm_num
  · rw [h.2.2.2.2.2.2.1 (by rw [hp]; norm_num), hp, hbf]
    norm_num

/-- C25 (witness): the agent of radius 10 on the 800 by 600 canvas stays within
[10, 790] on the x axis after the integration, and its acceleration is zero. -/
theorem C25_update_witness :
    2 * (robotAtA : Robot ℝ).collisionRadius ≤ (canvas800 : Canvas ℝ).width ∧
    2 * (robotAtA : Robot ℝ).collisionRadius ≤ (canvas800 : Canvas ℝ).height ∧
    (robotAtA : Robot ℝ).collisionRadius ≤
      ((robotAtA : Robot ℝ).update configNoSensors canvas800).position.x ∧
    ((robotAtA : Robot ℝ).update configNoSensors canvas800).position.x ≤
      (canvas800 : Canvas ℝ).width - (robotAtA : Robot ℝ).collisionRadius ∧
    ((robotAtA : Robot ℝ).update configNoSensors canvas800).acceleration = Vector2D.zero := by
  have hc : (robotAtA : Robot ℝ).collisionRadius = 20 / 2 := rfl
  have hw : (canvas800 : Canvas ℝ).width = 800 := rfl
  have hh : (canvas800 : Canvas ℝ).height = 600 := rfl
  have h1 : 2 * (robotAtA : Robot ℝ).collisionRadius ≤ (canvas800 : Canvas ℝ).width := by
    rw [hc, hw]; norm_num
  have h2 : 2 * (robotAtA : Robot ℝ).collisionRadius ≤ (canvas800 : Canvas ℝ).height := by
    rw [hc, hh]; norm_num
  have h := C25_update (configNoSensors : Config ℝ) canvas800 robotAtA h1 h2
  exact ⟨h1, h2, h.1, h.2.1, h.2.2.2.2.2.1⟩

theorem sensing_robot :
    (worldSensing : Sim ℝ).world.robot = some (Robot.new configOneSensor 100 100) := rfl

/-- C26 (witness): in the running world with one sensor, the force calculation of the
tick detects the obstacle (one detection, at distance 10), and after the tick the
detection list of the sensor is empty. -/
theorem C26_no_detections_witness :
    (worldSensing : Sim ℝ).world.state = .RUNNING ∧
    (worldSensing : Sim ℝ).world.robot = some robotOneSensor ∧
    allDetections ((robotOneSensor : Robot ℝ).calculateForces (worldSensing : Sim ℝ).config
      (worldSensing : Sim ℝ).canvas (worldSensing : Sim ℝ).world.objects
      (1 / 2) (1 / 2)).sensorPoints = [⟨.obstacle 1 150 100 15, 10⟩] ∧
    ∃ moved : Robot ℝ, (World.update (worldSensing : Sim ℝ) (1 / 2) (1 / 2)).world.robot =
        some moved ∧
      moved.sensorPoints.length = 1 ∧
      ∀ sensor ∈ moved.sensorPoints, sensor.detectedObjects = [] := by
  have hrobot : (worldSensing : Sim ℝ).world.robot = some robotOneSensor := by
    rw [sensing_robot, oneSensor_new]
  have hobjects : (worldSensing : Sim ℝ).world.objects =
      [.start 0 100 100 10, .obstacle 1 150 100 15] := rfl
  have hrange : (worldSensing : Sim ℝ).config.sensorRange = 40 := rfl
  refine ⟨rfl, hrobot, ?_, ?_⟩
  · rw [calculateForces_sensorPoints, hobjects]
    have hd : measuredDistance (⟨140, 100⟩ : Vector2D ℝ) (.obstacle 1 150 100 15) = 10 := by
      simp only [measuredDistance, sqrt_real]
      norm_num [sqrt_100]
    simp only [robotOneSensor, List.map_cons, List.map_nil, allDetections, List.flatMap_cons,
      List.flatMap_nil, List.append_nil, senseObjects_eq, List.nil_append, hrange]
    simp only [List.filter_cons, WorldObject.type, hd]
    norm_num [hd]
    rw [if_pos (by decide)]
    simp only [List.map_cons, List.map_nil, hd]
  · obtain ⟨moved, h1, h2, h3, _⟩ := C26_no_detections_between_ticks (worldSensing : Sim ℝ)
      robotOneSensor (1 / 2) (1 / 2) rfl hrobot
    exact ⟨moved, h1, h2, h3⟩

theorem afterRemovals_reachable : RegistryReachable (worldAfterRemovals : Sim ℝ) := by
  have h0 : RegistryReachable (Sim.initial canvas800 : Sim ℝ) :=
    RegistryReachable.empty _ rfl rfl
  have h1 := RegistryReachable.step _ _ h0 (RegistryStep.add _ (baseA : WorldObject ℝ))
  have h2 := RegistryReachable.step _ _ h1 (RegistryStep.add _ (baseB : WorldObject ℝ))
  have hobjects : (worldAB : Sim ℝ).world.objects =
      [.homebase 0 100 100 20 1, .homebase 1 300 100 20 2] := rfl
  have h3 := RegistryReachable.step _ _ h2
    (RegistryStep.remove (worldAB : Sim ℝ) (.homebase 0 100 100 20 1) (by
      intro o ho _
      rw [hobjects] at ho
      simp only [List.mem_cons, List.mem_singleton, List.not_mem_nil, or_false] at ho
      rcases ho with rfl | rfl <;> rfl))
  have hobjects' : (World.removeObject (worldAB : Sim ℝ) (.homebase 0 100 100 20 1)).world.objects =
      [.homebase 1 300 100 20 2] := rfl
  exact RegistryReachable.step _ _ h3
    (RegistryStep.remove _ (baseC : WorldObject ℝ) (by
      intro o ho _
      rw [hobjects'] at ho
      simp only [List.mem_singleton] at ho
      rw [ho]; rfl))

/-- C27 (witness): after adding homebases A and B, removing A and calling removeObject
with an object that is not in the registry, the counter is 1, the number of homebases
left, and 2 % counter is a number. -/
theorem C27_counter_witness :
    RegistryReachable (worldAfterRemovals : Sim ℝ) ∧
    (worldAfterRemovals : Sim ℝ).world.objects = [.homebase 1 300 100 20 2] ∧
    (worldAfterRemovals : Sim ℝ).config.homeBaseCounter = 1 ∧
    (worldAfterRemovals : Sim ℝ).config.homeBaseCounter =
      (homebaseCount (worldAfterRemovals : Sim ℝ).world.objects : Int) ∧
    jsMod 2 (worldAfterRemovals : Sim ℝ).config.homeBaseCounter =
      some (Int.tmod 2 (worldAfterRemovals : Sim ℝ).config.homeBaseCounter) := by
  have h := C27_counter_counts_homebases (worldAfterRemovals : Sim ℝ) afterRemovals_reachable
  exact ⟨afterRemovals_reachable, rfl, rfl, h.1,
    (h.2 (some 2) (.homebase 1 300 100 20 2) rfl).2 2⟩

/-- C28 (witness): with noise gain 0 the tick with draws (0, 0) and the tick with draws
(1/2, 3/4) give the same state. -/
theorem C28_noise_witness :
    (worldQuiet : Sim ℝ).config.noiseGain = 0 ∧
    World.update (worldQuiet : Sim ℝ) 0 0 = World.update (worldQuiet : Sim ℝ) (1 / 2) (3 / 4) :=
  ⟨rfl, (C28_noise (worldQuiet : Sim ℝ) 0 0 (1 / 2) (3 / 4)).1 rfl⟩

end RRSim
